import Mathlib

/-!
Shallow embedding of the CelestialMechanics N-body physics engine
(src/engine/physics/nbody.ts together with vector.ts, types.ts,
constants.ts and objectFactory.ts).

Modelling conventions:
* JavaScript `number` (IEEE-754 double) is modelled by the real numbers.
  All arithmetic in the source is smooth real arithmetic guarded by
  explicit clamps, so the real-number idealisation is the intended
  semantics; "never NaN/Infinity" claims become totality over the reals
  together with the clamping bounds.
* `Math.random()` draws and `crypto.randomUUID()` calls are threaded as
  explicit parameters (`HandlerRand`), one field per syntactic call site
  family, so every theorem quantifies over the randomness.
* Object ids (opaque unique strings in the source) are modelled as
  naturals; the `Map<CosmicObjectId, CosmicObject>` is modelled as a
  list of objects whose ids are the keys.
* `Date.now()` wall-clock reads are threaded as an explicit `now : ℝ`
  (milliseconds), matching the engine's real-time gates.
-/

namespace NBody

/-- Immutable 3-component vector, from vector.ts (class Vector3). -/
structure Vec3 where
  x : ℝ
  y : ℝ
  z : ℝ

namespace Vec3

/-- Vector3.zero() -/
def zero : Vec3 := ⟨0, 0, 0⟩

/-- Vector3.add -/
def add (a b : Vec3) : Vec3 := ⟨a.x + b.x, a.y + b.y, a.z + b.z⟩

/-- Vector3.subtract -/
def subtract (a b : Vec3) : Vec3 := ⟨a.x - b.x, a.y - b.y, a.z - b.z⟩

/-- Vector3.scale -/
def scale (a : Vec3) (s : ℝ) : Vec3 := ⟨a.x * s, a.y * s, a.z * s⟩

/-- Component-wise negation (used to state equal-and-opposite facts). -/
def neg (a : Vec3) : Vec3 := ⟨-a.x, -a.y, -a.z⟩

/-- Vector3.magnitude -/
noncomputable def magnitude (a : Vec3) : ℝ :=
  Real.sqrt (a.x * a.x + a.y * a.y + a.z * a.z)

/-- Vector3.distanceTo -/
noncomputable def distanceTo (a b : Vec3) : ℝ := (a.subtract b).magnitude

end Vec3

/-- The 13 object classifications, from types.ts (enum CosmicObjectType). -/
inductive CosmicObjectType where
  | STAR | PLANET | MOON | ASTEROID | COMET | BLACK_HOLE | NEUTRON_STAR
  | WHITE_DWARF | NEBULA | GALAXY | STAR_CLUSTER | GAS_CLOUD | DARK_MATTER_HALO
  deriving DecidableEq, Fintype

/-- The six collision kinds, the return values of classifyCollision
(the CollisionType union consumed by nbody.ts). -/
inductive CollisionType where
  | rocky_collision | gas_collision | stellar_collision
  | kilonova | blackhole_merger | tidal_disruption
  deriving DecidableEq, Fintype

open CosmicObjectType CollisionType

/-- Cosmic object, from types.ts, flattened: the base CosmicObject record
with its state / properties / metadata sub-records inlined, plus the
type-specialised fields the engine reads (Planet.isRocky, Nebula.extent,
Nebula.nebulaOriginMass, BlackHole.spin, BlackHole.isAccreting).
Fields the physics engine never consumes (orientation, angular velocity,
charge, magnetic field, visual colours, lod) are elided. -/
structure CosmicObject where
  id : ℕ
  type : CosmicObjectType
  /-- Planet.isRocky sub-flag; consumed only when type = PLANET. -/
  isRocky : Bool
  position : Vec3
  velocity : Vec3
  acceleration : Vec3
  /-- properties.mass (kg) -/
  mass : ℝ
  /-- properties.radius (m) -/
  radius : ℝ
  temperature : ℝ
  luminosity : ℝ
  density : ℝ
  isPhysicsEnabled : Bool
  /-- metadata.createdAt (ms timestamp) -/
  createdAt : ℝ
  /-- metadata.tags -/
  tags : List String
  /-- metadata.name -/
  name : String
  /-- Nebula.extent -/
  extent : Vec3
  /-- Nebula.nebulaOriginMass: set only on collision-spawned nebulae. -/
  nebulaOriginMass : Option ℝ
  /-- BlackHole.spin -/
  spin : ℝ
  /-- BlackHole.isAccreting -/
  isAccreting : Bool

/-- Physics configuration, from nbody.ts (interface PhysicsConfig). -/
structure PhysicsConfig where
  gravityStrength : ℝ
  gravityRange : ℝ
  dt : ℝ
  softening : ℝ
  maxForce : ℝ
  maxVelocity : ℝ
  enableCollisions : Bool
  enableDebugLogging : Bool
  velocityDamping : ℝ

/-- DEFAULT_PHYSICS_CONFIG from nbody.ts. -/
noncomputable def DEFAULT_PHYSICS_CONFIG : PhysicsConfig :=
  { gravityStrength := 50
    gravityRange := 5
    dt := 1 / 60
    softening := 0.3
    maxForce := 1e6
    maxVelocity := 200
    enableCollisions := true
    enableDebugLogging := false
    velocityDamping := 1.0 }

/-- Physical constants used by the engine (constants.ts, AstronomicalUnits). -/
def M_sun : ℝ := 1.989e30

/-- toSceneMass from nbody.ts: log-scale scene mass,
max(log10(max(realMass, 1)), 1). -/
noncomputable def toSceneMass (realMass : ℝ) : ℝ :=
  max (Real.logb 10 (max realMass 1)) 1

/-- getVisualRadius from nbody.ts: per-type visual collision radius.
The `luminosity || 1e26` JavaScript fallback (0 is falsy) is modelled by
the explicit zero test. -/
noncomputable def getVisualRadius (obj : CosmicObject) : ℝ :=
  match obj.type with
  | STAR => 0.5 + Real.logb 10 ((if obj.luminosity = 0 then 1e26 else obj.luminosity) + 1) / 10
  | BLACK_HOLE => max 0.8 (Real.logb 10 (obj.mass + 1) / 30)
  | PLANET => 0.2 + Real.logb 10 (obj.radius / 6.371e6 + 1) * 0.1
  | MOON => 0.2 + Real.logb 10 (obj.radius / 6.371e6 + 1) * 0.1
  | NEUTRON_STAR => 0.4
  | _ => 0.3

/-- The scalar force magnitude computed inside calculateGravitationalForce
(nbody.ts lines 270-300): softened inverse-square scene gravity with
exponential range falloff, clamped to config.maxForce. -/
noncomputable def forceMagnitude (cfg : PhysicsConfig)
    (obj1 obj2 : CosmicObject) : ℝ :=
  let dx := obj2.position.x - obj1.position.x
  let dy := obj2.position.y - obj1.position.y
  let dz := obj2.position.z - obj1.position.z
  let distSq := dx * dx + dy * dy + dz * dz
  let dist := Real.sqrt distSq
  let r1 := getVisualRadius obj1
  let r2 := getVisualRadius obj2
  let softeningLen := cfg.softening + 0.3 * (r1 + r2)
  let effectiveDistSq := distSq + softeningLen * softeningLen
  let mass1 := toSceneMass obj1.mass
  let mass2 := toSceneMass obj2.mass
  let gScene := 20.0 * (cfg.gravityStrength / 50)
  let forceMagBase := gScene * mass1 * mass2 / effectiveDistSq
  let maxRange := cfg.gravityRange * 100
  let forceMagFalloff :=
    if dist > maxRange * 0.5 then
      forceMagBase * Real.exp (-2.0 * (dist - maxRange * 0.5) / maxRange)
    else forceMagBase
  min forceMagFalloff cfg.maxForce

/-- calculateGravitationalForce from nbody.ts: the clamped magnitude from
forceMagnitude directed along obj1→obj2, or the zero vector when the
distance is below 1e-8. Returns the force ON obj1 FROM obj2. -/
noncomputable def calculateGravitationalForce (cfg : PhysicsConfig)
    (obj1 obj2 : CosmicObject) : Vec3 :=
  let dx := obj2.position.x - obj1.position.x
  let dy := obj2.position.y - obj1.position.y
  let dz := obj2.position.z - obj1.position.z
  let distSq := dx * dx + dy * dy + dz * dz
  let dist := Real.sqrt distSq
  let forceMag := forceMagnitude cfg obj1 obj2
  if dist < 1e-8 then Vec3.zero
  else ⟨forceMag * dx / dist, forceMag * dy / dist, forceMag * dz / dist⟩

/-- checkCollision from nbody.ts: bounding-sphere overlap on visual radii. -/
noncomputable def checkCollision (obj1 obj2 : CosmicObject) : Prop :=
  obj1.position.distanceTo obj2.position ≤ getVisualRadius obj1 + getVisualRadius obj2

noncomputable instance (obj1 obj2 : CosmicObject) : Decidable (checkCollision obj1 obj2) :=
  inferInstanceAs (Decidable (_ ≤ _))

/-- Gas-giant test used by classifyCollision:
`type === PLANET && (obj as Planet).isRocky === false`. -/
def isGasGiant (t : CosmicObjectType) (rocky : Bool) : Bool :=
  t = PLANET && rocky = false

/-- The decision core of classifyCollision from nbody.ts, as a function
of the only inputs it reads: the two type tags and the two Planet.isRocky
flags. The if-chain mirrors the source's priority order. -/
def classifyCore (t1 : CosmicObjectType) (rocky1 : Bool)
    (t2 : CosmicObjectType) (rocky2 : Bool) : CollisionType :=
  if t1 = BLACK_HOLE ∧ t2 = BLACK_HOLE then blackhole_merger
  else if t1 = BLACK_HOLE ∨ t2 = BLACK_HOLE then tidal_disruption
  else if t1 = NEUTRON_STAR ∧ t2 = NEUTRON_STAR then kilonova
  else if t1 = STAR ∧ t2 = STAR then stellar_collision
  else if (t1 = STAR ∧ t2 = NEUTRON_STAR) ∨ (t1 = NEUTRON_STAR ∧ t2 = STAR) then
    stellar_collision
  else if isGasGiant t1 rocky1 ∧ isGasGiant t2 rocky2 then gas_collision
  else if isGasGiant t1 rocky1 ∨ isGasGiant t2 rocky2 then gas_collision
  else if t1 = STAR ∨ t2 = STAR then stellar_collision
  else if t1 = NEUTRON_STAR ∨ t2 = NEUTRON_STAR then tidal_disruption
  else rocky_collision

/-- classifyCollision from nbody.ts. -/
def classifyCollision (obj1 obj2 : CosmicObject) : CollisionType :=
  classifyCore obj1.type obj1.isRocky obj2.type obj2.isRocky

/-- A generic concrete object used by witnesses; fields default to
benign values and are overridden per scenario. -/
def sampleObject : CosmicObject :=
  { id := 0, type := ASTEROID, isRocky := true, position := Vec3.zero,
    velocity := Vec3.zero, acceleration := Vec3.zero, mass := 5, radius := 1,
    temperature := 300, luminosity := 0, density := 5000, isPhysicsEnabled := true,
    createdAt := 0, tags := [], name := "sample", extent := Vec3.zero,
    nebulaOriginMass := none, spin := 0, isAccreting := false }

/-- Further astronomical constants from constants.ts used by the factories. -/
def R_sun : ℝ := 6.9634e8

/-- Solar luminosity (constants.ts). -/
def L_sun : ℝ := 3.828e26

/-- Parsec in meters (constants.ts). -/
def parsec : ℝ := 3.0857e16

/-- Explicit randomness consumed by the collision resolvers: one field per
family of Math.random() / crypto.randomUUID() call sites, indexed by the
spawn index where the source draws inside a loop. -/
structure HandlerRand where
  /-- The single Math.random() draw that fixes a spawn count. -/
  countDraw : ℝ
  /-- randomSphereDir theta draw, per spawn index. -/
  thetaDraw : ℕ → ℝ
  /-- randomSphereDir phi draw, per spawn index. -/
  phiDraw : ℕ → ℝ
  /-- Math.random() in the speed formulas. -/
  speedDraw : ℕ → ℝ
  /-- Math.random() in the radius formulas. -/
  sizeDraw : ℕ → ℝ
  /-- Math.random() in the temperature formulas. -/
  heatDraw : ℕ → ℝ
  /-- Math.random() in the gas-cloud density formula. -/
  densDraw : ℕ → ℝ
  /-- stellar resolver: the Math.random() > 0.3 gas-vs-solid draw. -/
  mixDraw : ℕ → ℝ
  /-- tidal resolver: angle jitter draw. -/
  jitterDraw : ℕ → ℝ
  /-- tidal resolver: orbit radius draw. -/
  distDraw : ℕ → ℝ
  /-- tidal resolver: out-of-plane offset draw. -/
  liftDraw : ℕ → ℝ
  /-- crypto.randomUUID() / generateId() fresh ids, per spawn index. -/
  ids : ℕ → ℕ

/-- The merge / absorption interaction kind of a collision event. -/
inductive EventKind where
  | merge | absorption
  deriving DecidableEq

/-- Collision event record, from nbody.ts (interface CollisionEvent).
The source's empty-string default resultId is modelled as none. -/
structure CollisionEvent where
  timestamp : ℝ
  object1Id : ℕ
  object2Id : ℕ
  object1Name : String
  object2Name : String
  kind : EventKind
  collisionType : CollisionType
  resultId : Option ℕ
  position : Vec3
  energy : ℝ

/-- Deferred kilonova collapse record, from nbody.ts (kilonovaCollapses). -/
structure KilonovaRecord where
  centerPos : Vec3
  centerVel : Vec3
  combinedMass : ℝ
  timestamp : ℝ
  debrisIds : List ℕ

/-- The engine state mutated by a collision-processing pass: the live
object map, the pending-removal set, the debris accumulator, the event
log, the kilonova records and the collision counter. checkedLog is proof
instrumentation only: it records each pair whose bounding-sphere test was
evaluated (the pairs not skipped by the pending-removal guard). -/
structure ResolveCtx where
  objects : List CosmicObject
  objectsToRemove : List ℕ
  debrisToAdd : List CosmicObject
  collisionEvents : List CollisionEvent
  kilonovaCollapses : List KilonovaRecord
  collisions : ℕ
  checkedLog : List (ℕ × ℕ)

/-- The common collision quantities from getCollisionCenter in nbody.ts. -/
structure CollisionCenter where
  centerPos : Vec3
  centerVel : Vec3
  totalMass : ℝ
  m1 : ℝ
  m2 : ℝ
  relVel : ℝ
  energy : ℝ

/-- getCollisionCenter from nbody.ts: mass-weighted center position and
velocity, total mass, relative speed and relative collision energy. -/
noncomputable def getCollisionCenter (obj1 obj2 : CosmicObject) : CollisionCenter :=
  let totalMass := obj1.mass + obj2.mass
  let m1 := obj1.mass
  let m2 := obj2.mass
  let centerPos := ((obj1.position.scale m1).add (obj2.position.scale m2)).scale (1 / totalMass)
  let centerVel := ((obj1.velocity.scale m1).add (obj2.velocity.scale m2)).scale (1 / totalMass)
  let relVel := (obj1.velocity.subtract obj2.velocity).magnitude
  let energy := 0.5 * (m1 * m2 / totalMass) * relVel * relVel
  ⟨centerPos, centerVel, totalMass, m1, m2, relVel, energy⟩

/-- randomSphereDir from nbody.ts, as a function of its two draws. -/
noncomputable def randomSphereDir (u v : ℝ) : Vec3 :=
  let theta := u * Real.pi * 2
  let phi := Real.arccos (2 * v - 1)
  ⟨Real.sin phi * Real.cos theta, Real.sin phi * Real.sin theta, Real.cos phi⟩

/-- recordCollisionEvent from nbody.ts: appends one event to the log. -/
def recordCollisionEvent (now : ℝ) (ctx : ResolveCtx) (obj1 obj2 : CosmicObject)
    (ct : CollisionType) (kind : EventKind) (centerPos : Vec3) (energy : ℝ)
    (resultId : Option ℕ) : ResolveCtx :=
  { ctx with collisionEvents := ctx.collisionEvents ++
      [⟨now, obj1.id, obj2.id, obj1.name, obj2.name, kind, ct, resultId, centerPos, energy⟩] }

/-- In-place mutation of the object stored under a given id
(the source handlers mutate the live Map entry through a reference). -/
def updateObj (objs : List CosmicObject) (i : ℕ)
    (f : CosmicObject → CosmicObject) : List CosmicObject :=
  objs.map fun o => if o.id = i then f o else o

/-- Map lookup by id (Map.get). -/
def findObj (objs : List CosmicObject) (i : ℕ) : Option CosmicObject :=
  objs.find? fun o => o.id == i

/-- All ordered index pairs i < j of a list, in the scan order of the
source's double loop. -/
def pairsOf {α : Type} : List α → List (α × α)
  | [] => []
  | a :: rest => (rest.map fun b => (a, b)) ++ pairsOf rest

/-- Debris object literal shared by the resolvers: an ordinary
physics-enabled object with the given kinematics, bulk properties and
debris tags (orientation/charge/magnetic-field fields elided). -/
def mkDebris (id : ℕ) (t : CosmicObjectType) (pos vel : Vec3)
    (mass radius temperature luminosity density : ℝ) (now : ℝ)
    (tags : List String) (name : String) : CosmicObject :=
  { id := id, type := t, isRocky := true, position := pos, velocity := vel,
    acceleration := Vec3.zero, mass := mass, radius := radius,
    temperature := temperature, luminosity := luminosity, density := density,
    isPhysicsEnabled := true, createdAt := now, tags := tags, name := name,
    extent := Vec3.zero, nebulaOriginMass := none, spin := 0, isAccreting := false }

/-- createBlackHole from objectFactory.ts: mass = massSolarUnits · M_sun,
Schwarzschild radius 2GM/c². The generated id and the Date.now() metadata
timestamp are passed explicitly. -/
noncomputable def createBlackHoleModel (id : ℕ) (now : ℝ) (name : String)
    (pos vel : Vec3) (massSolarUnits spin : ℝ) (isAccreting : Bool) : CosmicObject :=
  let mass := massSolarUnits * M_sun
  let schwarzschildRadius := 2 * 6.67430e-11 * mass / (299792458 * 299792458)
  { id := id, type := BLACK_HOLE, isRocky := false, position := pos, velocity := vel,
    acceleration := Vec3.zero, mass := mass, radius := schwarzschildRadius,
    temperature := 0, luminosity := 0,
    density := mass / (4 / 3 * Real.pi * schwarzschildRadius ^ 3),
    isPhysicsEnabled := true, createdAt := now, tags := [], name := name,
    extent := Vec3.zero, nebulaOriginMass := none, spin := spin,
    isAccreting := isAccreting }

/-- createStar from objectFactory.ts, specialized to the engine's call
sites, which pass only name/position/velocity/massSolarUnits: spectral
class defaults to G, so radius, temperature and luminosity take the
middle of the G-class ranges. -/
noncomputable def createStarModel (id : ℕ) (now : ℝ) (name : String)
    (pos vel : Vec3) (massSolarUnits : ℝ) : CosmicObject :=
  let mass := massSolarUnits * M_sun
  let radius := (0.96 + 1.15) / 2 * R_sun
  { id := id, type := STAR, isRocky := false, position := pos, velocity := vel,
    acceleration := Vec3.zero, mass := mass, radius := radius,
    temperature := (5200 + 6000) / 2,
    luminosity := (0.6 + 1.5) / 2 * L_sun,
    density := mass / (4 / 3 * Real.pi * radius ^ 3),
    isPhysicsEnabled := true, createdAt := now, tags := [], name := name,
    extent := Vec3.zero, nebulaOriginMass := none, spin := 0, isAccreting := false }

/-- createNebula from objectFactory.ts, specialized to the stellar
resolver's call site (nebulaType 'supernova_remnant', sizeParsecs 0.001,
no mass option): default mass 1e30, non-emission temperature 100,
luminosity 1e30, physics disabled, cubic extent of the size. -/
noncomputable def createNebulaModel (id : ℕ) (now : ℝ) (pos : Vec3) : CosmicObject :=
  let size := 0.001 * parsec
  { id := id, type := NEBULA, isRocky := false, position := pos,
    velocity := Vec3.zero, acceleration := Vec3.zero, mass := 1e30,
    radius := size, temperature := 100, luminosity := 1e30, density := 1e-21,
    isPhysicsEnabled := false, createdAt := now, tags := [],
    name := "Collision Nebula", extent := ⟨size, size, size⟩,
    nebulaOriginMass := none, spin := 0, isAccreting := false }

/-- handleRockyCollision from nbody.ts: mass ratio ≥ 3 means the larger
absorbs the smaller (mass added, temperature spike, small directed debris
burst near the larger body); otherwise both are destroyed and a debris
cloud is spawned at the barycenter. The JS division max/min yields the
source's ratio; for zero masses the source's Infinity ≥ 3 comparison is
matched only on positive masses, which all theorems assume. -/
noncomputable def handleRockyCollision (rand : HandlerRand) (now : ℝ)
    (ctx : ResolveCtx) (obj1 obj2 : CosmicObject) : ResolveCtx :=
  let c := getCollisionCenter obj1 obj2
  let r1 := getVisualRadius obj1
  let r2 := getVisualRadius obj2
  let massQuot := max c.m1 c.m2 / min c.m1 c.m2
  if massQuot ≥ 3 then
    let larger := if c.m1 > c.m2 then obj1 else obj2
    let smaller := if c.m1 > c.m2 then obj2 else obj1
    let objs := updateObj ctx.objects larger.id fun o =>
      { o with
               mass := o.mass + smaller.mass
               temperature := max o.temperature smaller.temperature + 200 }
    let debrisCount := min (⌊Real.sqrt (toSceneMass smaller.mass)⌋.toNat + 2) 6
    let spawnOffset := (r1 + r2) * 0.5
    let debris := (List.range debrisCount).map fun k =>
      let dir := randomSphereDir (rand.thetaDraw k) (rand.phiDraw k)
      let speed := rand.speedDraw k * 4.0 + 1.5
      mkDebris (rand.ids k) ASTEROID
        (larger.position.add (dir.scale spawnOffset))
        (larger.velocity.add (dir.scale speed))
        (smaller.mass / debrisCount) (0.1 + rand.sizeDraw k * 0.2)
        (max smaller.temperature 1500 + 500) 0 5000 now ["debris", "rocky"] "Debris"
    let ctxA := { ctx with
                  objects := objs
                  objectsToRemove := ctx.objectsToRemove ++ [smaller.id]
                  debrisToAdd := ctx.debrisToAdd ++ debris }
    recordCollisionEvent now ctxA obj1 obj2 rocky_collision EventKind.absorption
      larger.position c.energy none
  else
    let debrisCount := min (⌊Real.sqrt (toSceneMass c.totalMass)⌋.toNat + 3) 8
    let spawnOffset := (r1 + r2) * 0.5
    let debris := (List.range debrisCount).map fun k =>
      let dir := randomSphereDir (rand.thetaDraw k) (rand.phiDraw k)
      let speed := rand.speedDraw k * 5.0 + 2.0
      mkDebris (rand.ids k) ASTEROID
        (c.centerPos.add (dir.scale spawnOffset))
        (c.centerVel.add (dir.scale speed))
        (c.totalMass / debrisCount) (0.15 + rand.sizeDraw k * 0.25)
        (max obj1.temperature obj2.temperature + 500) 0 5000 now ["debris", "rocky"] "Debris"
    let ctxA := { ctx with
                  objectsToRemove := ctx.objectsToRemove ++ [obj1.id, obj2.id]
                  debrisToAdd := ctx.debrisToAdd ++ debris }
    recordCollisionEvent now ctxA obj1 obj2 rocky_collision EventKind.merge
      c.centerPos c.energy none

/-- handleGasCollision from nbody.ts: same asymmetric/symmetric split as
rocky, spawning gas-cloud debris. -/
noncomputable def handleGasCollision (rand : HandlerRand) (now : ℝ)
    (ctx : ResolveCtx) (obj1 obj2 : CosmicObject) : ResolveCtx :=
  let c := getCollisionCenter obj1 obj2
  let r1 := getVisualRadius obj1
  let r2 := getVisualRadius obj2
  let massQuot := max c.m1 c.m2 / min c.m1 c.m2
  if massQuot ≥ 3 then
    let larger := if c.m1 > c.m2 then obj1 else obj2
    let smaller := if c.m1 > c.m2 then obj2 else obj1
    let objs := updateObj ctx.objects larger.id fun o =>
      { o with mass := o.mass + smaller.mass }
    let debris := (List.range 4).map fun k =>
      let dir := randomSphereDir (rand.thetaDraw k) (rand.phiDraw k)
      let speed := rand.speedDraw k * 2 + 0.5
      mkDebris (rand.ids k) GAS_CLOUD
        (larger.position.add (dir.scale ((r1 + r2) * 0.4)))
        (larger.velocity.add (dir.scale speed))
        (smaller.mass * 0.1 / 4) (0.3 + rand.sizeDraw k * 0.4)
        200 0 5 now ["debris", "gas"] "Gas Puff"
    let ctxA := { ctx with
                  objects := objs
                  objectsToRemove := ctx.objectsToRemove ++ [smaller.id]
                  debrisToAdd := ctx.debrisToAdd ++ debris }
    recordCollisionEvent now ctxA obj1 obj2 gas_collision EventKind.absorption
      larger.position c.energy none
  else
    let debrisCount := min (⌊Real.sqrt (toSceneMass c.totalMass)⌋.toNat + 4) 12
    let spawnOffset := (r1 + r2) * 0.6
    let debris := (List.range debrisCount).map fun k =>
      let dir := randomSphereDir (rand.thetaDraw k) (rand.phiDraw k)
      let speed := rand.speedDraw k * 3.0 + 1.0
      mkDebris (rand.ids k) GAS_CLOUD
        (c.centerPos.add (dir.scale spawnOffset))
        (c.centerVel.add (dir.scale speed))
        (c.totalMass / debrisCount) (0.3 + rand.sizeDraw k * 0.5)
        (150 + rand.heatDraw k * 100) 0 (1 + rand.densDraw k * 9) now
        ["debris", "gas"] "Gas Cloud"
    let ctxA := { ctx with
                  objectsToRemove := ctx.objectsToRemove ++ [obj1.id, obj2.id]
                  debrisToAdd := ctx.debrisToAdd ++ debris }
    recordCollisionEvent now ctxA obj1 obj2 gas_collision EventKind.merge
      c.centerPos c.energy none

/-- handleStellarCollision from nbody.ts: a star absorbs a small
non-star/non-neutron-star body (mass + temperature bump, flare particles);
otherwise both are destroyed and either a black hole forms (star +
neutron star above the 3 M_sun TOV threshold) or a 15-30 piece debris
burst plus a nebula carrying 70% of the combined mass is spawned. -/
noncomputable def handleStellarCollision (rand : HandlerRand) (now : ℝ)
    (ctx : ResolveCtx) (obj1 obj2 : CosmicObject) : ResolveCtx :=
  let c := getCollisionCenter obj1 obj2
  let r1 := getVisualRadius obj1
  let r2 := getVisualRadius obj2
  if (obj1.type = STAR ∧ ¬obj2.type = STAR ∧ ¬obj2.type = NEUTRON_STAR) ∨
     (obj2.type = STAR ∧ ¬obj1.type = STAR ∧ ¬obj1.type = NEUTRON_STAR) then
    let star := if obj1.type = STAR then obj1 else obj2
    let other := if obj1.type = STAR then obj2 else obj1
    let objs := updateObj ctx.objects star.id fun o =>
      { o with mass := o.mass + other.mass, temperature := o.temperature + 500 }
    let debris := (List.range 5).map fun k =>
      let dir := randomSphereDir (rand.thetaDraw k) (rand.phiDraw k)
      let speed := rand.speedDraw k * 6 + 2
      mkDebris (rand.ids k) GAS_CLOUD
        (star.position.add (dir.scale (r1 * 0.8)))
        (star.velocity.add (dir.scale speed))
        (other.mass * 0.05) 0.15 8000 1e24 100 now
        ["debris", "stellar_flare"] "Stellar Flare"
    let ctxA := { ctx with
                  objects := objs
                  objectsToRemove := ctx.objectsToRemove ++ [other.id]
                  debrisToAdd := ctx.debrisToAdd ++ debris }
    recordCollisionEvent now ctxA obj1 obj2 stellar_collision EventKind.absorption
      star.position c.energy none
  else
    let ctx0 := { ctx with objectsToRemove := ctx.objectsToRemove ++ [obj1.id, obj2.id] }
    if ((obj1.type = STAR ∧ obj2.type = NEUTRON_STAR) ∨
        (obj2.type = STAR ∧ obj1.type = NEUTRON_STAR)) ∧ c.totalMass > 3 * M_sun then
      let bh := createBlackHoleModel (rand.ids 0) now "Collision Black Hole"
        c.centerPos c.centerVel (c.totalMass / M_sun) 0 true
      let ctxB := { ctx0 with debrisToAdd := ctx0.debrisToAdd ++ [bh] }
      recordCollisionEvent now ctxB obj1 obj2 stellar_collision EventKind.merge
        c.centerPos (c.energy * 10) (some bh.id)
    else
      let debrisCount := 15 + (⌊rand.countDraw * 16⌋).toNat
      let spawnOffset := (r1 + r2) * 0.6
      let debris := (List.range debrisCount).map fun k =>
        let dir := randomSphereDir (rand.thetaDraw k) (rand.phiDraw k)
        let speed := rand.speedDraw k * 12 + 5
        let isGas := rand.mixDraw k > 0.3
        mkDebris (rand.ids k) (if isGas then GAS_CLOUD else ASTEROID)
          (c.centerPos.add (dir.scale spawnOffset))
          (c.centerVel.add (dir.scale speed))
          (c.totalMass * 0.01)
          (if isGas then 0.2 + rand.sizeDraw k * 0.4 else 0.1 + rand.sizeDraw k * 0.15)
          (15000 + rand.heatDraw k * 10000) 1e25 (if isGas then 10 else 3000) now
          ["debris", "stellar"] "Stellar Debris"
      let massSolar := c.totalMass / M_sun
      let nebulaExtent := min (max (2 + massSolar * 0.5) 2) 30
      let nebula0 := createNebulaModel (rand.ids debrisCount) now c.centerPos
      let nebula := { nebula0 with
                      mass := c.totalMass * 0.7
                      isPhysicsEnabled := true, velocity := c.centerVel
                      extent := ⟨nebulaExtent, nebulaExtent, nebulaExtent⟩
                      nebulaOriginMass := some c.totalMass }
      let ctxB := { ctx0 with debrisToAdd := ctx0.debrisToAdd ++ debris ++ [nebula] }
      recordCollisionEvent now ctxB obj1 obj2 stellar_collision EventKind.merge
        c.centerPos (c.energy * 5) (some nebula.id)

/-- handleKilonovaCollision from nbody.ts: both neutron stars destroyed,
30-50 ejecta pieces spawned, and a deferred collapse record registered
with the spawned debris-id list and the Date.now() timestamp. -/
noncomputable def handleKilonovaCollision (rand : HandlerRand) (now : ℝ)
    (ctx : ResolveCtx) (obj1 obj2 : CosmicObject) : ResolveCtx :=
  let c := getCollisionCenter obj1 obj2
  let r1 := getVisualRadius obj1
  let r2 := getVisualRadius obj2
  let ctx0 := { ctx with objectsToRemove := ctx.objectsToRemove ++ [obj1.id, obj2.id] }
  let debrisCount := 30 + (⌊rand.countDraw * 21⌋).toNat
  let spawnOffset := (r1 + r2) * 0.5
  let debrisIds := (List.range debrisCount).map rand.ids
  let debris := (List.range debrisCount).map fun k =>
    let dir := randomSphereDir (rand.thetaDraw k) (rand.phiDraw k)
    let speed := rand.speedDraw k * 20 + 8
    mkDebris (rand.ids k) ASTEROID
      (c.centerPos.add (dir.scale spawnOffset))
      (c.centerVel.add (dir.scale speed))
      (c.totalMass / debrisCount) (0.08 + rand.sizeDraw k * 0.12)
      (50000 + rand.heatDraw k * 50000) 1e28 1e17 now
      ["debris", "kilonova_debris"] "Kilonova Ejecta"
  let ctxA := { ctx0 with
                debrisToAdd := ctx0.debrisToAdd ++ debris
                kilonovaCollapses := ctx0.kilonovaCollapses ++
                  [⟨c.centerPos, c.centerVel, c.totalMass, now, debrisIds⟩] }
  recordCollisionEvent now ctxA obj1 obj2 kilonova EventKind.merge
    c.centerPos (c.energy * 20) none

/-- handleBlackHoleMerger from nbody.ts: both black holes destroyed, one
new black hole with summed mass, averaged spin and OR'd accretion flag. -/
noncomputable def handleBlackHoleMerger (rand : HandlerRand) (now : ℝ)
    (ctx : ResolveCtx) (obj1 obj2 : CosmicObject) : ResolveCtx :=
  let c := getCollisionCenter obj1 obj2
  let ctx0 := { ctx with objectsToRemove := ctx.objectsToRemove ++ [obj1.id, obj2.id] }
  let avgSpin := (obj1.spin + obj2.spin) / 2
  let newBH := createBlackHoleModel (rand.ids 0) now "Merged Black Hole"
    c.centerPos c.centerVel (c.totalMass / M_sun) avgSpin
    (obj1.isAccreting || obj2.isAccreting)
  let ctxA := { ctx0 with debrisToAdd := ctx0.debrisToAdd ++ [newBH] }
  recordCollisionEvent now ctxA obj1 obj2 blackhole_merger EventKind.merge
    c.centerPos (c.energy * 0.05) (some newBH.id)

/-- handleTidalDisruption from nbody.ts: the attractor (black hole, else
neutron star) absorbs the victim's mass and is flagged accreting if it is
a black hole; the victim is destroyed and 10-20 debris pieces are spawned
in an orbital pattern around the attractor. The event energy is computed
from the already-mass-updated attractor, as in the source. -/
noncomputable def handleTidalDisruption (rand : HandlerRand) (now : ℝ)
    (ctx : ResolveCtx) (obj1 obj2 : CosmicObject) : ResolveCtx :=
  let attractorIsObj1 :=
    obj1.type = BLACK_HOLE ∨ (¬obj2.type = BLACK_HOLE ∧ obj1.type = NEUTRON_STAR)
  let attractor := if attractorIsObj1 then obj1 else obj2
  let victim := if attractorIsObj1 then obj2 else obj1
  let objs := updateObj ctx.objects attractor.id fun o =>
    { o with
             mass := o.mass + victim.mass
             isAccreting := if attractor.type = BLACK_HOLE then true else o.isAccreting }
  let energyCtr :=
    if attractorIsObj1 then
      getCollisionCenter { obj1 with mass := obj1.mass + obj2.mass } obj2
    else
      getCollisionCenter obj1 { obj2 with mass := obj2.mass + obj1.mass }
  let debrisCount := 10 + (⌊rand.countDraw * 11⌋).toNat
  let attractorR := getVisualRadius attractor
  let orbitRadius := attractorR * 2.5
  let debris := (List.range debrisCount).map fun (k : ℕ) =>
    let angle := (k : ℝ) / debrisCount * Real.pi * 2 + rand.jitterDraw k * 0.3
    let r := orbitRadius * (1.0 + rand.distDraw k * 1.5)
    let yOffset := (rand.liftDraw k - 0.5) * 0.3
    let orbitalSpeed := 4 + rand.speedDraw k * 6
    mkDebris (rand.ids k) GAS_CLOUD
      ⟨attractor.position.x + Real.cos angle * r,
       attractor.position.y + yOffset,
       attractor.position.z + Real.sin angle * r⟩
      ⟨attractor.velocity.x + (-Real.sin angle) * orbitalSpeed,
       attractor.velocity.y,
       attractor.velocity.z + Real.cos angle * orbitalSpeed⟩
      (victim.mass / debrisCount) (0.1 + rand.sizeDraw k * 0.15)
      (30000 + rand.heatDraw k * 30000) 1e27 100 now
      ["debris", "tidal"] "Accretion Stream"
  let ctxA := { ctx with
                objects := objs
                objectsToRemove := ctx.objectsToRemove ++ [victim.id]
                debrisToAdd := ctx.debrisToAdd ++ debris }
  recordCollisionEvent now ctxA obj1 obj2 tidal_disruption EventKind.absorption
    attractor.position (energyCtr.energy * 8) none

/-- The switch over the classified collision type inside processCollisions
(nbody.ts lines 409-430), selecting the resolver for a colliding pair. -/
noncomputable def dispatchResolver (rand : HandlerRand) (now : ℝ)
    (ctx : ResolveCtx) (obj1 obj2 : CosmicObject) : ResolveCtx :=
  match classifyCollision obj1 obj2 with
  | rocky_collision => handleRockyCollision rand now ctx obj1 obj2
  | gas_collision => handleGasCollision rand now ctx obj1 obj2
  | stellar_collision => handleStellarCollision rand now ctx obj1 obj2
  | kilonova => handleKilonovaCollision rand now ctx obj1 obj2
  | blackhole_merger => handleBlackHoleMerger rand now ctx obj1 obj2
  | tidal_disruption => handleTidalDisruption rand now ctx obj1 obj2

/-- Dispatch of one scanned pair inside processCollisions (nbody.ts lines
391-432): skip if either member is already marked for removal, otherwise
evaluate the bounding-sphere test; on collision bump the counter, and
either merge-without-debris when the live map holds more than 300 objects
or run the classified resolver. randFor supplies each pair's randomness,
keyed by the two ids. -/
noncomputable def resolvePair (randFor : ℕ → ℕ → HandlerRand) (now : ℝ)
    (ctx : ResolveCtx) (p : ℕ × ℕ) : ResolveCtx :=
  match findObj ctx.objects p.1, findObj ctx.objects p.2 with
  | some obj1, some obj2 =>
    if obj1.id ∈ ctx.objectsToRemove ∨ obj2.id ∈ ctx.objectsToRemove then ctx
    else
      let ctx1 := { ctx with checkedLog := ctx.checkedLog ++ [p] }
      if checkCollision obj1 obj2 then
        let ctx2 := { ctx1 with collisions := ctx1.collisions + 1 }
        if ctx2.objects.length > 300 then
          { ctx2 with objectsToRemove := ctx2.objectsToRemove ++ [obj1.id, obj2.id] }
        else dispatchResolver (randFor p.1 p.2) now ctx2 obj1 obj2
      else ctx1
  | _, _ => ctx

/-- Engine state: the object map, the pending-removal set, the collision
event log, the kilonova records and the statistics the claims read. -/
structure EngineState where
  objects : List CosmicObject
  objectsToRemove : List ℕ
  collisionEvents : List CollisionEvent
  kilonovaCollapses : List KilonovaRecord
  collisions : ℕ
  objectCount : ℕ

/-- The snapshot scanned by processCollisions: physics-enabled objects not
already marked for removal. -/
def collisionSnapshot (st : EngineState) : List CosmicObject :=
  st.objects.filter fun o => o.isPhysicsEnabled && !(st.objectsToRemove.contains o.id)

/-- The fold of resolvePair over all i < j pairs of the snapshot. -/
noncomputable def collisionScan (randFor : ℕ → ℕ → HandlerRand) (now : ℝ)
    (st : EngineState) : ResolveCtx :=
  (pairsOf ((collisionSnapshot st).map (·.id))).foldl (resolvePair randFor now)
    { objects := st.objects
      objectsToRemove := st.objectsToRemove
      debrisToAdd := []
      collisionEvents := st.collisionEvents
      kilonovaCollapses := st.kilonovaCollapses
      collisions := st.collisions
      checkedLog := [] }

/-- processCollisions from nbody.ts: scan all pairs of the snapshot, then
apply the accumulated removals, clear the pending-removal set, append the
debris, and refresh the object count — all after the full scan. -/
noncomputable def processCollisions (cfg : PhysicsConfig)
    (randFor : ℕ → ℕ → HandlerRand) (now : ℝ) (st : EngineState) : EngineState :=
  if !cfg.enableCollisions then st
  else
    let ctx := collisionScan randFor now st
    let newObjects :=
      (ctx.objects.filter fun o => !(ctx.objectsToRemove.contains o.id)) ++ ctx.debrisToAdd
    { objects := newObjects
      objectsToRemove := []
      collisionEvents := ctx.collisionEvents
      kilonovaCollapses := ctx.kilonovaCollapses
      collisions := ctx.collisions
      objectCount := newObjects.length }

/-- The inner star-formation loop of processNebulaEvolution (nbody.ts
lines 991-1016): up to starCount baby stars, each taking 20% of the
nebula's remaining mass, breaking early once the remaining mass drops to
the formation threshold; stars are inserted into the live map as they are
created. -/
noncomputable def spawnBabyStars (rand : HandlerRand) (now : ℝ) (nid : ℕ) :
    ℕ → ℕ → List CosmicObject → List CosmicObject
  | 0, _, objs => objs
  | fuel + 1, i, objs =>
    match findObj objs nid with
    | none => objs
    | some n =>
      if n.mass ≤ 5 * M_sun then objs
      else
        let starMass := n.mass * 0.2
        let objsA := updateObj objs nid fun o => { o with mass := o.mass - starMass }
        let offset : Vec3 :=
          ⟨(rand.thetaDraw i - 0.5) * n.extent.x * 0.8,
           (rand.phiDraw i - 0.5) * n.extent.y * 0.8,
           (rand.sizeDraw i - 0.5) * n.extent.z * 0.8⟩
        let vel : Vec3 :=
          ⟨(rand.speedDraw i - 0.5) * 0.5,
           (rand.heatDraw i - 0.5) * 0.5,
           (rand.densDraw i - 0.5) * 0.5⟩
        let babyStar := createStarModel (rand.ids i) now "Baby Star"
          (n.position.add offset) (n.velocity.add vel) (starMass / M_sun)
        spawnBabyStars rand now nid fuel (i + 1) (objsA ++ [babyStar])

/-- The star-formation half of one nebula's evolution step inside
processNebulaEvolution: when age and mass exceed their thresholds and
nebulaOriginMass is defined, 1-3 baby stars are spawned and createdAt is
pushed forward to now; otherwise the map is untouched. -/
noncomputable def nebulaForm (nrand : ℕ → HandlerRand) (now : ℝ)
    (objs : List CosmicObject) (nid : ℕ) : List CosmicObject :=
  match findObj objs nid with
  | none => objs
  | some n =>
    if now - n.createdAt > 30000 ∧ n.mass > 5 * M_sun ∧ n.nebulaOriginMass ≠ none then
      let starCount := 1 + (⌊(nrand nid).countDraw * 3⌋).toNat
      let objsS := spawnBabyStars (nrand nid) now nid starCount 0 objs
      updateObj objsS nid fun o => { o with createdAt := now }
    else objs

/-- The dissipation check at the end of the nebula loop body: the nebula
is deleted from the map when its (possibly just reduced) mass has fallen
below half a solar mass. -/
noncomputable def nebulaDissipate (objs : List CosmicObject) (nid : ℕ) :
    List CosmicObject :=
  match findObj objs nid with
  | none => objs
  | some n2 =>
    if n2.mass < 0.5 * M_sun then objs.filter (fun o => !(o.id == nid)) else objs

/-- One nebula's evolution step inside processNebulaEvolution: the
star-formation stage followed by the dissipation check on the live
(possibly reduced) mass. -/
noncomputable def evolveNebula (nrand : ℕ → HandlerRand) (now : ℝ)
    (objs : List CosmicObject) (nid : ℕ) : List CosmicObject :=
  nebulaDissipate (nebulaForm nrand now objs nid) nid

/-- processNebulaEvolution from nbody.ts: run evolveNebula over the
snapshot of all nebula-type objects, then refresh the object count. -/
noncomputable def processNebulaEvolution (nrand : ℕ → HandlerRand) (now : ℝ)
    (st : EngineState) : EngineState :=
  let nebulaIds := (st.objects.filter fun o => o.type == NEBULA).map (·.id)
  let objs := nebulaIds.foldl (evolveNebula nrand now) st.objects
  { st with objects := objs, objectCount := objs.length }

/-- processKilonovaCollapse from nbody.ts: every record whose 5000 ms
delay has elapsed has its debris ids deleted from the map and one new
high-spin accreting black hole inserted at the recorded center with the
recorded combined mass; completed records are discarded. freshIds gives
the generated id per record index. -/
noncomputable def processKilonovaCollapse (freshIds : ℕ → ℕ) (now : ℝ)
    (st : EngineState) : EngineState :=
  let objs := st.kilonovaCollapses.enum.foldl
    (fun objs (ikn : ℕ × KilonovaRecord) =>
      if now - ikn.2.timestamp ≥ 5000 then
        (objs.filter fun o => !(ikn.2.debrisIds.contains o.id)) ++
          [createBlackHoleModel (freshIds ikn.1) now "Kilonova Black Hole"
            ikn.2.centerPos ikn.2.centerVel (ikn.2.combinedMass / M_sun) 0.7 true]
      else objs)
    st.objects
  let remaining := st.kilonovaCollapses.filter fun kn =>
    decide (¬ now - kn.timestamp ≥ 5000)
  { st with objects := objs
            kilonovaCollapses := remaining
            objectCount :=
              if st.kilonovaCollapses.any (fun kn => decide (now - kn.timestamp ≥ 5000)) then
                objs.length
              else st.objectCount }

/-- Acceleration of one object from the pairwise force sum over the other
physics-enabled objects, divided by the floored scene mass (nbody.ts
step, STEP 1 / STEP 3). -/
noncomputable def accelOf (cfg : PhysicsConfig) (phys : List CosmicObject)
    (o : CosmicObject) : Vec3 :=
  let total := (phys.filter fun p => !(p.id == o.id)).foldl
    (fun acc p => acc.add (calculateGravitationalForce cfg o p)) Vec3.zero
  total.scale (1 / max (toSceneMass o.mass) 0.1)

/-- Acceleration keyed by object id, Vec3.zero for unknown ids
(the accelerations Map with its `?? zero` fallback). -/
noncomputable def accelMap (cfg : PhysicsConfig) (phys : List CosmicObject)
    (i : ℕ) : Vec3 :=
  match findObj phys i with
  | some o => accelOf cfg phys o
  | none => Vec3.zero

/-- The STEP 2 position update of one object:
x + v·dt + 0.5·a·dt² componentwise. -/
noncomputable def posStep (a : Vec3) (dt : ℝ) (o : CosmicObject) : CosmicObject :=
  { o with position :=
      ⟨o.position.x + o.velocity.x * dt + a.x * (0.5 * dt * dt),
       o.position.y + o.velocity.y * dt + a.y * (0.5 * dt * dt),
       o.position.z + o.velocity.z * dt + a.z * (0.5 * dt * dt)⟩ }

/-- The STEP 4 velocity update of one object: v + 0.5·(a1 + a2)·dt with
the post-update clamp to cfg.maxVelocity, storing the new acceleration. -/
noncomputable def velStep (cfg : PhysicsConfig) (a1 a2 : Vec3) (dt : ℝ)
    (o : CosmicObject) : CosmicObject :=
  let v : Vec3 :=
    ⟨o.velocity.x + (a1.x + a2.x) * (0.5 * dt),
     o.velocity.y + (a1.y + a2.y) * (0.5 * dt),
     o.velocity.z + (a1.z + a2.z) * (0.5 * dt)⟩
  let vClamped := if v.magnitude > cfg.maxVelocity then
      v.scale (cfg.maxVelocity / v.magnitude)
    else v
  { o with velocity := vClamped, acceleration := a2 }

/-- The velocity-Verlet integration phase of step (nbody.ts STEP 1-4):
accelerations at current positions, position update, accelerations
recomputed at the new positions, then the velocity update with its clamp.
Non-physics objects are untouched. -/
noncomputable def integrate (cfg : PhysicsConfig) (dt : ℝ)
    (objs : List CosmicObject) : List CosmicObject :=
  let phys := objs.filter (·.isPhysicsEnabled)
  let acc1 := accelMap cfg phys
  let objs1 := objs.map fun o =>
    if o.isPhysicsEnabled then posStep (acc1 o.id) dt o else o
  let phys1 := objs1.filter (·.isPhysicsEnabled)
  let acc2 := accelMap cfg phys1
  objs1.map fun o =>
    if o.isPhysicsEnabled then velStep cfg (acc1 o.id) (acc2 o.id) dt o else o

/-- step from nbody.ts: no-op below the 1e-10 time-step floor and when no
physics-enabled objects exist; otherwise Verlet integration, collision
processing, nebula evolution and kilonova collapse, in that order.
Timing statistics are elided. -/
noncomputable def step (cfg : PhysicsConfig) (randFor : ℕ → ℕ → HandlerRand)
    (nrand : ℕ → HandlerRand) (freshIds : ℕ → ℕ) (now : ℝ)
    (dtArg : Option ℝ) (st : EngineState) : EngineState :=
  let timeStep := dtArg.getD cfg.dt
  if timeStep < 1e-10 then st
  else if (st.objects.filter (·.isPhysicsEnabled)).isEmpty then st
  else
    let stI := { st with objects := integrate cfg timeStep st.objects }
    let stC := processCollisions cfg randFor now stI
    let stN := processNebulaEvolution nrand now stC
    processKilonovaCollapse freshIds now stN

/-- addObject from nbody.ts: insert into the map (fresh id) and refresh
the object count. -/
def addObject (st : EngineState) (o : CosmicObject) : EngineState :=
  { st with objects := st.objects ++ [o], objectCount := st.objects.length + 1 }

/-- clear from nbody.ts: empties the object map, resets the object count,
the collision counter and the collision-event log — and nothing else: the
pending-removal set and the kilonova collapse records are left untouched. -/
def clear (st : EngineState) : EngineState :=
  { st with objects := []
            objectCount := 0
            collisions := 0
            collisionEvents := [] }

/-- Trivial concrete randomness source for witnesses. -/
def zeroRand : HandlerRand :=
  { countDraw := 0, thetaDraw := fun _ => 0, phiDraw := fun _ => 0,
    speedDraw := fun _ => 0, sizeDraw := fun _ => 0, heatDraw := fun _ => 0,
    densDraw := fun _ => 0, mixDraw := fun _ => 0, jitterDraw := fun _ => 0,
    distDraw := fun _ => 0, liftDraw := fun _ => 0, ids := fun k => 1000 + k }

/-- Concrete 301-object engine state with two overlapping asteroids, for
the C7 witness. -/
def capState : EngineState :=
  { objects := { sampleObject with id := 1 } :: { sampleObject with id := 2 } ::
      List.replicate 299 { sampleObject with id := 3 }
    objectsToRemove := []
    collisionEvents := []
    kilonovaCollapses := []
    collisions := 0
    objectCount := 301 }

/-- Concrete pair of coincident neutron stars for the C4 witness. -/
def nsObjA : CosmicObject := { sampleObject with id := 1, type := NEUTRON_STAR, mass := 2.8e30 }

/-- Second neutron star of the witness pair. -/
def nsObjB : CosmicObject := { sampleObject with id := 2, type := NEUTRON_STAR, mass := 2.8e30 }

/-- The witness two-neutron-star engine state. -/
def nsState : EngineState :=
  { objects := [nsObjA, nsObjB]
    objectsToRemove := []
    collisionEvents := []
    kilonovaCollapses := []
    collisions := 0
    objectCount := 2 }

/-- Concrete star for the C5 witness. -/
def starObj : CosmicObject :=
  { sampleObject with id := 1, type := STAR, mass := 4e30, luminosity := 1e26 }

/-- Concrete neutron star for the C5 witness. -/
def nsObjC : CosmicObject :=
  { sampleObject with id := 2, type := NEUTRON_STAR, mass := 2.8e30 }

/-- The witness star + neutron-star engine state. -/
def starNsState : EngineState :=
  { objects := [starObj, nsObjC]
    objectsToRemove := []
    collisionEvents := []
    kilonovaCollapses := []
    collisions := 0
    objectCount := 2 }

/-- The absorption outcome of C3: one of the two colliding objects
survives carrying the sum of both pre-collision masses, and the absorbed
object's id is gone from the object set. -/
def absorbedInto (stA : EngineState) (o1 o2 : CosmicObject) : Prop :=
  ∃ surv vict : CosmicObject,
    ((surv = o1 ∧ vict = o2) ∨ (surv = o2 ∧ vict = o1)) ∧
    vict.id ∉ stA.objects.map (·.id) ∧
    ∃ s ∈ stA.objects, s.id = surv.id ∧ s.mass = o1.mass + o2.mass

/-- Concrete black hole for the C3 witness. -/
def bhObj : CosmicObject :=
  { sampleObject with id := 1, type := BLACK_HOLE, mass := 6e30 }

/-- Concrete asteroid victim for the C3 witness. -/
def astObj : CosmicObject := { sampleObject with id := 2 }

/-- The witness black-hole + asteroid engine state. -/
def bhState : EngineState :=
  { objects := [bhObj, astObj]
    objectsToRemove := []
    collisionEvents := []
    kilonovaCollapses := []
    collisions := 0
    objectCount := 2 }

/-- A nebula as the object factory produces it: nebulaOriginMass is never
set, so the star-formation guard's third conjunct fails no matter how old
and heavy the nebula is. -/
def loneNebula : CosmicObject :=
  { id := 5, type := NEBULA, isRocky := false, position := Vec3.zero,
    velocity := Vec3.zero, acceleration := Vec3.zero, mass := 1e32,
    radius := 1, temperature := 100, luminosity := 0, density := 1,
    isPhysicsEnabled := false, createdAt := 0, tags := [], name := "user nebula",
    extent := ⟨1, 1, 1⟩, nebulaOriginMass := none, spin := 0,
    isAccreting := false }

/-- Engine state holding only the factory-style nebula. -/
def loneNebSt : EngineState :=
  { objects := [loneNebula], objectsToRemove := [], collisionEvents := [],
    kilonovaCollapses := [], collisions := 0, objectCount := 1 }

/-- A collision-spawned-style nebula (nebulaOriginMass defined) for the
C8 amended-claim witness. -/
def witNebula : CosmicObject :=
  { id := 7, type := NEBULA, isRocky := false, position := Vec3.zero,
    velocity := Vec3.zero, acceleration := Vec3.zero, mass := 4e31,
    radius := 1, temperature := 100, luminosity := 0, density := 1,
    isPhysicsEnabled := false, createdAt := 0, tags := [], name := "remnant",
    extent := ⟨1, 1, 1⟩, nebulaOriginMass := some 4e31, spin := 0,
    isAccreting := false }

/-- Engine state holding only the origin-carrying nebula. -/
def witNebSt : EngineState :=
  { objects := [witNebula], objectsToRemove := [], collisionEvents := [],
    kilonovaCollapses := [], collisions := 0, objectCount := 1 }

/-- A resting asteroid at the origin. -/
def restA : CosmicObject := { sampleObject with id := 1 }

/-- A resting asteroid 10 scene units along the x axis. -/
def restB : CosmicObject := { sampleObject with id := 2, position := ⟨10, 0, 0⟩ }

/-- A kilonova record registered long before, with its delay elapsed. -/
def kcRecord : KilonovaRecord :=
  { centerPos := Vec3.zero, centerVel := Vec3.zero, combinedMass := 5.6e30,
    timestamp := 1000, debrisIds := [11, 12] }

/-- A state holding one object and the pending kilonova record. -/
def kcState : EngineState :=
  { objects := [sampleObject], objectsToRemove := [], collisionEvents := [],
    kilonovaCollapses := [kcRecord], collisions := 3, objectCount := 1 }

namespace Vec3

@[simp] theorem add_def (a b : Vec3) : a.add b = ⟨a.x + b.x, a.y + b.y, a.z + b.z⟩ := rfl

@[simp] theorem zero_add (a : Vec3) : zero.add a = a := by
  simp [zero, add]

@[simp] theorem add_zero (a : Vec3) : a.add zero = a := by
  simp [zero, add]

@[simp] theorem zero_scale (s : ℝ) : zero.scale s = zero := by
  simp [zero, scale]

theorem scale_scale (a : Vec3) (s t : ℝ) : (a.scale s).scale t = a.scale (s * t) := by
  simp [scale, mul_assoc]

theorem neg_scale (a : Vec3) (s : ℝ) : (a.neg).scale s = (a.scale s).neg := by
  simp [neg, scale]

theorem magnitude_neg (a : Vec3) : a.neg.magnitude = a.magnitude := by
  simp only [neg, magnitude]
  congr 1
  ring

@[simp] theorem magnitude_zero : (zero : Vec3).magnitude = 0 := by
  simp [zero, magnitude]

@[simp] theorem scale_one (a : Vec3) : a.scale 1 = a := by
  simp [scale]

theorem scale_add_scale (a : Vec3) (s t : ℝ) :
    (a.scale s).add (a.scale t) = a.scale (s + t) := by
  simp only [scale, add]
  congr 1 <;> ring

theorem neg_add (a b : Vec3) : (a.neg).add (b.neg) = (a.add b).neg := by
  simp only [neg, add]
  congr 1 <;> ring

end Vec3

/-- Exhaustiveness and black-hole priority of the classification core,
settled over the whole finite domain of type tags and rocky flags. -/
theorem classifyCore_total_bh :
    ∀ (t1 t2 : CosmicObjectType) (r1 r2 : Bool),
      (classifyCore t1 r1 t2 r2 = rocky_collision ∨
       classifyCore t1 r1 t2 r2 = gas_collision ∨
       classifyCore t1 r1 t2 r2 = stellar_collision ∨
       classifyCore t1 r1 t2 r2 = kilonova ∨
       classifyCore t1 r1 t2 r2 = blackhole_merger ∨
       classifyCore t1 r1 t2 r2 = tidal_disruption) ∧
      (t1 = BLACK_HOLE → t2 = BLACK_HOLE → classifyCore t1 r1 t2 r2 = blackhole_merger) ∧
      ((t1 = BLACK_HOLE ∨ t2 = BLACK_HOLE) → ¬(t1 = BLACK_HOLE ∧ t2 = BLACK_HOLE) →
        classifyCore t1 r1 t2 r2 = tidal_disruption) := by
  decide

/-- C1: the collision classifier is total over all pairs of the 13 object
types (with any gas-giant sub-flag setting) and returns exactly one of the
six collision kinds; whenever at least one member of the pair is a black
hole the result is blackhole_merger (both black holes) or tidal_disruption
(exactly one black hole), never any other kind. -/
theorem classifyCollision_total_blackhole_priority (obj1 obj2 : CosmicObject) :
    (classifyCollision obj1 obj2 = rocky_collision ∨
     classifyCollision obj1 obj2 = gas_collision ∨
     classifyCollision obj1 obj2 = stellar_collision ∨
     classifyCollision obj1 obj2 = kilonova ∨
     classifyCollision obj1 obj2 = blackhole_merger ∨
     classifyCollision obj1 obj2 = tidal_disruption) ∧
    ((obj1.type = BLACK_HOLE ∨ obj2.type = BLACK_HOLE) →
      (classifyCollision obj1 obj2 = blackhole_merger ↔
        (obj1.type = BLACK_HOLE ∧ obj2.type = BLACK_HOLE)) ∧
      (classifyCollision obj1 obj2 = blackhole_merger ∨
       classifyCollision obj1 obj2 = tidal_disruption)) := by
  have h := classifyCore_total_bh obj1.type obj2.type obj1.isRocky obj2.isRocky
  refine ⟨h.1, fun hbh => ⟨⟨fun hm => ?_, fun hand => h.2.1 hand.1 hand.2⟩, ?_⟩⟩
  · by_contra hno
    have hnot : ¬(obj1.type = BLACK_HOLE ∧ obj2.type = BLACK_HOLE) := hno
    have := h.2.2 hbh hnot
    rw [classifyCollision] at hm
    rw [hm] at this
    exact absurd this (by decide)
  · by_cases hand : obj1.type = BLACK_HOLE ∧ obj2.type = BLACK_HOLE
    · exact Or.inl (h.2.1 hand.1 hand.2)
    · exact Or.inr (h.2.2 hbh hand)

/-- Witness for C1: a black-hole / star pair is classified tidal_disruption
(and not blackhole_merger), a black-hole pair is classified blackhole_merger. -/
theorem classifyCollision_total_blackhole_priority_witness :
    (classifyCore BLACK_HOLE true STAR true = tidal_disruption ∨
     classifyCore BLACK_HOLE true STAR true = tidal_disruption) ∧
    classifyCore BLACK_HOLE true BLACK_HOLE false = blackhole_merger := by
  constructor
  · have h := (classifyCollision_total_blackhole_priority
      { id := 1, type := BLACK_HOLE, isRocky := true, position := Vec3.zero,
        velocity := Vec3.zero, acceleration := Vec3.zero, mass := 0, radius := 0,
        temperature := 0, luminosity := 0, density := 0, isPhysicsEnabled := true,
        createdAt := 0, tags := [], name := "bh", extent := Vec3.zero,
        nebulaOriginMass := none, spin := 0, isAccreting := false }
      { id := 2, type := STAR, isRocky := true, position := Vec3.zero,
        velocity := Vec3.zero, acceleration := Vec3.zero, mass := 0, radius := 0,
        temperature := 0, luminosity := 0, density := 0, isPhysicsEnabled := true,
        createdAt := 0, tags := [], name := "s", extent := Vec3.zero,
        nebulaOriginMass := none, spin := 0, isAccreting := false }).2
      (Or.inl rfl)
    rcases h.2 with hm | ht
    · exact absurd (h.1.mp hm).2 (by decide)
    · exact Or.inl ht
  · exact (classifyCollision_total_blackhole_priority
      { id := 1, type := BLACK_HOLE, isRocky := true, position := Vec3.zero,
        velocity := Vec3.zero, acceleration := Vec3.zero, mass := 0, radius := 0,
        temperature := 0, luminosity := 0, density := 0, isPhysicsEnabled := true,
        createdAt := 0, tags := [], name := "b1", extent := Vec3.zero,
        nebulaOriginMass := none, spin := 0, isAccreting := false }
      { id := 2, type := BLACK_HOLE, isRocky := false, position := Vec3.zero,
        velocity := Vec3.zero, acceleration := Vec3.zero, mass := 0, radius := 0,
        temperature := 0, luminosity := 0, density := 0, isPhysicsEnabled := true,
        createdAt := 0, tags := [], name := "b2", extent := Vec3.zero,
        nebulaOriginMass := none, spin := 0, isAccreting := false }).2
      (Or.inl rfl) |>.1.mpr ⟨rfl, rfl⟩

/-- The scene mass is always at least 1. -/
theorem toSceneMass_ge_one (m : ℝ) : 1 ≤ toSceneMass m := le_max_right _ _

/-- The scene mass is nonnegative. -/
theorem toSceneMass_nonneg (m : ℝ) : 0 ≤ toSceneMass m :=
  le_trans zero_le_one (toSceneMass_ge_one m)

/-- Helper: a clamped, optionally-attenuated nonnegative magnitude is
nonnegative. -/
theorem min_falloff_nonneg (a b e : ℝ) (c : Prop) [Decidable c]
    (ha : 0 ≤ a) (hb : 0 ≤ b) (he : 0 ≤ e) :
    0 ≤ min (if c then a * e else a) b := by
  refine le_min ?_ hb
  split_ifs
  · exact mul_nonneg ha he
  · exact ha

/-- The clamped force magnitude never exceeds config.maxForce. -/
theorem forceMagnitude_le_maxForce (cfg : PhysicsConfig) (obj1 obj2 : CosmicObject) :
    forceMagnitude cfg obj1 obj2 ≤ cfg.maxForce := by
  unfold forceMagnitude
  exact min_le_right _ _

/-- The clamped force magnitude is nonnegative for a nonnegative gravity
slider and force cap. -/
theorem forceMagnitude_nonneg (cfg : PhysicsConfig) (obj1 obj2 : CosmicObject)
    (hg : 0 ≤ cfg.gravityStrength) (hmax : 0 ≤ cfg.maxForce) :
    0 ≤ forceMagnitude cfg obj1 obj2 := by
  unfold forceMagnitude
  refine min_falloff_nonneg _ _ _ _ ?_ hmax (Real.exp_pos _).le
  refine div_nonneg ?_ ?_
  · exact mul_nonneg
      (mul_nonneg (mul_nonneg (by norm_num) (div_nonneg hg (by norm_num)))
        (toSceneMass_nonneg _))
      (toSceneMass_nonneg _)
  · have h1 : 0 ≤ (obj2.position.x - obj1.position.x) * (obj2.position.x - obj1.position.x)
        + (obj2.position.y - obj1.position.y) * (obj2.position.y - obj1.position.y)
        + (obj2.position.z - obj1.position.z) * (obj2.position.z - obj1.position.z) :=
      add_nonneg (add_nonneg (mul_self_nonneg _) (mul_self_nonneg _)) (mul_self_nonneg _)
    exact add_nonneg h1 (mul_self_nonneg _)

/-- Helper: the magnitude of a vector of the form (f/d) · (dx,dy,dz), with
d the norm of (dx,dy,dz) and f nonnegative, is f. -/
theorem magnitude_dir_scaled (f dx dy dz : ℝ) (hf : 0 ≤ f)
    (hd : Real.sqrt (dx * dx + dy * dy + dz * dz) ≠ 0) :
    Vec3.magnitude ⟨f * dx / Real.sqrt (dx * dx + dy * dy + dz * dz),
      f * dy / Real.sqrt (dx * dx + dy * dy + dz * dz),
      f * dz / Real.sqrt (dx * dx + dy * dy + dz * dz)⟩ = f := by
  have hS : 0 ≤ dx * dx + dy * dy + dz * dz :=
    add_nonneg (add_nonneg (mul_self_nonneg _) (mul_self_nonneg _)) (mul_self_nonneg _)
  have hd2 : Real.sqrt (dx * dx + dy * dy + dz * dz)
      * Real.sqrt (dx * dx + dy * dy + dz * dz) = dx * dx + dy * dy + dz * dz :=
    Real.mul_self_sqrt hS
  have hS0 : dx * dx + dy * dy + dz * dz ≠ 0 := by
    intro h0
    rw [h0] at hd
    exact hd Real.sqrt_zero
  unfold Vec3.magnitude
  have key : ∀ u : ℝ, f * u / Real.sqrt (dx * dx + dy * dy + dz * dz)
      * (f * u / Real.sqrt (dx * dx + dy * dy + dz * dz))
      = f * f * (u * u)
        / (Real.sqrt (dx * dx + dy * dy + dz * dz)
          * Real.sqrt (dx * dx + dy * dy + dz * dz)) := fun u => by ring
  have hsum : f * dx / Real.sqrt (dx * dx + dy * dy + dz * dz)
        * (f * dx / Real.sqrt (dx * dx + dy * dy + dz * dz))
      + f * dy / Real.sqrt (dx * dx + dy * dy + dz * dz)
        * (f * dy / Real.sqrt (dx * dx + dy * dy + dz * dz))
      + f * dz / Real.sqrt (dx * dx + dy * dy + dz * dz)
        * (f * dz / Real.sqrt (dx * dx + dy * dy + dz * dz)) = f * f := by
    rw [key dx, key dy, key dz, hd2]
    field_simp
    ring
  rw [hsum, Real.sqrt_mul_self hf]

/-- C2: for every pair of objects with nonnegative masses, any softening
at least 0, any gravity slider at least 0 and any nonnegative force cap,
the gravitational force is a well-defined real vector (hence finite,
never NaN or Infinity in the IEEE source) whose magnitude is at most
config.maxForce — including when the two positions coincide, where the
zero vector is returned. -/
theorem calculateGravitationalForce_clamped (cfg : PhysicsConfig)
    (obj1 obj2 : CosmicObject)
    (hm1 : 0 ≤ obj1.mass) (hm2 : 0 ≤ obj2.mass)
    (hsoft : 0 ≤ cfg.softening)
    (hg : 0 ≤ cfg.gravityStrength) (hmax : 0 ≤ cfg.maxForce) :
    (calculateGravitationalForce cfg obj1 obj2).magnitude ≤ cfg.maxForce := by
  unfold calculateGravitationalForce
  simp only []
  split_ifs with hlt
  · simpa using hmax
  · have hd : Real.sqrt ((obj2.position.x - obj1.position.x) * (obj2.position.x - obj1.position.x)
        + (obj2.position.y - obj1.position.y) * (obj2.position.y - obj1.position.y)
        + (obj2.position.z - obj1.position.z) * (obj2.position.z - obj1.position.z)) ≠ 0 := by
      intro h0
      rw [h0] at hlt
      exact hlt (by norm_num)
    rw [magnitude_dir_scaled _ _ _ _ (forceMagnitude_nonneg cfg obj1 obj2 hg hmax) hd]
    exact forceMagnitude_le_maxForce cfg obj1 obj2

/-- Witness for C2: two coincident mass-5 asteroids under the default-like
configuration produce a force of magnitude at most the 1e6 cap. -/
theorem calculateGravitationalForce_clamped_witness :
    (0 : ℝ) ≤ (sampleObject).mass ∧
    (calculateGravitationalForce
      { gravityStrength := 50, gravityRange := 5, dt := 1 / 60, softening := 0.3,
        maxForce := 1e6, maxVelocity := 200, enableCollisions := true,
        enableDebugLogging := false, velocityDamping := 1.0 }
      sampleObject { sampleObject with id := 1 }).magnitude ≤ 1e6 :=
  ⟨by norm_num [sampleObject],
    calculateGravitationalForce_clamped _ _ _
      (by norm_num [sampleObject]) (by norm_num [sampleObject])
      (by norm_num) (by norm_num) (by norm_num)⟩

/-- findObj returns an object carrying the looked-up id. -/
theorem findObj_id {objs : List CosmicObject} {i : ℕ} {o : CosmicObject}
    (h : findObj objs i = some o) : o.id = i := by
  have := List.find?_some h
  simpa using this

/-- updateObj with an id-preserving field update preserves the id list. -/
theorem updateObj_map_id (objs : List CosmicObject) (i : ℕ)
    (f : CosmicObject → CosmicObject) (hf : ∀ o, (f o).id = o.id) :
    (updateObj objs i f).map (·.id) = objs.map (·.id) := by
  induction objs with
  | nil => rfl
  | cons a l ih =>
    simp only [updateObj, List.map_cons] at ih ⊢
    have hhead : (if a.id = i then f a else a).id = a.id := by
      split_ifs with h
      · exact hf a
      · rfl
    rw [hhead, ih]

/-- Structural shape of every collision resolver: it never inserts into or
deletes from the live object map (only in-place field updates), it only
appends to the pending-removal set, and it leaves the scan log alone. -/
theorem handler_shape (rand : HandlerRand) (now : ℝ) (ctx : ResolveCtx)
    (obj1 obj2 : CosmicObject)
    (h : ResolveCtx)
    (hh : h = handleRockyCollision rand now ctx obj1 obj2 ∨
          h = handleGasCollision rand now ctx obj1 obj2 ∨
          h = handleStellarCollision rand now ctx obj1 obj2 ∨
          h = handleKilonovaCollision rand now ctx obj1 obj2 ∨
          h = handleBlackHoleMerger rand now ctx obj1 obj2 ∨
          h = handleTidalDisruption rand now ctx obj1 obj2) :
    h.objects.map (·.id) = ctx.objects.map (·.id) ∧
    (∃ l, h.objectsToRemove = ctx.objectsToRemove ++ l) ∧
    h.checkedLog = ctx.checkedLog := by
  rcases hh with rfl | rfl | rfl | rfl | rfl | rfl
  · simp only [handleRockyCollision]
    split_ifs <;> simp [recordCollisionEvent, updateObj_map_id]
  · simp only [handleGasCollision]
    split_ifs <;> simp [recordCollisionEvent, updateObj_map_id]
  · simp only [handleStellarCollision]
    split_ifs <;> simp [recordCollisionEvent, updateObj_map_id]
  · simp only [handleKilonovaCollision]
    simp [recordCollisionEvent]
  · simp only [handleBlackHoleMerger]
    simp [recordCollisionEvent]
  · simp only [handleTidalDisruption]
    simp [recordCollisionEvent, updateObj_map_id]

/-- The dispatched resolver, whichever it is, has the shape of
handler_shape. -/
theorem dispatchResolver_shape (rand : HandlerRand) (now : ℝ)
    (ctx : ResolveCtx) (obj1 obj2 : CosmicObject) :
    (dispatchResolver rand now ctx obj1 obj2).objects.map (·.id) =
      ctx.objects.map (·.id) ∧
    (∃ l, (dispatchResolver rand now ctx obj1 obj2).objectsToRemove =
      ctx.objectsToRemove ++ l) ∧
    (dispatchResolver rand now ctx obj1 obj2).checkedLog = ctx.checkedLog := by
  unfold dispatchResolver
  cases classifyCollision obj1 obj2
  case rocky_collision => exact handler_shape rand now ctx obj1 obj2 _ (Or.inl rfl)
  case gas_collision => exact handler_shape rand now ctx obj1 obj2 _ (Or.inr (Or.inl rfl))
  case stellar_collision =>
    exact handler_shape rand now ctx obj1 obj2 _ (Or.inr (Or.inr (Or.inl rfl)))
  case kilonova =>
    exact handler_shape rand now ctx obj1 obj2 _ (Or.inr (Or.inr (Or.inr (Or.inl rfl))))
  case blackhole_merger =>
    exact handler_shape rand now ctx obj1 obj2 _
      (Or.inr (Or.inr (Or.inr (Or.inr (Or.inl rfl)))))
  case tidal_disruption =>
    exact handler_shape rand now ctx obj1 obj2 _
      (Or.inr (Or.inr (Or.inr (Or.inr (Or.inr rfl)))))

/-- resolvePair on a pair with a marked member is the identity: the pair
is neither checked nor resolved. -/
theorem resolvePair_skip (randFor : ℕ → ℕ → HandlerRand) (now : ℝ)
    (ctx : ResolveCtx) (p : ℕ × ℕ)
    (hmem : p.1 ∈ ctx.objectsToRemove ∨ p.2 ∈ ctx.objectsToRemove) :
    resolvePair randFor now ctx p = ctx := by
  unfold resolvePair
  cases h1 : findObj ctx.objects p.1 with
  | none => rfl
  | some obj1 =>
    cases h2 : findObj ctx.objects p.2 with
    | none => rfl
    | some obj2 =>
      dsimp only
      rw [if_pos]
      rw [findObj_id h1, findObj_id h2]
      exact hmem

/-- resolvePair only appends to the pending-removal set. -/
theorem resolvePair_toRemove_mono (randFor : ℕ → ℕ → HandlerRand) (now : ℝ)
    (ctx : ResolveCtx) (p : ℕ × ℕ) :
    ctx.objectsToRemove ⊆ (resolvePair randFor now ctx p).objectsToRemove := by
  unfold resolvePair
  cases h1 : findObj ctx.objects p.1 with
  | none => exact fun a ha => ha
  | some obj1 =>
    cases h2 : findObj ctx.objects p.2 with
    | none => exact fun a ha => ha
    | some obj2 =>
      dsimp only
      split_ifs with hskip hcol hbig
      · exact fun a ha => ha
      · exact List.subset_append_left _ _
      · refine fun a ha => ?_
        rcases (dispatchResolver_shape (randFor p.1 p.2) now _ obj1 obj2).2.1 with ⟨l, hl⟩
        rw [hl]
        exact List.mem_append_left _ ha
      · exact fun a ha => ha

/-- resolvePair never inserts into or deletes from the live object map:
removals and debris additions are applied only after the scan. -/
theorem resolvePair_objects_ids (randFor : ℕ → ℕ → HandlerRand) (now : ℝ)
    (ctx : ResolveCtx) (p : ℕ × ℕ) :
    (resolvePair randFor now ctx p).objects.map (·.id) = ctx.objects.map (·.id) := by
  unfold resolvePair
  cases h1 : findObj ctx.objects p.1 with
  | none => rfl
  | some obj1 =>
    cases h2 : findObj ctx.objects p.2 with
    | none => rfl
    | some obj2 =>
      dsimp only
      split_ifs with hskip hcol hbig
      · rfl
      · rfl
      · exact (dispatchResolver_shape (randFor p.1 p.2) now _ obj1 obj2).1
      · rfl

/-- resolvePair logs the pair as checked exactly when it is not skipped. -/
theorem resolvePair_checkedLog (randFor : ℕ → ℕ → HandlerRand) (now : ℝ)
    (ctx : ResolveCtx) (p : ℕ × ℕ) :
    (resolvePair randFor now ctx p).checkedLog = ctx.checkedLog ∨
    (resolvePair randFor now ctx p).checkedLog = ctx.checkedLog ++ [p] := by
  unfold resolvePair
  cases h1 : findObj ctx.objects p.1 with
  | none => exact Or.inl rfl
  | some obj1 =>
    cases h2 : findObj ctx.objects p.2 with
    | none => exact Or.inl rfl
    | some obj2 =>
      dsimp only
      split_ifs with hskip hcol hbig
      · exact Or.inl rfl
      · exact Or.inr rfl
      · exact Or.inr (dispatchResolver_shape (randFor p.1 p.2) now _ obj1 obj2).2.2
      · exact Or.inr rfl

/-- Every pair logged as checked over a fold of resolvePair was either
already logged or is one of the scanned pairs. -/
theorem foldl_checkedLog (randFor : ℕ → ℕ → HandlerRand) (now : ℝ) :
    ∀ (pairs : List (ℕ × ℕ)) (ctx : ResolveCtx) (q : ℕ × ℕ),
      q ∈ (pairs.foldl (resolvePair randFor now) ctx).checkedLog →
      q ∈ ctx.checkedLog ∨ q ∈ pairs := by
  intro pairs
  induction pairs with
  | nil => intro ctx q hq; exact Or.inl hq
  | cons p rest ih =>
    intro ctx q hq
    rcases ih (resolvePair randFor now ctx p) q hq with h | h
    · rcases resolvePair_checkedLog randFor now ctx p with he | he
      · rw [he] at h
        exact Or.inl h
      · rw [he] at h
        rcases List.mem_append.mp h with h' | h'
        · exact Or.inl h'
        · right
          simp at h'
          simp [h']
    · right
      exact List.mem_cons_of_mem _ h

/-- Members of a scanned pair come from the scanned list. -/
theorem pairsOf_mem {α : Type} : ∀ (l : List α) (a b : α),
    (a, b) ∈ pairsOf l → a ∈ l ∧ b ∈ l := by
  intro l
  induction l with
  | nil => intro a b h; simp [pairsOf] at h
  | cons x rest ih =>
    intro a b h
    simp only [pairsOf, List.mem_append, List.mem_map] at h
    rcases h with ⟨c, hc, he⟩ | h
    · injection he with hx hc2
      subst hx
      subst hc2
      exact ⟨List.mem_cons_self _ _, List.mem_cons_of_mem _ hc⟩
    · obtain ⟨ha, hb⟩ := ih a b h
      exact ⟨List.mem_cons_of_mem _ ha, List.mem_cons_of_mem _ hb⟩

/-- C6: within a single collision-processing pass, every object is
consumed at most once. (i) A pair with a member already in the
pending-removal set is skipped entirely (not checked, not resolved);
(ii) the pending-removal set only grows during the scan, so once marked an
object stays excluded; (iii) the live object map's id list is invariant
during the scan — removals and debris additions are applied only after the
full pair scan; (iv) every checked pair comes from the snapshot of
originally present physics-enabled objects, so debris produced during the
pass (fresh ids outside the snapshot) is never collision-checked in that
same pass; (v) the applied result is exactly the scan's map filtered by
the accumulated removal set with the accumulated debris appended. -/
theorem processCollisions_consumed_once (randFor : ℕ → ℕ → HandlerRand) (now : ℝ) :
    (∀ (ctx : ResolveCtx) (p : ℕ × ℕ),
      p.1 ∈ ctx.objectsToRemove ∨ p.2 ∈ ctx.objectsToRemove →
      resolvePair randFor now ctx p = ctx) ∧
    (∀ (ctx : ResolveCtx) (p : ℕ × ℕ),
      ctx.objectsToRemove ⊆ (resolvePair randFor now ctx p).objectsToRemove) ∧
    (∀ (ctx : ResolveCtx) (p : ℕ × ℕ),
      (resolvePair randFor now ctx p).objects.map (·.id) = ctx.objects.map (·.id)) ∧
    (∀ (st : EngineState) (q : ℕ × ℕ),
      q ∈ (collisionScan randFor now st).checkedLog →
      q.1 ∈ (collisionSnapshot st).map (·.id) ∧
      q.2 ∈ (collisionSnapshot st).map (·.id)) ∧
    (∀ (cfg : PhysicsConfig) (st : EngineState), cfg.enableCollisions = true →
      (processCollisions cfg randFor now st).objects =
        ((collisionScan randFor now st).objects.filter fun o =>
          !((collisionScan randFor now st).objectsToRemove.contains o.id)) ++
        (collisionScan randFor now st).debrisToAdd) := by
  refine ⟨resolvePair_skip randFor now, resolvePair_toRemove_mono randFor now,
    resolvePair_objects_ids randFor now, ?_, ?_⟩
  · intro st q hq
    have h := foldl_checkedLog randFor now _ _ q hq
    simp only [List.not_mem_nil] at h
    rcases h with h | h
    · exact absurd h (by simp)
    · exact pairsOf_mem _ q.1 q.2 (by simpa using h)
  · intro cfg st hen
    unfold processCollisions
    rw [hen]
    rfl

/-- Witness for C6: a pair with a marked member is skipped, on a concrete
one-entry context. -/
theorem processCollisions_consumed_once_witness :
    resolvePair (fun _ _ => ⟨0, fun _ => 0, fun _ => 0, fun _ => 0, fun _ => 0,
        fun _ => 0, fun _ => 0, fun _ => 0, fun _ => 0, fun _ => 0, fun _ => 0,
        fun k => k⟩) 0
      { objects := [sampleObject], objectsToRemove := [0], debrisToAdd := [],
        collisionEvents := [], kilonovaCollapses := [], collisions := 0,
        checkedLog := [] } (0, 7) =
    { objects := [sampleObject], objectsToRemove := [0], debrisToAdd := [],
      collisionEvents := [], kilonovaCollapses := [], collisions := 0,
      checkedLog := [] } :=
  (processCollisions_consumed_once _ 0).1 _ (0, 7) (Or.inl (by simp))

/-- findObj finds the head when its id matches. -/
theorem findObj_cons_eq (o : CosmicObject) (objs : List CosmicObject) :
    findObj (o :: objs) o.id = some o := by
  unfold findObj
  exact List.find?_cons_of_pos _ (by simp)

/-- findObj skips a head with a different id. -/
theorem findObj_cons_ne (o : CosmicObject) (objs : List CosmicObject) (i : ℕ)
    (h : o.id ≠ i) : findObj (o :: objs) i = findObj objs i := by
  unfold findObj
  exact List.find?_cons_of_neg _ (by simp [h])

/-- processCollisions with collisions enabled is the scan followed by the
batched application of removals and debris. -/
theorem processCollisions_eq (cfg : PhysicsConfig) (randFor : ℕ → ℕ → HandlerRand)
    (now : ℝ) (st : EngineState) (hen : cfg.enableCollisions = true) :
    processCollisions cfg randFor now st =
      { objects := ((collisionScan randFor now st).objects.filter fun o =>
          !((collisionScan randFor now st).objectsToRemove.contains o.id)) ++
          (collisionScan randFor now st).debrisToAdd
        objectsToRemove := []
        collisionEvents := (collisionScan randFor now st).collisionEvents
        kilonovaCollapses := (collisionScan randFor now st).kilonovaCollapses
        collisions := (collisionScan randFor now st).collisions
        objectCount := (((collisionScan randFor now st).objects.filter fun o =>
          !((collisionScan randFor now st).objectsToRemove.contains o.id)) ++
          (collisionScan randFor now st).debrisToAdd).length } := by
  unfold processCollisions
  rw [hen]
  rfl

/-- A scanned pair cannot trigger a resolver while the live map holds more
than 300 objects: the map and the debris accumulator are untouched, only
removals and the collision counter grow. -/
theorem resolvePair_cap (randFor : ℕ → ℕ → HandlerRand) (now : ℝ)
    (ctx : ResolveCtx) (p : ℕ × ℕ) (hbig : ctx.objects.length > 300) :
    (resolvePair randFor now ctx p).objects = ctx.objects ∧
    (resolvePair randFor now ctx p).debrisToAdd = ctx.debrisToAdd ∧
    ctx.objectsToRemove ⊆ (resolvePair randFor now ctx p).objectsToRemove ∧
    ctx.collisions ≤ (resolvePair randFor now ctx p).collisions := by
  unfold resolvePair
  cases h1 : findObj ctx.objects p.1 with
  | none => exact ⟨rfl, rfl, fun a ha => ha, le_refl _⟩
  | some obj1 =>
    cases h2 : findObj ctx.objects p.2 with
    | none => exact ⟨rfl, rfl, fun a ha => ha, le_refl _⟩
    | some obj2 =>
      dsimp only
      by_cases hskip : obj1.id ∈ ctx.objectsToRemove ∨ obj2.id ∈ ctx.objectsToRemove
      · rw [if_pos hskip]
        exact ⟨rfl, rfl, fun a ha => ha, le_refl _⟩
      · rw [if_neg hskip]
        by_cases hcol : checkCollision obj1 obj2
        · rw [if_pos hcol, if_pos hbig]
          exact ⟨rfl, rfl, List.subset_append_left _ _, Nat.le_succ _⟩
        · rw [if_neg hcol]
          exact ⟨rfl, rfl, fun a ha => ha, le_refl _⟩

/-- The cap property propagated through the whole pair scan. -/
theorem foldl_cap (randFor : ℕ → ℕ → HandlerRand) (now : ℝ) :
    ∀ (pairs : List (ℕ × ℕ)) (ctx : ResolveCtx), ctx.objects.length > 300 →
      (pairs.foldl (resolvePair randFor now) ctx).objects = ctx.objects ∧
      (pairs.foldl (resolvePair randFor now) ctx).debrisToAdd = ctx.debrisToAdd ∧
      ctx.objectsToRemove ⊆ (pairs.foldl (resolvePair randFor now) ctx).objectsToRemove ∧
      ctx.collisions ≤ (pairs.foldl (resolvePair randFor now) ctx).collisions := by
  intro pairs
  induction pairs with
  | nil => exact fun ctx _ => ⟨rfl, rfl, fun a ha => ha, le_refl _⟩
  | cons p ps ih =>
    intro ctx hbig
    have hstep := resolvePair_cap randFor now ctx p hbig
    have hbig2 : (resolvePair randFor now ctx p).objects.length > 300 := by
      rw [hstep.1]
      exact hbig
    have hrest := ih (resolvePair randFor now ctx p) hbig2
    refine ⟨?_, ?_, ?_, ?_⟩
    · rw [List.foldl_cons, hrest.1, hstep.1]
    · rw [List.foldl_cons, hrest.2.1, hstep.2.1]
    · rw [List.foldl_cons]
      exact fun a ha => hrest.2.2.1 (hstep.2.2.1 ha)
    · rw [List.foldl_cons]
      exact le_trans hstep.2.2.2 hrest.2.2.2

/-- C7: when the object set holds more than 300 objects and two
physics-enabled objects collide, the collision still fires (the counter
increments) but no resolver runs and no debris is added (the resulting
object set is a subset of the original), and both colliding objects are
removed at the end of the pass. -/
theorem processCollisions_cap_over300 (cfg : PhysicsConfig)
    (randFor : ℕ → ℕ → HandlerRand) (now : ℝ) (st : EngineState)
    (o1 o2 : CosmicObject) (rest : List CosmicObject)
    (hobs : st.objects = o1 :: o2 :: rest)
    (hsize : st.objects.length > 300)
    (hrem : st.objectsToRemove = [])
    (hen : cfg.enableCollisions = true)
    (hp1 : o1.isPhysicsEnabled = true) (hp2 : o2.isPhysicsEnabled = true)
    (hid : o1.id ≠ o2.id)
    (hcol : checkCollision o1 o2) :
    st.collisions + 1 ≤ (processCollisions cfg randFor now st).collisions ∧
    (processCollisions cfg randFor now st).objects ⊆ st.objects ∧
    o1.id ∉ (processCollisions cfg randFor now st).objects.map (·.id) ∧
    o2.id ∉ (processCollisions cfg randFor now st).objects.map (·.id) := by
  obtain ⟨t, hsnap⟩ : ∃ t, collisionSnapshot st = o1 :: o2 :: t := by
    refine ⟨rest.filter fun o => o.isPhysicsEnabled && !(st.objectsToRemove.contains o.id), ?_⟩
    unfold collisionSnapshot
    simp only [hobs, hrem]
    simp [hp1, hp2]
  have hfirst : resolvePair randFor now
      { objects := st.objects
        objectsToRemove := st.objectsToRemove
        debrisToAdd := []
        collisionEvents := st.collisionEvents
        kilonovaCollapses := st.kilonovaCollapses
        collisions := st.collisions
        checkedLog := [] } (o1.id, o2.id) =
      { objects := st.objects
        objectsToRemove := st.objectsToRemove ++ [o1.id, o2.id]
        debrisToAdd := []
        collisionEvents := st.collisionEvents
        kilonovaCollapses := st.kilonovaCollapses
        collisions := st.collisions + 1
        checkedLog := [] ++ [(o1.id, o2.id)] } := by
    unfold resolvePair
    have hf1 : findObj st.objects (o1.id, o2.id).1 = some o1 := by
      dsimp only
      rw [hobs]
      exact findObj_cons_eq o1 _
    have hf2 : findObj st.objects (o1.id, o2.id).2 = some o2 := by
      dsimp only
      rw [hobs, findObj_cons_ne o1 _ _ hid]
      exact findObj_cons_eq o2 _
    dsimp only
    rw [hf1, hf2]
    dsimp only
    rw [if_neg (by rw [hrem]; simp), if_pos hcol, if_pos hsize]
  have hscan : collisionScan randFor now st =
      ((t.map (·.id)).map (fun b => (o1.id, b)) ++
        pairsOf (o2.id :: t.map (·.id))).foldl (resolvePair randFor now)
      { objects := st.objects
        objectsToRemove := st.objectsToRemove ++ [o1.id, o2.id]
        debrisToAdd := []
        collisionEvents := st.collisionEvents
        kilonovaCollapses := st.kilonovaCollapses
        collisions := st.collisions + 1
        checkedLog := [] ++ [(o1.id, o2.id)] } := by
    unfold collisionScan
    rw [hsnap, ← hfirst]
    rfl
  have hfold := foldl_cap randFor now
    ((t.map (·.id)).map (fun b => (o1.id, b)) ++ pairsOf (o2.id :: t.map (·.id)))
      { objects := st.objects
        objectsToRemove := st.objectsToRemove ++ [o1.id, o2.id]
        debrisToAdd := []
        collisionEvents := st.collisionEvents
        kilonovaCollapses := st.kilonovaCollapses
        collisions := st.collisions + 1
        checkedLog := [] ++ [(o1.id, o2.id)] } hsize
  have hr1 : o1.id ∈ (((t.map (·.id)).map (fun b => (o1.id, b)) ++
      pairsOf (o2.id :: t.map (·.id))).foldl (resolvePair randFor now)
      { objects := st.objects
        objectsToRemove := st.objectsToRemove ++ [o1.id, o2.id]
        debrisToAdd := []
        collisionEvents := st.collisionEvents
        kilonovaCollapses := st.kilonovaCollapses
        collisions := st.collisions + 1
        checkedLog := [] ++ [(o1.id, o2.id)] }).objectsToRemove :=
    hfold.2.2.1 (by simp)
  have hr2 : o2.id ∈ (((t.map (·.id)).map (fun b => (o1.id, b)) ++
      pairsOf (o2.id :: t.map (·.id))).foldl (resolvePair randFor now)
      { objects := st.objects
        objectsToRemove := st.objectsToRemove ++ [o1.id, o2.id]
        debrisToAdd := []
        collisionEvents := st.collisionEvents
        kilonovaCollapses := st.kilonovaCollapses
        collisions := st.collisions + 1
        checkedLog := [] ++ [(o1.id, o2.id)] }).objectsToRemove :=
    hfold.2.2.1 (by simp)
  rw [processCollisions_eq cfg randFor now st hen, hscan]
  dsimp only
  rw [hfold.1, hfold.2.1]
  dsimp only
  refine ⟨hfold.2.2.2, ?_, ?_, ?_⟩
  · intro o ho
    simp only [List.append_nil, List.mem_filter] at ho
    exact ho.1
  · intro hmem
    simp only [List.append_nil, List.mem_map] at hmem
    obtain ⟨o, ho, hoid⟩ := hmem
    rw [List.mem_filter] at ho
    have hnc := ho.2
    rw [hoid] at hnc
    simp only [Bool.not_eq_true', List.contains_eq_any_beq] at hnc
    rw [List.any_eq_false] at hnc
    exact absurd (beq_self_eq_true o1.id) (hnc _ hr1)
  · intro hmem
    simp only [List.append_nil, List.mem_map] at hmem
    obtain ⟨o, ho, hoid⟩ := hmem
    rw [List.mem_filter] at ho
    have hnc := ho.2
    rw [hoid] at hnc
    simp only [Bool.not_eq_true', List.contains_eq_any_beq] at hnc
    rw [List.any_eq_false] at hnc
    exact absurd (beq_self_eq_true o2.id) (hnc _ hr2)

/-- The concrete capped state holds 301 objects. -/
theorem capState_length : capState.objects.length > 300 := by
  have h : capState.objects.length =
      (List.replicate 299 { sampleObject with id := 3 }).length + 1 + 1 := rfl
  rw [h, List.length_replicate]
  norm_num

/-- Two coincident asteroids collide under the visual-radius test. -/
theorem sample_overlap_collides :
    checkCollision { sampleObject with id := 1 } { sampleObject with id := 2 } := by
  unfold checkCollision
  show Vec3.distanceTo Vec3.zero Vec3.zero ≤ _
  have hz : Vec3.distanceTo Vec3.zero Vec3.zero = 0 := by
    simp [Vec3.distanceTo, Vec3.subtract, Vec3.zero, Vec3.magnitude]
  rw [hz]
  show (0 : ℝ) ≤ 0.3 + 0.3
  norm_num

/-- Witness for C7: on the concrete 301-object state, the counter
increments, the result set is a subset of the original, and both
colliding ids are gone. -/
theorem processCollisions_cap_over300_witness :
    0 + 1 ≤ (processCollisions DEFAULT_PHYSICS_CONFIG (fun _ _ => zeroRand) 0
      capState).collisions ∧
    (processCollisions DEFAULT_PHYSICS_CONFIG (fun _ _ => zeroRand) 0
      capState).objects ⊆ capState.objects ∧
    (1 : ℕ) ∉ (processCollisions DEFAULT_PHYSICS_CONFIG (fun _ _ => zeroRand) 0
      capState).objects.map (·.id) ∧
    (2 : ℕ) ∉ (processCollisions DEFAULT_PHYSICS_CONFIG (fun _ _ => zeroRand) 0
      capState).objects.map (·.id) :=
  processCollisions_cap_over300 DEFAULT_PHYSICS_CONFIG (fun _ _ => zeroRand) 0
    capState { sampleObject with id := 1 } { sampleObject with id := 2 }
    (List.replicate 299 { sampleObject with id := 3 })
    rfl capState_length rfl rfl rfl rfl (by decide) sample_overlap_collides

/-- On a two-object state whose pair collides, the scan is exactly one
resolver dispatch on the context with the pair logged and the counter
bumped. -/
theorem two_object_scan (randFor : ℕ → ℕ → HandlerRand) (now : ℝ)
    (st : EngineState) (o1 o2 : CosmicObject)
    (hobs : st.objects = [o1, o2])
    (hrem : st.objectsToRemove = [])
    (hp1 : o1.isPhysicsEnabled = true) (hp2 : o2.isPhysicsEnabled = true)
    (hid : o1.id ≠ o2.id)
    (hcol : checkCollision o1 o2) :
    collisionScan randFor now st =
      dispatchResolver (randFor o1.id o2.id) now
        { objects := st.objects
          objectsToRemove := st.objectsToRemove
          debrisToAdd := []
          collisionEvents := st.collisionEvents
          kilonovaCollapses := st.kilonovaCollapses
          collisions := st.collisions + 1
          checkedLog := [] ++ [(o1.id, o2.id)] } o1 o2 := by
  have hsnap : collisionSnapshot st = [o1, o2] := by
    unfold collisionSnapshot
    simp only [hobs, hrem]
    simp [hp1, hp2]
  unfold collisionScan
  rw [hsnap]
  show resolvePair randFor now
      { objects := st.objects
        objectsToRemove := st.objectsToRemove
        debrisToAdd := []
        collisionEvents := st.collisionEvents
        kilonovaCollapses := st.kilonovaCollapses
        collisions := st.collisions
        checkedLog := [] } (o1.id, o2.id) = _
  unfold resolvePair
  have hf1 : findObj st.objects (o1.id, o2.id).1 = some o1 := by
    dsimp only
    rw [hobs]
    exact findObj_cons_eq o1 _
  have hf2 : findObj st.objects (o1.id, o2.id).2 = some o2 := by
    dsimp only
    rw [hobs, findObj_cons_ne o1 _ _ hid]
    exact findObj_cons_eq o2 _
  dsimp only
  rw [hf1, hf2]
  dsimp only
  rw [if_neg (by rw [hrem]; simp), if_pos hcol,
    if_neg (by rw [hobs]; norm_num)]

/-- Two neutron stars classify as a kilonova. -/
theorem classify_ns_ns (o1 o2 : CosmicObject)
    (h1 : o1.type = NEUTRON_STAR) (h2 : o2.type = NEUTRON_STAR) :
    classifyCollision o1 o2 = kilonova := by
  unfold classifyCollision
  rw [h1, h2]
  rfl

/-- M_sun is nonzero, so the factory's massSolarUnits round trip is exact. -/
theorem div_M_sun_mul (m : ℝ) : m / M_sun * M_sun = m := by
  have h : M_sun ≠ 0 := by norm_num [M_sun]
  field_simp

/-- Field-level effect of the kilonova resolver: map untouched, both ids
marked, the appended debris ids are exactly the registered record's
debris-id list, and the record carries the collision center, the combined
mass and the current timestamp. -/
theorem handleKilonova_fields (rand : HandlerRand) (now : ℝ) (ctx : ResolveCtx)
    (o1 o2 : CosmicObject) :
    (handleKilonovaCollision rand now ctx o1 o2).objects = ctx.objects ∧
    (handleKilonovaCollision rand now ctx o1 o2).objectsToRemove =
      ctx.objectsToRemove ++ [o1.id, o2.id] ∧
    (handleKilonovaCollision rand now ctx o1 o2).debrisToAdd.map (·.id) =
      ctx.debrisToAdd.map (·.id) ++
        (List.range (30 + (⌊rand.countDraw * 21⌋).toNat)).map rand.ids ∧
    (handleKilonovaCollision rand now ctx o1 o2).kilonovaCollapses =
      ctx.kilonovaCollapses ++
        [⟨(getCollisionCenter o1 o2).centerPos, (getCollisionCenter o1 o2).centerVel,
          (getCollisionCenter o1 o2).totalMass, now,
          (List.range (30 + (⌊rand.countDraw * 21⌋).toNat)).map rand.ids⟩] := by
  refine ⟨rfl, rfl, ?_, rfl⟩
  show (ctx.debrisToAdd ++ _).map (·.id) = _
  rw [List.map_append]
  congr 1
  rw [List.map_map]
  simp [mkDebris]

/-- C4: kilonova resolution is two-phase. Phase 1 (the collision pass that
resolves a neutron-star + neutron-star collision, with the object set well
under the 300 cap): both neutron stars are gone and the surviving objects
are exactly the debris whose ids match the registered deferred-collapse
record's debris-id list, with the record carrying the collision center,
combined mass and registration time. Phase 2 (the first collapse pass
running once the fixed 5000 ms delay has elapsed): every debris id is
removed, exactly one new accreting black hole appears at the recorded
center position/velocity with the recorded combined mass, and the record
is discarded. -/
theorem kilonova_two_phase (cfg : PhysicsConfig) (randFor : ℕ → ℕ → HandlerRand)
    (freshIds : ℕ → ℕ) (now now2 : ℝ) (st : EngineState) (o1 o2 : CosmicObject)
    (hobs : st.objects = [o1, o2])
    (hrem : st.objectsToRemove = [])
    (hkn0 : st.kilonovaCollapses = [])
    (hen : cfg.enableCollisions = true)
    (hp1 : o1.isPhysicsEnabled = true) (hp2 : o2.isPhysicsEnabled = true)
    (hid : o1.id ≠ o2.id)
    (ht1 : o1.type = NEUTRON_STAR) (ht2 : o2.type = NEUTRON_STAR)
    (hcol : checkCollision o1 o2)
    (hfresh : ∀ k, (randFor o1.id o2.id).ids k ≠ o1.id ∧ (randFor o1.id o2.id).ids k ≠ o2.id)
    (hdelay : now2 - now ≥ 5000) :
    ∃ kn : KilonovaRecord,
      (processCollisions cfg randFor now st).kilonovaCollapses = [kn] ∧
      kn.timestamp = now ∧
      kn.combinedMass = o1.mass + o2.mass ∧
      o1.id ∉ (processCollisions cfg randFor now st).objects.map (·.id) ∧
      o2.id ∉ (processCollisions cfg randFor now st).objects.map (·.id) ∧
      (processCollisions cfg randFor now st).objects.map (·.id) = kn.debrisIds ∧
      (∃ bh : CosmicObject,
        (processKilonovaCollapse freshIds now2
          (processCollisions cfg randFor now st)).objects = [bh] ∧
        bh.type = BLACK_HOLE ∧ bh.position = kn.centerPos ∧
        bh.velocity = kn.centerVel ∧ bh.mass = kn.combinedMass ∧
        bh.isAccreting = true) ∧
      (processKilonovaCollapse freshIds now2
        (processCollisions cfg randFor now st)).kilonovaCollapses = [] := by
  have hscan := two_object_scan randFor now st o1 o2 hobs hrem hp1 hp2 hid hcol
  have hdisp : dispatchResolver (randFor o1.id o2.id) now
      { objects := st.objects
        objectsToRemove := st.objectsToRemove
        debrisToAdd := []
        collisionEvents := st.collisionEvents
        kilonovaCollapses := st.kilonovaCollapses
        collisions := st.collisions + 1
        checkedLog := [] ++ [(o1.id, o2.id)] } o1 o2 =
      handleKilonovaCollision (randFor o1.id o2.id) now
      { objects := st.objects
        objectsToRemove := st.objectsToRemove
        debrisToAdd := []
        collisionEvents := st.collisionEvents
        kilonovaCollapses := st.kilonovaCollapses
        collisions := st.collisions + 1
        checkedLog := [] ++ [(o1.id, o2.id)] } o1 o2 := by
    unfold dispatchResolver
    rw [classify_ns_ns o1 o2 ht1 ht2]
  have hf := handleKilonova_fields (randFor o1.id o2.id) now
      { objects := st.objects
        objectsToRemove := st.objectsToRemove
        debrisToAdd := []
        collisionEvents := st.collisionEvents
        kilonovaCollapses := st.kilonovaCollapses
        collisions := st.collisions + 1
        checkedLog := [] ++ [(o1.id, o2.id)] } o1 o2
  have hA := processCollisions_eq cfg randFor now st hen
  rw [hscan, hdisp] at hA
  -- the debris-id list and the registered record
  have hids : (processCollisions cfg randFor now st).objects.map (·.id) =
      (List.range (30 + (⌊(randFor o1.id o2.id).countDraw * 21⌋).toNat)).map
        (randFor o1.id o2.id).ids := by
    rw [hA]
    dsimp only
    rw [List.map_append]
    have hfilter : (handleKilonovaCollision (randFor o1.id o2.id) now
        { objects := st.objects
          objectsToRemove := st.objectsToRemove
          debrisToAdd := []
          collisionEvents := st.collisionEvents
          kilonovaCollapses := st.kilonovaCollapses
          collisions := st.collisions + 1
          checkedLog := [] ++ [(o1.id, o2.id)] } o1 o2).objects.filter (fun o =>
          !((handleKilonovaCollision (randFor o1.id o2.id) now
            { objects := st.objects
              objectsToRemove := st.objectsToRemove
              debrisToAdd := []
              collisionEvents := st.collisionEvents
              kilonovaCollapses := st.kilonovaCollapses
              collisions := st.collisions + 1
              checkedLog := [] ++ [(o1.id, o2.id)] } o1 o2).objectsToRemove.contains o.id)) = [] := by
      rw [hf.1, hf.2.1]
      show List.filter _ st.objects = []
      rw [hobs, hrem]
      simp
    rw [hfilter]
    have hdm := hf.2.2.1
    rw [hdm]
    simp
  have hrec := hf.2.2.2
  refine ⟨⟨(getCollisionCenter o1 o2).centerPos, (getCollisionCenter o1 o2).centerVel,
      (getCollisionCenter o1 o2).totalMass, now,
      (List.range (30 + (⌊(randFor o1.id o2.id).countDraw * 21⌋).toNat)).map
        (randFor o1.id o2.id).ids⟩, ?_, rfl, rfl, ?_, ?_, ?_, ?_, ?_⟩
  · rw [hA]
    dsimp only
    rw [hrec]
    show st.kilonovaCollapses ++ _ = _
    rw [hkn0]
    rfl
  · rw [hids]
    intro hmem
    simp only [List.mem_map] at hmem
    obtain ⟨k, _, hk⟩ := hmem
    exact (hfresh k).1 hk
  · rw [hids]
    intro hmem
    simp only [List.mem_map] at hmem
    obtain ⟨k, _, hk⟩ := hmem
    exact (hfresh k).2 hk
  · exact hids
  · -- phase 2: the collapse pass
    have hknA : (processCollisions cfg randFor now st).kilonovaCollapses =
        [⟨(getCollisionCenter o1 o2).centerPos, (getCollisionCenter o1 o2).centerVel,
          (getCollisionCenter o1 o2).totalMass, now,
          (List.range (30 + (⌊(randFor o1.id o2.id).countDraw * 21⌋).toNat)).map
            (randFor o1.id o2.id).ids⟩] := by
      rw [hA]
      dsimp only
      rw [hrec]
      show st.kilonovaCollapses ++ _ = _
      rw [hkn0]
      rfl
    refine ⟨createBlackHoleModel (freshIds 0) now2 "Kilonova Black Hole"
      (getCollisionCenter o1 o2).centerPos (getCollisionCenter o1 o2).centerVel
      ((getCollisionCenter o1 o2).totalMass / M_sun) 0.7 true, ?_, rfl, rfl, rfl,
      div_M_sun_mul _, rfl⟩
    unfold processKilonovaCollapse
    rw [hknA]
    simp only [List.enum_cons, List.enumFrom_nil, List.foldl_cons, List.foldl_nil]
    have hdue : now2 - now ≥ 5000 := hdelay
    rw [if_pos hdue]
    have hfilter2 : (processCollisions cfg randFor now st).objects.filter (fun o =>
        !(((List.range (30 + (⌊(randFor o1.id o2.id).countDraw * 21⌋).toNat)).map
          (randFor o1.id o2.id).ids).contains o.id)) = [] := by
      rw [List.filter_eq_nil]
      intro o ho
      have hoid : o.id ∈ (List.range (30 + (⌊(randFor o1.id o2.id).countDraw * 21⌋).toNat)).map
          (randFor o1.id o2.id).ids := by
        rw [← hids]
        exact List.mem_map_of_mem _ ho
      simp only [Bool.not_eq_true', Bool.not_eq_false]
      rw [List.contains_eq_any_beq]
      rw [List.any_eq_true]
      exact ⟨o.id, hoid, by simp⟩
    rw [hfilter2]
    rfl
  · unfold processKilonovaCollapse
    have hknA : (processCollisions cfg randFor now st).kilonovaCollapses =
        [⟨(getCollisionCenter o1 o2).centerPos, (getCollisionCenter o1 o2).centerVel,
          (getCollisionCenter o1 o2).totalMass, now,
          (List.range (30 + (⌊(randFor o1.id o2.id).countDraw * 21⌋).toNat)).map
            (randFor o1.id o2.id).ids⟩] := by
      rw [hA]
      dsimp only
      rw [hrec]
      show st.kilonovaCollapses ++ _ = _
      rw [hkn0]
      rfl
    rw [hknA]
    dsimp only
    rw [List.filter_eq_nil]
    intro kn hkn
    simp only [List.mem_singleton] at hkn
    subst hkn
    simp [hdelay]

/-- The two coincident neutron stars collide. -/
theorem ns_overlap_collides : checkCollision nsObjA nsObjB := by
  unfold checkCollision
  show Vec3.distanceTo Vec3.zero Vec3.zero ≤ _
  have hz : Vec3.distanceTo Vec3.zero Vec3.zero = 0 := by
    simp [Vec3.distanceTo, Vec3.subtract, Vec3.zero, Vec3.magnitude]
  rw [hz]
  show (0 : ℝ) ≤ 0.4 + 0.4
  norm_num

/-- Witness for C4: the concrete two-neutron-star collision registers a
record whose debris ids are exactly the surviving objects, and the
collapse pass 6000 ms later yields exactly one black hole. -/
theorem kilonova_two_phase_witness :
    ∃ kn : KilonovaRecord,
      (processCollisions DEFAULT_PHYSICS_CONFIG (fun _ _ => zeroRand) 1000
        nsState).kilonovaCollapses = [kn] ∧
      kn.timestamp = 1000 ∧
      kn.combinedMass = nsObjA.mass + nsObjB.mass ∧
      nsObjA.id ∉ (processCollisions DEFAULT_PHYSICS_CONFIG (fun _ _ => zeroRand) 1000
        nsState).objects.map (·.id) ∧
      nsObjB.id ∉ (processCollisions DEFAULT_PHYSICS_CONFIG (fun _ _ => zeroRand) 1000
        nsState).objects.map (·.id) ∧
      (processCollisions DEFAULT_PHYSICS_CONFIG (fun _ _ => zeroRand) 1000
        nsState).objects.map (·.id) = kn.debrisIds ∧
      (∃ bh : CosmicObject,
        (processKilonovaCollapse (fun _ => 99) 7000
          (processCollisions DEFAULT_PHYSICS_CONFIG (fun _ _ => zeroRand) 1000
            nsState)).objects = [bh] ∧
        bh.type = BLACK_HOLE ∧ bh.position = kn.centerPos ∧
        bh.velocity = kn.centerVel ∧ bh.mass = kn.combinedMass ∧
        bh.isAccreting = true) ∧
      (processKilonovaCollapse (fun _ => 99) 7000
        (processCollisions DEFAULT_PHYSICS_CONFIG (fun _ _ => zeroRand) 1000
          nsState)).kilonovaCollapses = [] :=
  kilonova_two_phase DEFAULT_PHYSICS_CONFIG (fun _ _ => zeroRand) (fun _ => 99)
    1000 7000 nsState nsObjA nsObjB rfl rfl rfl rfl rfl rfl (by decide) rfl rfl
    ns_overlap_collides (fun k => ⟨by simp [zeroRand, nsObjA, sampleObject]; omega,
      by simp [zeroRand, nsObjB, sampleObject]; omega⟩) (by norm_num)

/-- A star and a neutron star (in either order) classify as a stellar
collision. -/
theorem classify_star_ns (o1 o2 : CosmicObject)
    (htypes : (o1.type = STAR ∧ o2.type = NEUTRON_STAR) ∨
      (o1.type = NEUTRON_STAR ∧ o2.type = STAR)) :
    classifyCollision o1 o2 = stellar_collision := by
  unfold classifyCollision
  rcases htypes with ⟨h1, h2⟩ | ⟨h1, h2⟩ <;> rw [h1, h2] <;> rfl

/-- The floored random count draw is below its multiplier. -/
theorem countDraw_toNat_le (x : ℝ) (n : ℕ) (h0 : 0 ≤ x) (h1 : x < 1) :
    (⌊x * (n : ℝ)⌋).toNat ≤ n - 1 + 0 ∨ n = 0 := by
  rcases Nat.eq_zero_or_pos n with hn | hn
  · exact Or.inr hn
  · left
    have hlt : ⌊x * (n : ℝ)⌋ < n := by
      rw [Int.floor_lt]
      push_cast
      have hn2 : (1 : ℝ) ≤ (n : ℝ) := by exact_mod_cast hn
      nlinarith
    omega

/-- Field-level effect of the stellar resolver on a star + neutron-star
pair: map untouched, both ids marked for removal; above the 3 M_sun TOV
threshold exactly one accreting black hole at the mass-weighted center is
appended and nothing else; otherwise a 15-30 piece gas/solid debris burst
plus exactly one nebula carrying 70% of the combined mass at the center
is appended. -/
theorem handleStellar_star_ns_fields (rand : HandlerRand) (now : ℝ)
    (ctx : ResolveCtx) (o1 o2 : CosmicObject)
    (htypes : (o1.type = STAR ∧ o2.type = NEUTRON_STAR) ∨
      (o1.type = NEUTRON_STAR ∧ o2.type = STAR)) :
    (handleStellarCollision rand now ctx o1 o2).objects = ctx.objects ∧
    (handleStellarCollision rand now ctx o1 o2).objectsToRemove =
      ctx.objectsToRemove ++ [o1.id, o2.id] ∧
    (o1.mass + o2.mass > 3 * M_sun →
      (handleStellarCollision rand now ctx o1 o2).debrisToAdd =
        ctx.debrisToAdd ++
          [createBlackHoleModel (rand.ids 0) now "Collision Black Hole"
            (getCollisionCenter o1 o2).centerPos (getCollisionCenter o1 o2).centerVel
            ((o1.mass + o2.mass) / M_sun) 0 true]) ∧
    (¬ o1.mass + o2.mass > 3 * M_sun →
      ∃ (debris : List CosmicObject) (neb : CosmicObject),
        (handleStellarCollision rand now ctx o1 o2).debrisToAdd =
          ctx.debrisToAdd ++ debris ++ [neb] ∧
        debris.length = 15 + (⌊rand.countDraw * 16⌋).toNat ∧
        (∀ d ∈ debris, (d.type = GAS_CLOUD ∨ d.type = ASTEROID) ∧
          ∃ k, d.id = rand.ids k) ∧
        neb.type = NEBULA ∧
        neb.mass = (o1.mass + o2.mass) * 0.7 ∧
        neb.position = (getCollisionCenter o1 o2).centerPos ∧
        neb.velocity = (getCollisionCenter o1 o2).centerVel ∧
        neb.nebulaOriginMass = some (o1.mass + o2.mass) ∧
        (∃ k, neb.id = rand.ids k)) := by
  have habsorb : ¬((o1.type = STAR ∧ ¬o2.type = STAR ∧ ¬o2.type = NEUTRON_STAR) ∨
      (o2.type = STAR ∧ ¬o1.type = STAR ∧ ¬o1.type = NEUTRON_STAR)) := by
    rcases htypes with ⟨h1, h2⟩ | ⟨h1, h2⟩ <;> simp [h1, h2]
  have hpair : (o1.type = STAR ∧ o2.type = NEUTRON_STAR) ∨
      (o2.type = STAR ∧ o1.type = NEUTRON_STAR) := by
    rcases htypes with ⟨h1, h2⟩ | ⟨h1, h2⟩
    · exact Or.inl ⟨h1, h2⟩
    · exact Or.inr ⟨h2, h1⟩
  by_cases htov : o1.mass + o2.mass > 3 * M_sun
  · have hcond : ((o1.type = STAR ∧ o2.type = NEUTRON_STAR) ∨
        (o2.type = STAR ∧ o1.type = NEUTRON_STAR)) ∧
        (getCollisionCenter o1 o2).totalMass > 3 * M_sun := ⟨hpair, htov⟩
    refine ⟨?_, ?_, fun _ => ?_, fun h => absurd htov h⟩ <;>
      simp only [handleStellarCollision] <;>
      rw [if_neg habsorb, if_pos hcond] <;>
      rfl
  · have hcond : ¬(((o1.type = STAR ∧ o2.type = NEUTRON_STAR) ∨
        (o2.type = STAR ∧ o1.type = NEUTRON_STAR)) ∧
        (getCollisionCenter o1 o2).totalMass > 3 * M_sun) := fun h => htov h.2
    refine ⟨?_, ?_, fun h => absurd h htov, fun _ => ?_⟩
    · simp only [handleStellarCollision]
      rw [if_neg habsorb, if_neg hcond]
      rfl
    · simp only [handleStellarCollision]
      rw [if_neg habsorb, if_neg hcond]
      rfl
    · refine ⟨(List.range (15 + (⌊rand.countDraw * 16⌋).toNat)).map fun k =>
        mkDebris (rand.ids k)
          (if rand.mixDraw k > 0.3 then GAS_CLOUD else ASTEROID)
          ((getCollisionCenter o1 o2).centerPos.add
            ((randomSphereDir (rand.thetaDraw k) (rand.phiDraw k)).scale
              ((getVisualRadius o1 + getVisualRadius o2) * 0.6)))
          ((getCollisionCenter o1 o2).centerVel.add
            ((randomSphereDir (rand.thetaDraw k) (rand.phiDraw k)).scale
              (rand.speedDraw k * 12 + 5)))
          ((getCollisionCenter o1 o2).totalMass * 0.01)
          (if rand.mixDraw k > 0.3 then 0.2 + rand.sizeDraw k * 0.4
            else 0.1 + rand.sizeDraw k * 0.15)
          (15000 + rand.heatDraw k * 10000) 1e25
          (if rand.mixDraw k > 0.3 then 10 else 3000) now
          ["debris", "stellar"] "Stellar Debris", ?_, ?_, ?_, ?_, ?_⟩
      · exact { createNebulaModel
            (rand.ids (15 + (⌊rand.countDraw * 16⌋).toNat)) now
            (getCollisionCenter o1 o2).centerPos with
          mass := (getCollisionCenter o1 o2).totalMass * 0.7
          isPhysicsEnabled := true
          velocity := (getCollisionCenter o1 o2).centerVel
          extent := ⟨min (max (2 + (getCollisionCenter o1 o2).totalMass / M_sun * 0.5) 2) 30,
            min (max (2 + (getCollisionCenter o1 o2).totalMass / M_sun * 0.5) 2) 30,
            min (max (2 + (getCollisionCenter o1 o2).totalMass / M_sun * 0.5) 2) 30⟩
          nebulaOriginMass := some (getCollisionCenter o1 o2).totalMass }
      · simp only [handleStellarCollision]
        rw [if_neg habsorb, if_neg hcond]
        rfl
      · rw [List.length_map, List.length_range]
      · intro d hd
        simp only [List.mem_map] at hd
        obtain ⟨k, _, hk⟩ := hd
        subst hk
        constructor
        · by_cases hg : rand.mixDraw k > 0.3
          · left
            simp [mkDebris, hg]
          · right
            simp [mkDebris, hg]
        · exact ⟨k, rfl⟩
      · exact ⟨rfl, rfl, rfl, rfl, rfl, ⟨_, rfl⟩⟩

/-- C5: a stellar-collision resolution of a star + neutron-star pair
(neither branch absorbing): above the 3 M_sun TOV threshold the pass ends
with exactly one new black hole, at the mass-weighted collision center
with the summed mass, and no nebula; otherwise it ends with 15-30 debris
pieces plus exactly one nebula carrying 70% of the combined mass at the
collision center. In both cases the two original objects are removed. -/
theorem stellar_star_ns_outcome (cfg : PhysicsConfig)
    (randFor : ℕ → ℕ → HandlerRand) (now : ℝ) (st : EngineState)
    (o1 o2 : CosmicObject)
    (hobs : st.objects = [o1, o2])
    (hrem : st.objectsToRemove = [])
    (hen : cfg.enableCollisions = true)
    (hp1 : o1.isPhysicsEnabled = true) (hp2 : o2.isPhysicsEnabled = true)
    (hid : o1.id ≠ o2.id)
    (htypes : (o1.type = STAR ∧ o2.type = NEUTRON_STAR) ∨
      (o1.type = NEUTRON_STAR ∧ o2.type = STAR))
    (hcol : checkCollision o1 o2)
    (hdraw : 0 ≤ (randFor o1.id o2.id).countDraw ∧ (randFor o1.id o2.id).countDraw < 1)
    (hfresh : ∀ k, (randFor o1.id o2.id).ids k ≠ o1.id ∧
      (randFor o1.id o2.id).ids k ≠ o2.id) :
    o1.id ∉ (processCollisions cfg randFor now st).objects.map (·.id) ∧
    o2.id ∉ (processCollisions cfg randFor now st).objects.map (·.id) ∧
    (o1.mass + o2.mass > 3 * M_sun →
      ∃ bh : CosmicObject,
        (processCollisions cfg randFor now st).objects = [bh] ∧
        bh.type = BLACK_HOLE ∧ bh.mass = o1.mass + o2.mass ∧
        bh.position = (getCollisionCenter o1 o2).centerPos ∧
        bh.velocity = (getCollisionCenter o1 o2).centerVel) ∧
    (¬ o1.mass + o2.mass > 3 * M_sun →
      ∃ (debris : List CosmicObject) (neb : CosmicObject),
        (processCollisions cfg randFor now st).objects = debris ++ [neb] ∧
        15 ≤ debris.length ∧ debris.length ≤ 30 ∧
        (∀ d ∈ debris, d.type = GAS_CLOUD ∨ d.type = ASTEROID) ∧
        neb.type = NEBULA ∧ neb.mass = (o1.mass + o2.mass) * 0.7 ∧
        neb.position = (getCollisionCenter o1 o2).centerPos ∧
        neb.velocity = (getCollisionCenter o1 o2).centerVel ∧
        neb.nebulaOriginMass = some (o1.mass + o2.mass)) := by
  have hscan := two_object_scan randFor now st o1 o2 hobs hrem hp1 hp2 hid hcol
  have hdisp : dispatchResolver (randFor o1.id o2.id) now
      { objects := st.objects
        objectsToRemove := st.objectsToRemove
        debrisToAdd := []
        collisionEvents := st.collisionEvents
        kilonovaCollapses := st.kilonovaCollapses
        collisions := st.collisions + 1
        checkedLog := [] ++ [(o1.id, o2.id)] } o1 o2 =
      handleStellarCollision (randFor o1.id o2.id) now
      { objects := st.objects
        objectsToRemove := st.objectsToRemove
        debrisToAdd := []
        collisionEvents := st.collisionEvents
        kilonovaCollapses := st.kilonovaCollapses
        collisions := st.collisions + 1
        checkedLog := [] ++ [(o1.id, o2.id)] } o1 o2 := by
    unfold dispatchResolver
    rw [classify_star_ns o1 o2 htypes]
  have hsf := handleStellar_star_ns_fields (randFor o1.id o2.id) now
      { objects := st.objects
        objectsToRemove := st.objectsToRemove
        debrisToAdd := []
        collisionEvents := st.collisionEvents
        kilonovaCollapses := st.kilonovaCollapses
        collisions := st.collisions + 1
        checkedLog := [] ++ [(o1.id, o2.id)] } o1 o2 htypes
  have hA := processCollisions_eq cfg randFor now st hen
  rw [hscan, hdisp] at hA
  have hfilter : (handleStellarCollision (randFor o1.id o2.id) now
      { objects := st.objects
        objectsToRemove := st.objectsToRemove
        debrisToAdd := []
        collisionEvents := st.collisionEvents
        kilonovaCollapses := st.kilonovaCollapses
        collisions := st.collisions + 1
        checkedLog := [] ++ [(o1.id, o2.id)] } o1 o2).objects.filter (fun o =>
        !((handleStellarCollision (randFor o1.id o2.id) now
          { objects := st.objects
            objectsToRemove := st.objectsToRemove
            debrisToAdd := []
            collisionEvents := st.collisionEvents
            kilonovaCollapses := st.kilonovaCollapses
            collisions := st.collisions + 1
            checkedLog := [] ++ [(o1.id, o2.id)] } o1 o2).objectsToRemove.contains o.id)) = [] := by
    rw [hsf.1, hsf.2.1]
    show List.filter _ st.objects = []
    rw [hobs, hrem]
    simp
  have hobjs : (processCollisions cfg randFor now st).objects =
      (handleStellarCollision (randFor o1.id o2.id) now
      { objects := st.objects
        objectsToRemove := st.objectsToRemove
        debrisToAdd := []
        collisionEvents := st.collisionEvents
        kilonovaCollapses := st.kilonovaCollapses
        collisions := st.collisions + 1
        checkedLog := [] ++ [(o1.id, o2.id)] } o1 o2).debrisToAdd := by
    rw [hA]
    dsimp only
    rw [hfilter]
    rfl
  by_cases htov : o1.mass + o2.mass > 3 * M_sun
  · have hdeb := hsf.2.2.1 htov
    have hobjs2 : (processCollisions cfg randFor now st).objects =
        [createBlackHoleModel ((randFor o1.id o2.id).ids 0) now "Collision Black Hole"
          (getCollisionCenter o1 o2).centerPos (getCollisionCenter o1 o2).centerVel
          ((o1.mass + o2.mass) / M_sun) 0 true] := by
      rw [hobjs, hdeb]
      rfl
    refine ⟨?_, ?_, fun _ => ⟨_, hobjs2, rfl, div_M_sun_mul _, rfl, rfl⟩,
      fun h => absurd htov h⟩
    · rw [hobjs2]
      intro hmem
      simp only [List.map_cons, List.map_nil, List.mem_singleton] at hmem
      exact (hfresh 0).1 hmem.symm
    · rw [hobjs2]
      intro hmem
      simp only [List.map_cons, List.map_nil, List.mem_singleton] at hmem
      exact (hfresh 0).2 hmem.symm
  · obtain ⟨debris, neb, hdeb, hlen, hmemtypes, hnt, hnm, hnp, hnv, hno, hnid⟩ :=
      hsf.2.2.2 htov
    have hobjs2 : (processCollisions cfg randFor now st).objects = debris ++ [neb] := by
      rw [hobjs, hdeb]
      rfl
    have hcount : debris.length ≤ 30 := by
      rw [hlen]
      have h := countDraw_toNat_le (randFor o1.id o2.id).countDraw 16 hdraw.1 hdraw.2
      have hc : ((16 : ℕ) : ℝ) = (16 : ℝ) := by norm_num
      rw [hc] at h
      rcases h with h | h
      · omega
      · omega
    refine ⟨?_, ?_, fun h => absurd h htov,
      fun _ => ⟨debris, neb, hobjs2, by omega, hcount,
        fun d hd => (hmemtypes d hd).1, hnt, hnm, hnp, hnv, hno⟩⟩
    · rw [hobjs2]
      intro hmem
      simp only [List.map_append, List.mem_append, List.mem_map,
        List.mem_singleton] at hmem
      rcases hmem with ⟨d, hd, hdid⟩ | ⟨d, rfl, hdid⟩
      · obtain ⟨k, hk⟩ := (hmemtypes d hd).2
        rw [hk] at hdid
        exact (hfresh k).1 hdid
      · obtain ⟨k, hk⟩ := hnid
        rw [hk] at hdid
        exact (hfresh k).1 hdid
    · rw [hobjs2]
      intro hmem
      simp only [List.map_append, List.mem_append, List.mem_map,
        List.mem_singleton] at hmem
      rcases hmem with ⟨d, hd, hdid⟩ | ⟨d, rfl, hdid⟩
      · obtain ⟨k, hk⟩ := (hmemtypes d hd).2
        rw [hk] at hdid
        exact (hfresh k).2 hdid
      · obtain ⟨k, hk⟩ := hnid
        rw [hk] at hdid
        exact (hfresh k).2 hdid

/-- The coincident star and neutron star collide. -/
theorem star_ns_overlap_collides : checkCollision starObj nsObjC := by
  unfold checkCollision
  show Vec3.distanceTo Vec3.zero Vec3.zero ≤ _
  have hz : Vec3.distanceTo Vec3.zero Vec3.zero = 0 := by
    simp [Vec3.distanceTo, Vec3.subtract, Vec3.zero, Vec3.magnitude]
  rw [hz]
  show (0 : ℝ) ≤ 0.5 + Real.logb 10 ((if (1e26 : ℝ) = 0 then 1e26 else 1e26) + 1) / 10 + 0.4
  have hlog : 0 ≤ Real.logb 10 ((if (1e26 : ℝ) = 0 then 1e26 else 1e26) + 1) :=
    Real.logb_nonneg (by norm_num) (by norm_num)
  nlinarith

/-- Witness for C5: the concrete star + neutron-star collision (combined
mass 6.8e30 kg, above the TOV threshold) removes both bodies; the theorem
also covers the sub-threshold debris + nebula branch. -/
theorem stellar_star_ns_outcome_witness :
    starObj.id ∉ (processCollisions DEFAULT_PHYSICS_CONFIG (fun _ _ => zeroRand) 0
      starNsState).objects.map (·.id) ∧
    nsObjC.id ∉ (processCollisions DEFAULT_PHYSICS_CONFIG (fun _ _ => zeroRand) 0
      starNsState).objects.map (·.id) ∧
    (starObj.mass + nsObjC.mass > 3 * M_sun →
      ∃ bh : CosmicObject,
        (processCollisions DEFAULT_PHYSICS_CONFIG (fun _ _ => zeroRand) 0
          starNsState).objects = [bh] ∧
        bh.type = BLACK_HOLE ∧ bh.mass = starObj.mass + nsObjC.mass ∧
        bh.position = (getCollisionCenter starObj nsObjC).centerPos ∧
        bh.velocity = (getCollisionCenter starObj nsObjC).centerVel) ∧
    (¬ starObj.mass + nsObjC.mass > 3 * M_sun →
      ∃ (debris : List CosmicObject) (neb : CosmicObject),
        (processCollisions DEFAULT_PHYSICS_CONFIG (fun _ _ => zeroRand) 0
          starNsState).objects = debris ++ [neb] ∧
        15 ≤ debris.length ∧ debris.length ≤ 30 ∧
        (∀ d ∈ debris, d.type = GAS_CLOUD ∨ d.type = ASTEROID) ∧
        neb.type = NEBULA ∧ neb.mass = (starObj.mass + nsObjC.mass) * 0.7 ∧
        neb.position = (getCollisionCenter starObj nsObjC).centerPos ∧
        neb.velocity = (getCollisionCenter starObj nsObjC).centerVel ∧
        neb.nebulaOriginMass = some (starObj.mass + nsObjC.mass)) :=
  stellar_star_ns_outcome DEFAULT_PHYSICS_CONFIG (fun _ _ => zeroRand) 0
    starNsState starObj nsObjC rfl rfl rfl rfl rfl (by decide)
    (Or.inl ⟨rfl, rfl⟩) star_ns_overlap_collides
    ⟨by norm_num [zeroRand], by norm_num [zeroRand]⟩
    (fun k => ⟨by simp [zeroRand, starObj, sampleObject]; omega,
      by simp [zeroRand, nsObjC, sampleObject]; omega⟩)

/-- Scaffolding for C3: if the dispatched resolver updates the survivor in
place with an id-preserving, mass-summing field update, marks exactly the
victim for removal, and spawns only fresh-id debris, then after the pass
the absorption outcome holds. -/
theorem absorbedInto_of_fields (cfg : PhysicsConfig)
    (randFor : ℕ → ℕ → HandlerRand) (now : ℝ) (st : EngineState)
    (o1 o2 : CosmicObject)
    (hobs : st.objects = [o1, o2]) (hrem : st.objectsToRemove = [])
    (hen : cfg.enableCollisions = true)
    (hp1 : o1.isPhysicsEnabled = true) (hp2 : o2.isPhysicsEnabled = true)
    (hid : o1.id ≠ o2.id) (hcol : checkCollision o1 o2)
    (surv vict : CosmicObject) (f : CosmicObject → CosmicObject)
    (hsv : (surv = o1 ∧ vict = o2) ∨ (surv = o2 ∧ vict = o1))
    (hfid : ∀ o, (f o).id = o.id)
    (hfmass : (f surv).mass = o1.mass + o2.mass)
    (hH1 : (dispatchResolver (randFor o1.id o2.id) now
      { objects := st.objects
        objectsToRemove := st.objectsToRemove
        debrisToAdd := []
        collisionEvents := st.collisionEvents
        kilonovaCollapses := st.kilonovaCollapses
        collisions := st.collisions + 1
        checkedLog := [] ++ [(o1.id, o2.id)] } o1 o2).objects =
      updateObj st.objects surv.id f)
    (hH2 : (dispatchResolver (randFor o1.id o2.id) now
      { objects := st.objects
        objectsToRemove := st.objectsToRemove
        debrisToAdd := []
        collisionEvents := st.collisionEvents
        kilonovaCollapses := st.kilonovaCollapses
        collisions := st.collisions + 1
        checkedLog := [] ++ [(o1.id, o2.id)] } o1 o2).objectsToRemove =
      st.objectsToRemove ++ [vict.id])
    (hH3 : ∀ d ∈ (dispatchResolver (randFor o1.id o2.id) now
      { objects := st.objects
        objectsToRemove := st.objectsToRemove
        debrisToAdd := []
        collisionEvents := st.collisionEvents
        kilonovaCollapses := st.kilonovaCollapses
        collisions := st.collisions + 1
        checkedLog := [] ++ [(o1.id, o2.id)] } o1 o2).debrisToAdd,
      d.id ≠ o1.id ∧ d.id ≠ o2.id) :
    absorbedInto (processCollisions cfg randFor now st) o1 o2 := by
  have hscan := two_object_scan randFor now st o1 o2 hobs hrem hp1 hp2 hid hcol
  have hA := processCollisions_eq cfg randFor now st hen
  rw [hscan] at hA
  rcases hsv with ⟨hs, hv⟩ | ⟨hs, hv⟩
  · subst hs
    subst hv
    have hup : updateObj st.objects surv.id f = [f surv, vict] := by
      rw [hobs]
      show [if surv.id = surv.id then f surv else surv,
        if vict.id = surv.id then f vict else vict] = [f surv, vict]
      rw [if_pos rfl, if_neg (fun h => hid h.symm)]
    have hfil : List.filter (fun o =>
        !((st.objectsToRemove ++ [vict.id]).contains o.id)) [f surv, vict] =
        [f surv] := by
      rw [hrem]
      simp only [List.nil_append, List.filter_cons]
      rw [hfid surv]
      simp [hid]
    rw [hH1, hH2, hup, hfil] at hA
    refine ⟨surv, vict, Or.inl ⟨rfl, rfl⟩, ?_, f surv, ?_, hfid surv, hfmass⟩
    · rw [hA]
      intro hmem
      simp only [List.map_append, List.map_cons, List.map_nil, List.mem_append,
        List.mem_map, List.mem_singleton] at hmem
      rcases hmem with hmem | ⟨d, hd, hdid⟩
      · rw [hfid surv] at hmem
        exact hid hmem.symm
      · exact (hH3 d hd).2 hdid
    · rw [hA]
      exact List.mem_append_left _ (List.mem_cons_self _ _)
  · subst hs
    subst hv
    have hup : updateObj st.objects surv.id f = [vict, f surv] := by
      rw [hobs]
      show [if vict.id = surv.id then f vict else vict,
        if surv.id = surv.id then f surv else surv] = [vict, f surv]
      rw [if_pos rfl, if_neg hid]
    have hfil : List.filter (fun o =>
        !((st.objectsToRemove ++ [vict.id]).contains o.id)) [vict, f surv] =
        [f surv] := by
      rw [hrem]
      simp only [List.nil_append, List.filter_cons]
      rw [hfid surv]
      have hid2 : surv.id ≠ vict.id := fun h => hid h.symm
      simp [hid2]
    rw [hH1, hH2, hup, hfil] at hA
    refine ⟨surv, vict, Or.inr ⟨rfl, rfl⟩, ?_, f surv, ?_, hfid surv, hfmass⟩
    · rw [hA]
      intro hmem
      simp only [List.map_append, List.map_cons, List.map_nil, List.mem_append,
        List.mem_map, List.mem_singleton] at hmem
      rcases hmem with hmem | ⟨d, hd, hdid⟩
      · rw [hfid surv] at hmem
        exact hid hmem
      · exact (hH3 d hd).1 hdid
    · rw [hA]
      exact List.mem_append_left _ (List.mem_cons_self _ _)

/-- C3: every absorption-type resolution conserves mass and deletes the
absorbed object. On a colliding pair: (a) a rocky or gas collision with
mass ratio at least 3, (b) a stellar collision where a star absorbs a
small non-star/non-neutron-star body, and (c) a tidal disruption, all end
the pass with one survivor whose mass is the sum of the two pre-collision
masses and with the absorbed object's id gone from the object set. -/
theorem absorption_conserves_mass (cfg : PhysicsConfig)
    (randFor : ℕ → ℕ → HandlerRand) (now : ℝ) (st : EngineState)
    (o1 o2 : CosmicObject)
    (hobs : st.objects = [o1, o2]) (hrem : st.objectsToRemove = [])
    (hen : cfg.enableCollisions = true)
    (hp1 : o1.isPhysicsEnabled = true) (hp2 : o2.isPhysicsEnabled = true)
    (hid : o1.id ≠ o2.id) (hcol : checkCollision o1 o2)
    (hfresh : ∀ k, (randFor o1.id o2.id).ids k ≠ o1.id ∧
      (randFor o1.id o2.id).ids k ≠ o2.id) :
    ((classifyCollision o1 o2 = rocky_collision ∨
        classifyCollision o1 o2 = gas_collision) →
      max o1.mass o2.mass / min o1.mass o2.mass ≥ 3 →
      absorbedInto (processCollisions cfg randFor now st) o1 o2) ∧
    (classifyCollision o1 o2 = stellar_collision →
      ((o1.type = STAR ∧ ¬o2.type = STAR ∧ ¬o2.type = NEUTRON_STAR) ∨
        (o2.type = STAR ∧ ¬o1.type = STAR ∧ ¬o1.type = NEUTRON_STAR)) →
      absorbedInto (processCollisions cfg randFor now st) o1 o2) ∧
    (classifyCollision o1 o2 = tidal_disruption →
      absorbedInto (processCollisions cfg randFor now st) o1 o2) := by
  refine ⟨fun hcl hratio => ?_, fun hcl habs => ?_, fun hcl => ?_⟩
  · -- rocky or gas, ratio >= 3
    have hratio2 : max (getCollisionCenter o1 o2).m1 (getCollisionCenter o1 o2).m2 /
        min (getCollisionCenter o1 o2).m1 (getCollisionCenter o1 o2).m2 ≥ 3 := hratio
    by_cases h12 : o1.mass > o2.mass
    · have h122 : (getCollisionCenter o1 o2).m1 > (getCollisionCenter o1 o2).m2 := h12
      rcases hcl with hcl | hcl
      · refine absorbedInto_of_fields cfg randFor now st o1 o2 hobs hrem hen hp1 hp2
          hid hcol o1 o2
          (fun o => { o with mass := o.mass + o2.mass, temperature := max o.temperature o2.temperature + 200 })
          (Or.inl ⟨rfl, rfl⟩) (fun o => rfl) rfl ?_ ?_ ?_ <;>
          · unfold dispatchResolver
            rw [hcl]
            simp only [handleRockyCollision, recordCollisionEvent]
            simp only [if_pos hratio2, if_pos h122]
            try first
            | rfl
            | { intro d hd
                simp only [List.mem_append, List.mem_map, List.mem_range] at hd
                first
                | { obtain ⟨k, _, rfl⟩ := hd
                    exact ⟨(hfresh k).1, (hfresh k).2⟩ }
                | { rcases hd with hd | ⟨k, _, rfl⟩
                    · simp at hd
                    · exact ⟨(hfresh k).1, (hfresh k).2⟩ } }
      · refine absorbedInto_of_fields cfg randFor now st o1 o2 hobs hrem hen hp1 hp2
          hid hcol o1 o2
          (fun o => { o with mass := o.mass + o2.mass })
          (Or.inl ⟨rfl, rfl⟩) (fun o => rfl) rfl ?_ ?_ ?_ <;>
          · unfold dispatchResolver
            rw [hcl]
            simp only [handleGasCollision, recordCollisionEvent]
            simp only [if_pos hratio2, if_pos h122]
            try first
            | rfl
            | { intro d hd
                simp only [List.mem_append, List.mem_map, List.mem_range] at hd
                first
                | { obtain ⟨k, _, rfl⟩ := hd
                    exact ⟨(hfresh k).1, (hfresh k).2⟩ }
                | { rcases hd with hd | ⟨k, _, rfl⟩
                    · simp at hd
                    · exact ⟨(hfresh k).1, (hfresh k).2⟩ } }
    · have h122 : ¬(getCollisionCenter o1 o2).m1 > (getCollisionCenter o1 o2).m2 := h12
      rcases hcl with hcl | hcl
      · refine absorbedInto_of_fields cfg randFor now st o1 o2 hobs hrem hen hp1 hp2
          hid hcol o2 o1
          (fun o => { o with mass := o.mass + o1.mass, temperature := max o.temperature o1.temperature + 200 })
          (Or.inr ⟨rfl, rfl⟩) (fun o => rfl)
          (by show o2.mass + o1.mass = o1.mass + o2.mass; exact add_comm _ _)
          ?_ ?_ ?_ <;>
          · unfold dispatchResolver
            rw [hcl]
            simp only [handleRockyCollision, recordCollisionEvent]
            simp only [if_pos hratio2, if_neg h122]
            try first
            | rfl
            | { intro d hd
                simp only [List.mem_append, List.mem_map, List.mem_range] at hd
                first
                | { obtain ⟨k, _, rfl⟩ := hd
                    exact ⟨(hfresh k).1, (hfresh k).2⟩ }
                | { rcases hd with hd | ⟨k, _, rfl⟩
                    · simp at hd
                    · exact ⟨(hfresh k).1, (hfresh k).2⟩ } }
      · refine absorbedInto_of_fields cfg randFor now st o1 o2 hobs hrem hen hp1 hp2
          hid hcol o2 o1
          (fun o => { o with mass := o.mass + o1.mass })
          (Or.inr ⟨rfl, rfl⟩) (fun o => rfl)
          (by show o2.mass + o1.mass = o1.mass + o2.mass; exact add_comm _ _)
          ?_ ?_ ?_ <;>
          · unfold dispatchResolver
            rw [hcl]
            simp only [handleGasCollision, recordCollisionEvent]
            simp only [if_pos hratio2, if_neg h122]
            try first
            | rfl
            | { intro d hd
                simp only [List.mem_append, List.mem_map, List.mem_range] at hd
                first
                | { obtain ⟨k, _, rfl⟩ := hd
                    exact ⟨(hfresh k).1, (hfresh k).2⟩ }
                | { rcases hd with hd | ⟨k, _, rfl⟩
                    · simp at hd
                    · exact ⟨(hfresh k).1, (hfresh k).2⟩ } }
  · -- star absorbs a small non-star/non-neutron-star body
    by_cases hst1 : o1.type = STAR
    · refine absorbedInto_of_fields cfg randFor now st o1 o2 hobs hrem hen hp1 hp2
        hid hcol o1 o2
        (fun o => { o with mass := o.mass + o2.mass, temperature := o.temperature + 500 })
        (Or.inl ⟨rfl, rfl⟩) (fun o => rfl) rfl ?_ ?_ ?_ <;>
        · unfold dispatchResolver
          rw [hcl]
          simp only [handleStellarCollision, recordCollisionEvent]
          simp only [if_pos habs, if_pos hst1]
          try first
          | rfl
          | { intro d hd
              simp only [List.mem_append, List.mem_map, List.mem_range] at hd
              first
              | { obtain ⟨k, _, rfl⟩ := hd
                  exact ⟨(hfresh k).1, (hfresh k).2⟩ }
              | { rcases hd with hd | ⟨k, _, rfl⟩
                  · simp at hd
                  · exact ⟨(hfresh k).1, (hfresh k).2⟩ } }
    · refine absorbedInto_of_fields cfg randFor now st o1 o2 hobs hrem hen hp1 hp2
        hid hcol o2 o1
        (fun o => { o with mass := o.mass + o1.mass, temperature := o.temperature + 500 })
        (Or.inr ⟨rfl, rfl⟩) (fun o => rfl)
        (by show o2.mass + o1.mass = o1.mass + o2.mass; exact add_comm _ _)
        ?_ ?_ ?_ <;>
        · unfold dispatchResolver
          rw [hcl]
          simp only [handleStellarCollision, recordCollisionEvent]
          simp only [if_pos habs, if_neg hst1]
          try first
          | rfl
          | { intro d hd
              simp only [List.mem_append, List.mem_map, List.mem_range] at hd
              first
              | { obtain ⟨k, _, rfl⟩ := hd
                  exact ⟨(hfresh k).1, (hfresh k).2⟩ }
              | { rcases hd with hd | ⟨k, _, rfl⟩
                  · simp at hd
                  · exact ⟨(hfresh k).1, (hfresh k).2⟩ } }
  · -- tidal disruption
    by_cases hatt : o1.type = BLACK_HOLE ∨ (¬o2.type = BLACK_HOLE ∧ o1.type = NEUTRON_STAR)
    · refine absorbedInto_of_fields cfg randFor now st o1 o2 hobs hrem hen hp1 hp2
        hid hcol o1 o2
        (fun o => { o with mass := o.mass + o2.mass, isAccreting := if o1.type = BLACK_HOLE then true else o.isAccreting })
        (Or.inl ⟨rfl, rfl⟩) (fun o => rfl) rfl ?_ ?_ ?_ <;>
        · unfold dispatchResolver
          rw [hcl]
          simp only [handleTidalDisruption, recordCollisionEvent]
          simp only [if_pos hatt]
          try first
          | rfl
          | { intro d hd
              simp only [List.mem_append, List.mem_map, List.mem_range] at hd
              first
              | { obtain ⟨k, _, rfl⟩ := hd
                  exact ⟨(hfresh k).1, (hfresh k).2⟩ }
              | { rcases hd with hd | ⟨k, _, rfl⟩
                  · simp at hd
                  · exact ⟨(hfresh k).1, (hfresh k).2⟩ } }
    · refine absorbedInto_of_fields cfg randFor now st o1 o2 hobs hrem hen hp1 hp2
        hid hcol o2 o1
        (fun o => { o with mass := o.mass + o1.mass, isAccreting := if o2.type = BLACK_HOLE then true else o.isAccreting })
        (Or.inr ⟨rfl, rfl⟩) (fun o => rfl)
        (by show o2.mass + o1.mass = o1.mass + o2.mass; exact add_comm _ _)
        ?_ ?_ ?_ <;>
        · unfold dispatchResolver
          rw [hcl]
          simp only [handleTidalDisruption, recordCollisionEvent]
          simp only [if_neg hatt]
          try first
          | rfl
          | { intro d hd
              simp only [List.mem_append, List.mem_map, List.mem_range] at hd
              first
              | { obtain ⟨k, _, rfl⟩ := hd
                  exact ⟨(hfresh k).1, (hfresh k).2⟩ }
              | { rcases hd with hd | ⟨k, _, rfl⟩
                  · simp at hd
                  · exact ⟨(hfresh k).1, (hfresh k).2⟩ } }

/-- The coincident black hole and asteroid collide. -/
theorem bh_ast_overlap_collides : checkCollision bhObj astObj := by
  unfold checkCollision
  show Vec3.distanceTo Vec3.zero Vec3.zero ≤ _
  have hz : Vec3.distanceTo Vec3.zero Vec3.zero = 0 := by
    simp [Vec3.distanceTo, Vec3.subtract, Vec3.zero, Vec3.magnitude]
  rw [hz]
  show (0 : ℝ) ≤ max 0.8 (Real.logb 10 ((6e30 : ℝ) + 1) / 30) + 0.3
  have h8 : (0.8 : ℝ) ≤ max 0.8 (Real.logb 10 ((6e30 : ℝ) + 1) / 30) := le_max_left _ _
  linarith

/-- Witness for C3: the concrete black-hole + asteroid tidal disruption
leaves the black hole carrying the summed mass and removes the asteroid. -/
theorem absorption_conserves_mass_witness :
    absorbedInto (processCollisions DEFAULT_PHYSICS_CONFIG (fun _ _ => zeroRand) 0
      bhState) bhObj astObj :=
  (absorption_conserves_mass DEFAULT_PHYSICS_CONFIG (fun _ _ => zeroRand) 0
    bhState bhObj astObj rfl rfl rfl rfl rfl (by decide) bh_ast_overlap_collides
    (fun k => ⟨by simp [zeroRand, bhObj, sampleObject]; omega,
      by simp [zeroRand, astObj, sampleObject]; omega⟩)).2.2 rfl

/-- updateObj leaves a list untouched when no element carries the target
id. -/
theorem updateObj_skip (l : List CosmicObject) (i : ℕ)
    (f : CosmicObject → CosmicObject) (hl : ∀ s ∈ l, s.id ≠ i) :
    updateObj l i f = l := by
  induction l with
  | nil => rfl
  | cons a t ih =>
    simp only [updateObj, List.map_cons]
    rw [if_neg (hl a (List.mem_cons_self a t))]
    have h2 := ih fun s hs => hl s (List.mem_cons_of_mem a hs)
    exact congrArg (List.cons a) h2

/-- updateObj on a list whose head carries the target id and whose tail
does not rewrites exactly the head. -/
theorem updateObj_cons_head (x : CosmicObject) (l : List CosmicObject) (i : ℕ)
    (f : CosmicObject → CosmicObject) (hx : x.id = i) (hl : ∀ s ∈ l, s.id ≠ i) :
    updateObj (x :: l) i f = f x :: l := by
  simp only [updateObj, List.map_cons]
  rw [if_pos hx]
  exact congrArg (List.cons (f x)) (updateObj_skip l i f hl)

/-- Setting the mass field to 0.8 to the zeroth power times itself is the
identity. -/
theorem mass_pow_zero (n : CosmicObject) :
    ({ n with mass := (0.8 : ℝ) ^ 0 * n.mass } : CosmicObject) = n := by
  have h : (0.8 : ℝ) ^ 0 * n.mass = n.mass := by norm_num
  rw [h]

/-- A baby-star offset component, drawn in [0,1], lands within the extent
component in absolute value. -/
theorem offAbs (d e : ℝ) (h0 : 0 ≤ d) (h1 : d ≤ 1) :
    |(d - 0.5) * e * 0.8| ≤ |e| := by
  rw [abs_mul, abs_mul]
  have hd : |d - 0.5| ≤ 0.5 := abs_le.mpr ⟨by linarith, by linarith⟩
  have he : (0 : ℝ) ≤ |e| := abs_nonneg e
  have h8 : |(0.8 : ℝ)| = 0.8 := by norm_num
  rw [h8]
  nlinarith [mul_le_mul_of_nonneg_right hd he]

/-- Specification of the star-formation loop: starting from the nebula
followed by any id-disjoint tail, some j ≤ fuel stars are spawned (at
least one as long as there is fuel and the mass threshold is exceeded),
each spawn multiplies the nebula's mass by 0.8, and every spawned star is
a STAR object of mass 0.2 · 0.8^m · (initial nebula mass) placed at an
offset bounded by the extent. -/
theorem spawnBabyStars_spec (rand : HandlerRand) (now : ℝ) (nid : ℕ)
    (hids : ∀ k, rand.ids k ≠ nid)
    (hth : ∀ k, 0 ≤ rand.thetaDraw k ∧ rand.thetaDraw k ≤ 1)
    (hph : ∀ k, 0 ≤ rand.phiDraw k ∧ rand.phiDraw k ≤ 1)
    (hsz : ∀ k, 0 ≤ rand.sizeDraw k ∧ rand.sizeDraw k ≤ 1) :
    ∀ (fuel i : ℕ) (n : CosmicObject) (acc : List CosmicObject),
      n.id = nid → (∀ s ∈ acc, s.id ≠ nid) →
      ∃ (j : ℕ) (stars : List CosmicObject),
        spawnBabyStars rand now nid fuel i (n :: acc) =
          { n with mass := 0.8 ^ j * n.mass } :: (acc ++ stars) ∧
        j ≤ fuel ∧ stars.length = j ∧
        (0 < fuel → 5 * M_sun < n.mass → 0 < j) ∧
        ∀ s ∈ stars, s.id ≠ nid ∧ s.type = STAR ∧
          (∃ m : ℕ, s.mass = 0.8 ^ m * n.mass * 0.2) ∧
          ∃ off : Vec3, s.position = n.position.add off ∧
            |off.x| ≤ |n.extent.x| ∧ |off.y| ≤ |n.extent.y| ∧
            |off.z| ≤ |n.extent.z| := by
  intro fuel
  induction fuel with
  | zero =>
    intro i n acc hn hacc
    refine ⟨0, [], ?_, le_refl 0, rfl, fun h _ => absurd h (lt_irrefl 0),
      fun s hs => absurd hs (List.not_mem_nil s)⟩
    rw [mass_pow_zero, List.append_nil]
    simp only [spawnBabyStars]
  | succ fuel ih =>
    intro i n acc hn hacc
    subst hn
    by_cases hm : n.mass ≤ 5 * M_sun
    · have hstep : spawnBabyStars rand now n.id (fuel + 1) i (n :: acc) =
          n :: acc := by
        simp only [spawnBabyStars]
        rw [findObj_cons_eq]
        dsimp only
        rw [if_pos hm]
      refine ⟨0, [], ?_, Nat.zero_le _, rfl,
        fun _ hlt => absurd hlt (not_lt.mpr hm),
        fun s hs => absurd hs (List.not_mem_nil s)⟩
      rw [hstep, mass_pow_zero, List.append_nil]
    · have hstep : spawnBabyStars rand now n.id (fuel + 1) i (n :: acc) =
          spawnBabyStars rand now n.id fuel (i + 1)
            ({ n with mass := n.mass - n.mass * 0.2 } ::
              (acc ++ [createStarModel (rand.ids i) now "Baby Star"
                (n.position.add
                  ⟨(rand.thetaDraw i - 0.5) * n.extent.x * 0.8,
                   (rand.phiDraw i - 0.5) * n.extent.y * 0.8,
                   (rand.sizeDraw i - 0.5) * n.extent.z * 0.8⟩)
                (n.velocity.add
                  ⟨(rand.speedDraw i - 0.5) * 0.5,
                   (rand.heatDraw i - 0.5) * 0.5,
                   (rand.densDraw i - 0.5) * 0.5⟩)
                (n.mass * 0.2 / M_sun)])) := by
        simp only [spawnBabyStars]
        rw [findObj_cons_eq]
        dsimp only
        rw [if_neg hm]
        rw [updateObj_cons_head _ _ _ _ rfl hacc, List.cons_append]
      obtain ⟨j, stars, heq, hle, hlen, _, hmem⟩ :=
        ih (i + 1) { n with mass := n.mass - n.mass * 0.2 }
          (acc ++ [createStarModel (rand.ids i) now "Baby Star"
            (n.position.add
              ⟨(rand.thetaDraw i - 0.5) * n.extent.x * 0.8,
               (rand.phiDraw i - 0.5) * n.extent.y * 0.8,
               (rand.sizeDraw i - 0.5) * n.extent.z * 0.8⟩)
            (n.velocity.add
              ⟨(rand.speedDraw i - 0.5) * 0.5,
               (rand.heatDraw i - 0.5) * 0.5,
               (rand.densDraw i - 0.5) * 0.5⟩)
            (n.mass * 0.2 / M_sun)])
          rfl
          (by
            intro s hs
            rcases List.mem_append.mp hs with h | h
            · exact hacc s h
            · have hse : s = createStarModel (rand.ids i) now "Baby Star"
                  (n.position.add
                    ⟨(rand.thetaDraw i - 0.5) * n.extent.x * 0.8,
                     (rand.phiDraw i - 0.5) * n.extent.y * 0.8,
                     (rand.sizeDraw i - 0.5) * n.extent.z * 0.8⟩)
                  (n.velocity.add
                    ⟨(rand.speedDraw i - 0.5) * 0.5,
                     (rand.heatDraw i - 0.5) * 0.5,
                     (rand.densDraw i - 0.5) * 0.5⟩)
                  (n.mass * 0.2 / M_sun) := by simpa using h
              subst hse
              exact hids i)
      refine ⟨j + 1,
        createStarModel (rand.ids i) now "Baby Star"
          (n.position.add
            ⟨(rand.thetaDraw i - 0.5) * n.extent.x * 0.8,
             (rand.phiDraw i - 0.5) * n.extent.y * 0.8,
             (rand.sizeDraw i - 0.5) * n.extent.z * 0.8⟩)
          (n.velocity.add
            ⟨(rand.speedDraw i - 0.5) * 0.5,
             (rand.heatDraw i - 0.5) * 0.5,
             (rand.densDraw i - 0.5) * 0.5⟩)
          (n.mass * 0.2 / M_sun) :: stars,
        ?_, Nat.succ_le_succ hle, by simp [hlen], fun _ _ => Nat.succ_pos j, ?_⟩
      · rw [hstep, heq]
        have hlist : (acc ++ [createStarModel (rand.ids i) now "Baby Star"
            (n.position.add
              ⟨(rand.thetaDraw i - 0.5) * n.extent.x * 0.8,
               (rand.phiDraw i - 0.5) * n.extent.y * 0.8,
               (rand.sizeDraw i - 0.5) * n.extent.z * 0.8⟩)
            (n.velocity.add
              ⟨(rand.speedDraw i - 0.5) * 0.5,
               (rand.heatDraw i - 0.5) * 0.5,
               (rand.densDraw i - 0.5) * 0.5⟩)
            (n.mass * 0.2 / M_sun)]) ++ stars =
            acc ++ (createStarModel (rand.ids i) now "Baby Star"
              (n.position.add
                ⟨(rand.thetaDraw i - 0.5) * n.extent.x * 0.8,
                 (rand.phiDraw i - 0.5) * n.extent.y * 0.8,
                 (rand.sizeDraw i - 0.5) * n.extent.z * 0.8⟩)
              (n.velocity.add
                ⟨(rand.speedDraw i - 0.5) * 0.5,
                 (rand.heatDraw i - 0.5) * 0.5,
                 (rand.densDraw i - 0.5) * 0.5⟩)
              (n.mass * 0.2 / M_sun) :: stars) := by simp
        rw [hlist]
        congr 1
        show ({ n with mass := (0.8 : ℝ) ^ j * (n.mass - n.mass * 0.2) } :
            CosmicObject) = { n with mass := (0.8 : ℝ) ^ (j + 1) * n.mass }
        have harith : (0.8 : ℝ) ^ j * (n.mass - n.mass * 0.2) =
            0.8 ^ (j + 1) * n.mass := by ring
        rw [harith]
      · intro s hs
        rcases List.mem_cons.mp hs with rfl | hs'
        · refine ⟨hids i, rfl, ⟨0, ?_⟩,
            ⟨⟨(rand.thetaDraw i - 0.5) * n.extent.x * 0.8,
              (rand.phiDraw i - 0.5) * n.extent.y * 0.8,
              (rand.sizeDraw i - 0.5) * n.extent.z * 0.8⟩, rfl, ?_, ?_, ?_⟩⟩
          · show n.mass * 0.2 / M_sun * M_sun = (0.8 : ℝ) ^ 0 * n.mass * 0.2
            rw [div_M_sun_mul, pow_zero, one_mul]
          · exact offAbs _ _ (hth i).1 (hth i).2
          · exact offAbs _ _ (hph i).1 (hph i).2
          · exact offAbs _ _ (hsz i).1 (hsz i).2
        · obtain ⟨hid, hty, ⟨m, hsm⟩, ⟨off, hoff, hbx, hby, hbz⟩⟩ := hmem s hs'
          refine ⟨hid, hty, ⟨m + 1, ?_⟩, ⟨off, hoff, hbx, hby, hbz⟩⟩
          rw [hsm]
          show (0.8 : ℝ) ^ m * (n.mass - n.mass * 0.2) * 0.2 =
            0.8 ^ (m + 1) * n.mass * 0.2
          ring

/-- One evolution step of a lone nebula whose formation guard (age, mass
and a defined nebulaOriginMass) holds: 1-3 stars appear behind the
nebula, the nebula keeps 80% of its mass per star, its age clock is reset
to now, and it survives the dissipation check. -/
theorem evolveNebula_spawn (nrand : ℕ → HandlerRand) (now : ℝ)
    (n : CosmicObject)
    (horigin : n.nebulaOriginMass ≠ none)
    (hage : now - n.createdAt > 30000)
    (hmass : n.mass > 5 * M_sun)
    (hcnt0 : 0 ≤ (nrand n.id).countDraw) (hcnt1 : (nrand n.id).countDraw < 1)
    (hids : ∀ k, (nrand n.id).ids k ≠ n.id)
    (hth : ∀ k, 0 ≤ (nrand n.id).thetaDraw k ∧ (nrand n.id).thetaDraw k ≤ 1)
    (hph : ∀ k, 0 ≤ (nrand n.id).phiDraw k ∧ (nrand n.id).phiDraw k ≤ 1)
    (hsz : ∀ k, 0 ≤ (nrand n.id).sizeDraw k ∧ (nrand n.id).sizeDraw k ≤ 1) :
    ∃ (j : ℕ) (stars : List CosmicObject),
      evolveNebula nrand now [n] n.id =
        { n with mass := 0.8 ^ j * n.mass, createdAt := now } :: stars ∧
      1 ≤ j ∧ j ≤ 3 ∧ stars.length = j ∧
      ∀ s ∈ stars, s.type = STAR ∧
        (∃ m : ℕ, s.mass = 0.8 ^ m * n.mass * 0.2) ∧
        ∃ off : Vec3, s.position = n.position.add off ∧
          |off.x| ≤ |n.extent.x| ∧ |off.y| ≤ |n.extent.y| ∧
          |off.z| ≤ |n.extent.z| := by
  have hsc3 : 1 + (⌊(nrand n.id).countDraw * 3⌋).toNat ≤ 3 := by
    rcases countDraw_toNat_le ((nrand n.id).countDraw) 3 hcnt0 hcnt1 with h | h
    · have hc : (((3 : ℕ)) : ℝ) = (3 : ℝ) := by norm_num
      rw [hc] at h
      omega
    · omega
  obtain ⟨j, stars, heq, hle, hlen, hposj, hmem⟩ :=
    spawnBabyStars_spec (nrand n.id) now n.id hids hth hph hsz
      (1 + (⌊(nrand n.id).countDraw * 3⌋).toNat) 0 n [] rfl
      (fun s hs => absurd hs (List.not_mem_nil s))
  have hj1 : 1 ≤ j := hposj (by omega) hmass
  have hj3 : j ≤ 3 := le_trans hle hsc3
  rw [List.nil_append] at heq
  have hstars : ∀ s ∈ stars, s.id ≠ n.id := fun s hs => (hmem s hs).1
  have hform : nebulaForm nrand now [n] n.id =
      { n with mass := (0.8 : ℝ) ^ j * n.mass, createdAt := now } :: stars := by
    unfold nebulaForm
    rw [findObj_cons_eq]
    dsimp only
    rw [if_pos ⟨hage, hmass, horigin⟩]
    rw [heq]
    rw [updateObj_cons_head { n with mass := (0.8 : ℝ) ^ j * n.mass } stars
      n.id _ rfl hstars]
  have hbig : ¬ ({ n with mass := (0.8 : ℝ) ^ j * n.mass, createdAt := now } :
      CosmicObject).mass < 0.5 * M_sun := by
    show ¬ (0.8 : ℝ) ^ j * n.mass < 0.5 * M_sun
    have hM : (0 : ℝ) < M_sun := by norm_num [M_sun]
    have hp : (0.8 : ℝ) ^ 3 ≤ 0.8 ^ j :=
      pow_le_pow_of_le_one (by norm_num) (by norm_num) hj3
    have h83 : (0.8 : ℝ) ^ 3 = 0.512 := by norm_num
    rw [h83] at hp
    have h5 : (0 : ℝ) < 5 * M_sun := by nlinarith [hM]
    have hm0 : (0 : ℝ) ≤ n.mass := le_of_lt (lt_trans h5 hmass)
    have hmul := mul_le_mul_of_nonneg_right hp hm0
    intro hcon
    linarith [hmul, hmass, hM, hcon]
  have hfind2 : findObj
      ({ n with mass := (0.8 : ℝ) ^ j * n.mass, createdAt := now } :: stars)
      n.id = some { n with mass := (0.8 : ℝ) ^ j * n.mass, createdAt := now } :=
    findObj_cons_eq _ _
  refine ⟨j, stars, ?_, hj1, hj3, hlen,
    fun s hs => ⟨(hmem s hs).2.1, (hmem s hs).2.2.1, (hmem s hs).2.2.2⟩⟩
  unfold evolveNebula
  rw [hform]
  unfold nebulaDissipate
  rw [hfind2]
  dsimp only
  rw [if_neg hbig]

/-- C8 counterexample: a nebula far past the 30 s age threshold and far
above the 5 M_sun mass threshold, but with nebulaOriginMass unset (as
every factory-created nebula has it), spawns no stars at all: the nebula
pass returns the object map unchanged. -/
theorem nebula_star_formation_counterexample :
    (40000 : ℝ) - loneNebula.createdAt > 30000 ∧
    loneNebula.mass > 5 * M_sun ∧
    loneNebula.type = NEBULA ∧
    (processNebulaEvolution (fun _ => zeroRand) 40000 loneNebSt).objects =
      [loneNebula] := by
  have hfind : findObj loneNebSt.objects 5 = some loneNebula :=
    findObj_cons_eq loneNebula []
  have hguard : ¬ ((40000 : ℝ) - loneNebula.createdAt > 30000 ∧
      loneNebula.mass > 5 * M_sun ∧ loneNebula.nebulaOriginMass ≠ none) :=
    fun h => h.2.2 rfl
  have hbig : ¬ loneNebula.mass < 0.5 * M_sun := by
    show ¬ ((1e32 : ℝ) < 0.5 * M_sun)
    norm_num [M_sun]
  have hform : nebulaForm (fun _ => zeroRand) 40000 loneNebSt.objects 5 =
      loneNebSt.objects := by
    unfold nebulaForm
    rw [hfind]
    dsimp only
    rw [if_neg hguard]
  have hdiss : nebulaDissipate loneNebSt.objects 5 = loneNebSt.objects := by
    unfold nebulaDissipate
    rw [hfind]
    dsimp only
    rw [if_neg hbig]
  have hev : evolveNebula (fun _ => zeroRand) 40000 loneNebSt.objects 5 =
      loneNebSt.objects := by
    unfold evolveNebula
    rw [hform]
    exact hdiss
  refine ⟨by show (40000 : ℝ) - 0 > 30000; norm_num,
    by show (1e32 : ℝ) > 5 * M_sun; norm_num [M_sun], rfl, ?_⟩
  have hred : processNebulaEvolution (fun _ => zeroRand) 40000 loneNebSt =
      { loneNebSt with
          objects := evolveNebula (fun _ => zeroRand) 40000 loneNebSt.objects 5
          objectCount :=
            (evolveNebula (fun _ => zeroRand) 40000 loneNebSt.objects 5).length } :=
    rfl
  rw [hred]
  exact hev

/-- C8 amended: for a lone nebula meeting the age and mass thresholds
WITH a defined nebulaOriginMass (only collision-spawned nebulae have
one), the nebula pass spawns 1-3 stars, each a STAR object taking 20% of
the remaining (0.8-per-star-decayed) nebula mass, placed at an offset
within the extent, and the surviving nebula's age clock is reset. -/
theorem nebula_star_formation_amended (nrand : ℕ → HandlerRand) (now : ℝ)
    (st : EngineState) (n : CosmicObject)
    (hobs : st.objects = [n])
    (htype : n.type = NEBULA)
    (horigin : n.nebulaOriginMass ≠ none)
    (hage : now - n.createdAt > 30000)
    (hmass : n.mass > 5 * M_sun)
    (hcnt0 : 0 ≤ (nrand n.id).countDraw) (hcnt1 : (nrand n.id).countDraw < 1)
    (hids : ∀ k, (nrand n.id).ids k ≠ n.id)
    (hth : ∀ k, 0 ≤ (nrand n.id).thetaDraw k ∧ (nrand n.id).thetaDraw k ≤ 1)
    (hph : ∀ k, 0 ≤ (nrand n.id).phiDraw k ∧ (nrand n.id).phiDraw k ≤ 1)
    (hsz : ∀ k, 0 ≤ (nrand n.id).sizeDraw k ∧ (nrand n.id).sizeDraw k ≤ 1) :
    ∃ (j : ℕ) (stars : List CosmicObject),
      (processNebulaEvolution nrand now st).objects =
        { n with mass := 0.8 ^ j * n.mass, createdAt := now } :: stars ∧
      1 ≤ j ∧ j ≤ 3 ∧ stars.length = j ∧
      ∀ s ∈ stars, s.type = STAR ∧
        (∃ m : ℕ, s.mass = 0.8 ^ m * n.mass * 0.2) ∧
        ∃ off : Vec3, s.position = n.position.add off ∧
          |off.x| ≤ |n.extent.x| ∧ |off.y| ≤ |n.extent.y| ∧
          |off.z| ≤ |n.extent.z| := by
  obtain ⟨j, stars, hev, hj1, hj3, hlen, hprops⟩ :=
    evolveNebula_spawn nrand now n horigin hage hmass hcnt0 hcnt1 hids hth hph hsz
  have hflt : List.filter (fun o => o.type == NEBULA) st.objects = [n] := by
    rw [hobs]
    have ht : (n.type == NEBULA) = true := by simp [htype]
    simp [ht]
  have hobjs : (processNebulaEvolution nrand now st).objects =
      evolveNebula nrand now st.objects n.id := by
    unfold processNebulaEvolution
    dsimp only
    rw [hflt]
    simp only [List.map_cons, List.map_nil, List.foldl_cons, List.foldl_nil]
  refine ⟨j, stars, ?_, hj1, hj3, hlen, hprops⟩
  rw [hobjs, hobs]
  exact hev

/-- Witness for the C8 amended claim on the concrete origin-carrying
nebula at age 40 s. -/
theorem nebula_star_formation_amended_witness :
    witNebula.nebulaOriginMass ≠ none ∧
    ∃ (j : ℕ) (stars : List CosmicObject),
      (processNebulaEvolution (fun _ => zeroRand) 40000 witNebSt).objects =
        { witNebula with mass := 0.8 ^ j * witNebula.mass, createdAt := (40000 : ℝ) } :: stars ∧
      1 ≤ j ∧ j ≤ 3 ∧ stars.length = j ∧
      ∀ s ∈ stars, s.type = STAR ∧
        (∃ m : ℕ, s.mass = 0.8 ^ m * witNebula.mass * 0.2) ∧
        ∃ off : Vec3, s.position = witNebula.position.add off ∧
          |off.x| ≤ |witNebula.extent.x| ∧ |off.y| ≤ |witNebula.extent.y| ∧
          |off.z| ≤ |witNebula.extent.z| :=
  ⟨fun h => Option.noConfusion h,
   nebula_star_formation_amended (fun _ => zeroRand) 40000 witNebSt witNebula rfl rfl
     (fun h => Option.noConfusion h)
     (by norm_num [witNebula])
     (by norm_num [witNebula, M_sun])
     (by norm_num [zeroRand])
     (by norm_num [zeroRand])
     (by intro k; show 1000 + k ≠ 7; omega)
     (by intro k; constructor <;> norm_num [zeroRand])
     (by intro k; constructor <;> norm_num [zeroRand])
     (by intro k; constructor <;> norm_num [zeroRand])⟩

/-- The clamped force magnitude is symmetric in its two arguments: the
distance, softening length and mass product are all order-independent. -/
theorem forceMagnitude_comm (cfg : PhysicsConfig) (o1 o2 : CosmicObject) :
    forceMagnitude cfg o2 o1 = forceMagnitude cfg o1 o2 := by
  simp only [forceMagnitude]
  have hdsq : (o1.position.x - o2.position.x) * (o1.position.x - o2.position.x) +
      (o1.position.y - o2.position.y) * (o1.position.y - o2.position.y) +
      (o1.position.z - o2.position.z) * (o1.position.z - o2.position.z) =
      (o2.position.x - o1.position.x) * (o2.position.x - o1.position.x) +
      (o2.position.y - o1.position.y) * (o2.position.y - o1.position.y) +
      (o2.position.z - o1.position.z) * (o2.position.z - o1.position.z) := by
    ring
  rw [hdsq]
  rw [add_comm (getVisualRadius o2) (getVisualRadius o1)]
  have hmm : 20.0 * (cfg.gravityStrength / 50) * toSceneMass o2.mass *
      toSceneMass o1.mass =
      20.0 * (cfg.gravityStrength / 50) * toSceneMass o1.mass *
      toSceneMass o2.mass := by ring
  rw [hmm]

/-- Newton's third law in the embedded force: the force on o2 from o1 is
the negation of the force on o1 from o2 (both zero below the 1e-8
distance floor). -/
theorem calculateGravitationalForce_antisymm (cfg : PhysicsConfig)
    (o1 o2 : CosmicObject) :
    calculateGravitationalForce cfg o2 o1 =
      (calculateGravitationalForce cfg o1 o2).neg := by
  simp only [calculateGravitationalForce]
  rw [forceMagnitude_comm]
  have hdsq : (o1.position.x - o2.position.x) * (o1.position.x - o2.position.x) +
      (o1.position.y - o2.position.y) * (o1.position.y - o2.position.y) +
      (o1.position.z - o2.position.z) * (o1.position.z - o2.position.z) =
      (o2.position.x - o1.position.x) * (o2.position.x - o1.position.x) +
      (o2.position.y - o1.position.y) * (o2.position.y - o1.position.y) +
      (o2.position.z - o1.position.z) * (o2.position.z - o1.position.z) := by
    ring
  rw [hdsq]
  by_cases hlt : Real.sqrt
      ((o2.position.x - o1.position.x) * (o2.position.x - o1.position.x) +
       (o2.position.y - o1.position.y) * (o2.position.y - o1.position.y) +
       (o2.position.z - o1.position.z) * (o2.position.z - o1.position.z)) < 1e-8
  · rw [if_pos hlt, if_pos hlt]
    simp [Vec3.zero, Vec3.neg]
  · rw [if_neg hlt, if_neg hlt]
    simp only [Vec3.neg]
    congr 1 <;> ring

/-- The force on o1 from o2 points along the line from o1 to o2 (with the
zero vector as the degenerate scale-0 case). -/
theorem calculateGravitationalForce_collinear (cfg : PhysicsConfig)
    (o1 o2 : CosmicObject) :
    ∃ c : ℝ, calculateGravitationalForce cfg o1 o2 =
      (o2.position.subtract o1.position).scale c := by
  simp only [calculateGravitationalForce]
  by_cases hlt : Real.sqrt
      ((o2.position.x - o1.position.x) * (o2.position.x - o1.position.x) +
       (o2.position.y - o1.position.y) * (o2.position.y - o1.position.y) +
       (o2.position.z - o1.position.z) * (o2.position.z - o1.position.z)) < 1e-8
  · refine ⟨0, ?_⟩
    rw [if_pos hlt]
    simp [Vec3.subtract, Vec3.scale, Vec3.zero]
  · refine ⟨forceMagnitude cfg o1 o2 / Real.sqrt
      ((o2.position.x - o1.position.x) * (o2.position.x - o1.position.x) +
       (o2.position.y - o1.position.y) * (o2.position.y - o1.position.y) +
       (o2.position.z - o1.position.z) * (o2.position.z - o1.position.z)), ?_⟩
    rw [if_neg hlt]
    simp only [Vec3.subtract, Vec3.scale]
    congr 1 <;> ring

/-- Acceleration of the first of two physics bodies: the pair force
scaled by one over its floored scene mass. -/
theorem accelMap_pair_fst (cfg : PhysicsConfig) (o1 o2 : CosmicObject)
    (hne : o2.id ≠ o1.id) :
    accelMap cfg [o1, o2] o1.id =
      (calculateGravitationalForce cfg o1 o2).scale
        (1 / max (toSceneMass o1.mass) 0.1) := by
  unfold accelMap
  rw [findObj_cons_eq]
  dsimp only
  unfold accelOf
  dsimp only
  have hflt : List.filter (fun p => !(p.id == o1.id)) [o1, o2] = [o2] := by
    simp [hne]
  rw [hflt]
  simp only [List.foldl_cons, List.foldl_nil, Vec3.zero_add]

/-- Acceleration of the second of two physics bodies. -/
theorem accelMap_pair_snd (cfg : PhysicsConfig) (o1 o2 : CosmicObject)
    (hne : o1.id ≠ o2.id) :
    accelMap cfg [o1, o2] o2.id =
      (calculateGravitationalForce cfg o2 o1).scale
        (1 / max (toSceneMass o2.mass) 0.1) := by
  unfold accelMap
  rw [findObj_cons_ne o1 [o2] o2.id hne, findObj_cons_eq]
  dsimp only
  unfold accelOf
  dsimp only
  have hflt : List.filter (fun p => !(p.id == o2.id)) [o1, o2] = [o1] := by
    simp [hne]
  rw [hflt]
  simp only [List.foldl_cons, List.foldl_nil, Vec3.zero_add]

/-- For equal masses the two accelerations of a pair are equal and
opposite. -/
theorem accelMap_pair_antisymm (cfg : PhysicsConfig) (o1 o2 : CosmicObject)
    (hne : o1.id ≠ o2.id) (hm : o1.mass = o2.mass) :
    accelMap cfg [o1, o2] o2.id = (accelMap cfg [o1, o2] o1.id).neg := by
  rw [accelMap_pair_fst cfg o1 o2 (fun h => hne h.symm),
      accelMap_pair_snd cfg o1 o2 hne,
      calculateGravitationalForce_antisymm, Vec3.neg_scale, hm]

/-- The first body's acceleration is collinear with the line to the
second body. -/
theorem accelMap_pair_collinear (cfg : PhysicsConfig) (o1 o2 : CosmicObject)
    (hne : o2.id ≠ o1.id) :
    ∃ c : ℝ, accelMap cfg [o1, o2] o1.id =
      (o2.position.subtract o1.position).scale c := by
  obtain ⟨c, hc⟩ := calculateGravitationalForce_collinear cfg o1 o2
  refine ⟨c * (1 / max (toSceneMass o1.mass) 0.1), ?_⟩
  rw [accelMap_pair_fst cfg o1 o2 hne, hc, Vec3.scale_scale]

/-- Displacement of a resting body over one position half-step:
0.5·a·dt². -/
theorem posStep_disp (a : Vec3) (dt : ℝ) (o : CosmicObject)
    (hv : o.velocity = Vec3.zero) :
    (posStep a dt o).position.subtract o.position = a.scale (0.5 * dt * dt) := by
  have h : (posStep a dt o).position =
      ⟨o.position.x + o.velocity.x * dt + a.x * (0.5 * dt * dt),
       o.position.y + o.velocity.y * dt + a.y * (0.5 * dt * dt),
       o.position.z + o.velocity.z * dt + a.z * (0.5 * dt * dt)⟩ := rfl
  rw [h, hv]
  simp only [Vec3.zero, Vec3.subtract, Vec3.scale]
  congr 1 <;> ring

/-- After the position half-step with equal and opposite collinear
accelerations, the separation vector stays on the initial line. -/
theorem posStep_diff (a : Vec3) (dt : ℝ) (o1 o2 : CosmicObject) (c : ℝ)
    (hv1 : o1.velocity = Vec3.zero) (hv2 : o2.velocity = Vec3.zero)
    (ha : a = (o2.position.subtract o1.position).scale c) :
    (posStep a.neg dt o2).position.subtract (posStep a dt o1).position =
      (o2.position.subtract o1.position).scale
        (1 - 2 * c * (0.5 * dt * dt)) := by
  have h1 : (posStep a dt o1).position =
      ⟨o1.position.x + o1.velocity.x * dt + a.x * (0.5 * dt * dt),
       o1.position.y + o1.velocity.y * dt + a.y * (0.5 * dt * dt),
       o1.position.z + o1.velocity.z * dt + a.z * (0.5 * dt * dt)⟩ := rfl
  have h2 : (posStep a.neg dt o2).position =
      ⟨o2.position.x + o2.velocity.x * dt + a.neg.x * (0.5 * dt * dt),
       o2.position.y + o2.velocity.y * dt + a.neg.y * (0.5 * dt * dt),
       o2.position.z + o2.velocity.z * dt + a.neg.z * (0.5 * dt * dt)⟩ := rfl
  rw [h1, h2, hv1, hv2, ha]
  simp only [Vec3.zero, Vec3.subtract, Vec3.scale, Vec3.neg]
  congr 1 <;> ring

/-- The velocity produced by the STEP 4 update for a resting body, before
and after the clamp, as a clamped multiple of (a1 + a2)·0.5·dt. -/
theorem velStep_velocity_eq (cfg : PhysicsConfig) (a1 a2 : Vec3) (dt : ℝ)
    (o : CosmicObject) (hv : o.velocity = Vec3.zero) :
    (velStep cfg a1 a2 dt o).velocity =
      (if ((a1.add a2).scale (0.5 * dt)).magnitude > cfg.maxVelocity then
        ((a1.add a2).scale (0.5 * dt)).scale
          (cfg.maxVelocity / ((a1.add a2).scale (0.5 * dt)).magnitude)
      else (a1.add a2).scale (0.5 * dt)) := by
  have hvv : (⟨o.velocity.x + (a1.x + a2.x) * (0.5 * dt),
      o.velocity.y + (a1.y + a2.y) * (0.5 * dt),
      o.velocity.z + (a1.z + a2.z) * (0.5 * dt)⟩ : Vec3) =
      (a1.add a2).scale (0.5 * dt) := by
    rw [hv]
    simp only [Vec3.zero, Vec3.add, Vec3.scale]
    congr 1 <;> ring
  show (if (⟨o.velocity.x + (a1.x + a2.x) * (0.5 * dt),
      o.velocity.y + (a1.y + a2.y) * (0.5 * dt),
      o.velocity.z + (a1.z + a2.z) * (0.5 * dt)⟩ : Vec3).magnitude >
        cfg.maxVelocity then
      (⟨o.velocity.x + (a1.x + a2.x) * (0.5 * dt),
        o.velocity.y + (a1.y + a2.y) * (0.5 * dt),
        o.velocity.z + (a1.z + a2.z) * (0.5 * dt)⟩ : Vec3).scale
        (cfg.maxVelocity /
          (⟨o.velocity.x + (a1.x + a2.x) * (0.5 * dt),
            o.velocity.y + (a1.y + a2.y) * (0.5 * dt),
            o.velocity.z + (a1.z + a2.z) * (0.5 * dt)⟩ : Vec3).magnitude)
    else (⟨o.velocity.x + (a1.x + a2.x) * (0.5 * dt),
      o.velocity.y + (a1.y + a2.y) * (0.5 * dt),
      o.velocity.z + (a1.z + a2.z) * (0.5 * dt)⟩ : Vec3)) = _
  rw [hvv]

/-- Negating both accelerations negates the clamped updated velocity of a
resting body: the clamp ratio is magnitude-invariant. -/
theorem velStep_velocity_antisymm (cfg : PhysicsConfig) (a1 a2 : Vec3)
    (dt : ℝ) (o1 o2 : CosmicObject) (hv1 : o1.velocity = Vec3.zero)
    (hv2 : o2.velocity = Vec3.zero) :
    (velStep cfg a1.neg a2.neg dt o2).velocity =
      ((velStep cfg a1 a2 dt o1).velocity).neg := by
  rw [velStep_velocity_eq cfg a1 a2 dt o1 hv1,
      velStep_velocity_eq cfg a1.neg a2.neg dt o2 hv2]
  rw [Vec3.neg_add, Vec3.neg_scale, Vec3.magnitude_neg]
  by_cases hgt : ((a1.add a2).scale (0.5 * dt)).magnitude > cfg.maxVelocity
  · rw [if_pos hgt, if_pos hgt, Vec3.neg_scale]
  · rw [if_neg hgt, if_neg hgt]

/-- If both accelerations lie along u, the clamped updated velocity of a
resting body lies along u. -/
theorem velStep_velocity_scale (cfg : PhysicsConfig) (a1 a2 : Vec3) (dt : ℝ)
    (o : CosmicObject) (hv : o.velocity = Vec3.zero) (u : Vec3) (c1 c2 : ℝ)
    (h1 : a1 = u.scale c1) (h2 : a2 = u.scale c2) :
    ∃ k : ℝ, (velStep cfg a1 a2 dt o).velocity = u.scale k := by
  rw [velStep_velocity_eq cfg a1 a2 dt o hv, h1, h2, Vec3.scale_add_scale,
    Vec3.scale_scale]
  by_cases hgt : (u.scale ((c1 + c2) * (0.5 * dt))).magnitude > cfg.maxVelocity
  · refine ⟨(c1 + c2) * (0.5 * dt) *
      (cfg.maxVelocity / (u.scale ((c1 + c2) * (0.5 * dt))).magnitude), ?_⟩
    rw [if_pos hgt, Vec3.scale_scale]
  · exact ⟨(c1 + c2) * (0.5 * dt), by rw [if_neg hgt]⟩

/-- One Verlet pass over exactly two physics-enabled bodies, written as
the two per-object updates. -/
theorem integrate_pair (cfg : PhysicsConfig) (dt : ℝ) (o1 o2 : CosmicObject)
    (h1e : o1.isPhysicsEnabled = true) (h2e : o2.isPhysicsEnabled = true) :
    integrate cfg dt [o1, o2] =
      [velStep cfg (accelMap cfg [o1, o2] o1.id)
        (accelMap cfg [posStep (accelMap cfg [o1, o2] o1.id) dt o1,
                       posStep (accelMap cfg [o1, o2] o2.id) dt o2] o1.id) dt
        (posStep (accelMap cfg [o1, o2] o1.id) dt o1),
       velStep cfg (accelMap cfg [o1, o2] o2.id)
        (accelMap cfg [posStep (accelMap cfg [o1, o2] o1.id) dt o1,
                       posStep (accelMap cfg [o1, o2] o2.id) dt o2] o2.id) dt
        (posStep (accelMap cfg [o1, o2] o2.id) dt o2)] := by
  have hflt : List.filter (fun o => o.isPhysicsEnabled) [o1, o2] = [o1, o2] := by
    simp [h1e, h2e]
  unfold integrate
  dsimp only
  rw [hflt]
  simp only [List.map_cons, List.map_nil]
  rw [if_pos h1e, if_pos h2e]
  have hflt2 : List.filter (fun o => o.isPhysicsEnabled)
      [posStep (accelMap cfg [o1, o2] o1.id) dt o1,
       posStep (accelMap cfg [o1, o2] o2.id) dt o2] =
      [posStep (accelMap cfg [o1, o2] o1.id) dt o1,
       posStep (accelMap cfg [o1, o2] o2.id) dt o2] := by
    simp [posStep, h1e, h2e]
  rw [hflt2]
  rw [if_pos (show (posStep (accelMap cfg [o1, o2] o1.id) dt o1).isPhysicsEnabled =
        true from h1e),
      if_pos (show (posStep (accelMap cfg [o1, o2] o2.id) dt o2).isPhysicsEnabled =
        true from h2e)]
  rfl

/-- C9: two physics-enabled equal-mass bodies at rest, separated by more
than the sum of their visual radii, move equal and opposite distances
along the line connecting the initial positions in one Verlet pass, and
their resulting velocities are equal and opposite along that same
line. -/
theorem equal_mass_rest_pair_step (cfg : PhysicsConfig) (dt : ℝ)
    (o1 o2 : CosmicObject)
    (h1e : o1.isPhysicsEnabled = true) (h2e : o2.isPhysicsEnabled = true)
    (hne : o1.id ≠ o2.id) (hm : o1.mass = o2.mass)
    (hv1 : o1.velocity = Vec3.zero) (hv2 : o2.velocity = Vec3.zero)
    (hsep : getVisualRadius o1 + getVisualRadius o2 <
      o1.position.distanceTo o2.position) :
    ∃ o1' o2' : CosmicObject,
      integrate cfg dt [o1, o2] = [o1', o2'] ∧
      o1'.id = o1.id ∧ o2'.id = o2.id ∧
      o2'.position.subtract o2.position =
        (o1'.position.subtract o1.position).neg ∧
      (∃ c : ℝ, o1'.position.subtract o1.position =
        (o2.position.subtract o1.position).scale c) ∧
      o2'.velocity = (o1'.velocity).neg ∧
      (∃ k : ℝ, o1'.velocity = (o2.position.subtract o1.position).scale k) := by
  have hne' : o2.id ≠ o1.id := fun h => hne h.symm
  obtain ⟨c, hc⟩ := accelMap_pair_collinear cfg o1 o2 hne'
  have ha2 := accelMap_pair_antisymm cfg o1 o2 hne hm
  rw [integrate_pair cfg dt o1 o2 h1e h2e]
  rw [ha2]
  generalize hA : accelMap cfg [o1, o2] o1.id = A
  rw [hA] at hc
  have hdiff := posStep_diff A dt o1 o2 c hv1 hv2 hc
  obtain ⟨c2, hc2⟩ := accelMap_pair_collinear cfg (posStep A dt o1)
    (posStep A.neg dt o2)
    (show (posStep A.neg dt o2).id ≠ (posStep A dt o1).id from hne')
  rw [hdiff] at hc2
  rw [Vec3.scale_scale] at hc2
  have hc2' : accelMap cfg [posStep A dt o1, posStep A.neg dt o2] o1.id =
      (o2.position.subtract o1.position).scale
        ((1 - 2 * c * (0.5 * dt * dt)) * c2) := hc2
  have hb2 : accelMap cfg [posStep A dt o1, posStep A.neg dt o2] o2.id =
      (accelMap cfg [posStep A dt o1, posStep A.neg dt o2] o1.id).neg :=
    accelMap_pair_antisymm cfg (posStep A dt o1) (posStep A.neg dt o2) hne hm
  rw [hb2]
  refine ⟨_, _, rfl, rfl, rfl, ?_, ?_, ?_, ?_⟩
  · show (posStep A.neg dt o2).position.subtract o2.position =
      ((posStep A dt o1).position.subtract o1.position).neg
    rw [posStep_disp A.neg dt o2 hv2, posStep_disp A dt o1 hv1]
    exact Vec3.neg_scale A (0.5 * dt * dt)
  · refine ⟨c * (0.5 * dt * dt), ?_⟩
    show (posStep A dt o1).position.subtract o1.position =
      (o2.position.subtract o1.position).scale (c * (0.5 * dt * dt))
    rw [posStep_disp A dt o1 hv1, hc, Vec3.scale_scale]
  · exact velStep_velocity_antisymm cfg A
      (accelMap cfg [posStep A dt o1, posStep A.neg dt o2] o1.id) dt
      (posStep A dt o1) (posStep A.neg dt o2) hv1 hv2
  · exact velStep_velocity_scale cfg A
      (accelMap cfg [posStep A dt o1, posStep A.neg dt o2] o1.id) dt
      (posStep A dt o1) hv1 (o2.position.subtract o1.position) c
      ((1 - 2 * c * (0.5 * dt * dt)) * c2) hc hc2'

/-- Witness for C9: the two concrete resting asteroids are separated by
10 > 0.6 visual-radius units, and one Verlet pass moves them equal and
opposite distances along the x axis with equal and opposite velocities. -/
theorem equal_mass_rest_pair_step_witness :
    getVisualRadius restA + getVisualRadius restB <
      restA.position.distanceTo restB.position ∧
    ∃ o1' o2' : CosmicObject,
      integrate DEFAULT_PHYSICS_CONFIG (1 / 60) [restA, restB] = [o1', o2'] ∧
      o1'.id = restA.id ∧ o2'.id = restB.id ∧
      o2'.position.subtract restB.position =
        (o1'.position.subtract restA.position).neg ∧
      (∃ c : ℝ, o1'.position.subtract restA.position =
        (restB.position.subtract restA.position).scale c) ∧
      o2'.velocity = (o1'.velocity).neg ∧
      (∃ k : ℝ, o1'.velocity =
        (restB.position.subtract restA.position).scale k) := by
  have hd : restA.position.distanceTo restB.position = 10 := by
    show Real.sqrt ((0 - 10) * (0 - 10) + (0 - 0) * (0 - 0) + (0 - 0) * (0 - 0)) = 10
    have h : ((0 : ℝ) - 10) * (0 - 10) + (0 - 0) * (0 - 0) + (0 - 0) * (0 - 0) =
        10 ^ 2 := by norm_num
    rw [h]
    exact Real.sqrt_sq (by norm_num)
  have hsep : getVisualRadius restA + getVisualRadius restB <
      restA.position.distanceTo restB.position := by
    rw [hd]
    show (0.3 : ℝ) + 0.3 < 10
    norm_num
  exact ⟨hsep, equal_mass_rest_pair_step DEFAULT_PHYSICS_CONFIG (1 / 60)
    restA restB rfl rfl (by decide) rfl rfl rfl hsep⟩

/-- One Verlet pass over a single physics-enabled body, written as the
per-object updates. -/
theorem integrate_single (cfg : PhysicsConfig) (dt : ℝ) (b : CosmicObject)
    (he : b.isPhysicsEnabled = true) :
    integrate cfg dt [b] =
      [velStep cfg (accelMap cfg [b] b.id)
        (accelMap cfg [posStep (accelMap cfg [b] b.id) dt b] b.id) dt
        (posStep (accelMap cfg [b] b.id) dt b)] := by
  have hflt : List.filter (fun o => o.isPhysicsEnabled) [b] = [b] := by
    simp [he]
  unfold integrate
  dsimp only
  rw [hflt]
  simp only [List.map_cons, List.map_nil]
  rw [if_pos he]
  have hflt2 : List.filter (fun o => o.isPhysicsEnabled)
      [posStep (accelMap cfg [b] b.id) dt b] =
      [posStep (accelMap cfg [b] b.id) dt b] := by
    simp [posStep, he]
  rw [hflt2]
  rw [if_pos (show (posStep (accelMap cfg [b] b.id) dt b).isPhysicsEnabled =
    true from he)]
  rfl

/-- A collision pass over a one-object map scans no pairs and leaves
everything but the pending-removal set (emptied) and the object count
(refreshed) unchanged. -/
theorem processCollisions_single (cfg : PhysicsConfig)
    (randFor : ℕ → ℕ → HandlerRand) (now : ℝ) (stx : EngineState)
    (x : CosmicObject) (hen : cfg.enableCollisions = true)
    (hobs : stx.objects = [x]) (hrm : stx.objectsToRemove = [])
    (he : x.isPhysicsEnabled = true) :
    processCollisions cfg randFor now stx =
      { objects := [x]
        objectsToRemove := []
        collisionEvents := stx.collisionEvents
        kilonovaCollapses := stx.kilonovaCollapses
        collisions := stx.collisions
        objectCount := 1 } := by
  rw [processCollisions_eq cfg randFor now stx hen]
  have hsnap : collisionSnapshot stx = [x] := by
    unfold collisionSnapshot
    rw [hobs, hrm]
    simp [he]
  have hscan : collisionScan randFor now stx =
      { objects := stx.objects
        objectsToRemove := stx.objectsToRemove
        debrisToAdd := []
        collisionEvents := stx.collisionEvents
        kilonovaCollapses := stx.kilonovaCollapses
        collisions := stx.collisions
        checkedLog := [] } := by
    unfold collisionScan
    rw [hsnap]
    simp only [List.map_cons, List.map_nil]
    rfl
  rw [hscan]
  rw [hobs, hrm]
  simp

/-- The nebula pass skips a one-object map holding no nebula, refreshing
only the object count. -/
theorem processNebulaEvolution_skip (nrand : ℕ → HandlerRand) (now : ℝ)
    (stx : EngineState) (x : CosmicObject) (hobs : stx.objects = [x])
    (hneb : (x.type == NEBULA) = false) :
    processNebulaEvolution nrand now stx =
      { objects := [x]
        objectsToRemove := stx.objectsToRemove
        collisionEvents := stx.collisionEvents
        kilonovaCollapses := stx.kilonovaCollapses
        collisions := stx.collisions
        objectCount := 1 } := by
  unfold processNebulaEvolution
  dsimp only
  rw [hobs]
  simp [hneb]

/-- A kilonova pass over exactly one due record deletes its debris ids,
appends the recorded accreting black hole (generated id index 0) and
discards the record. -/
theorem processKilonovaCollapse_due (freshIds : ℕ → ℕ) (now : ℝ)
    (stx : EngineState) (rec : KilonovaRecord)
    (hkc : stx.kilonovaCollapses = [rec])
    (hdue : now - rec.timestamp ≥ 5000) :
    processKilonovaCollapse freshIds now stx =
      { objects := (stx.objects.filter fun o => !(rec.debrisIds.contains o.id)) ++
          [createBlackHoleModel (freshIds 0) now "Kilonova Black Hole"
            rec.centerPos rec.centerVel (rec.combinedMass / M_sun) 0.7 true]
        objectsToRemove := stx.objectsToRemove
        collisionEvents := stx.collisionEvents
        kilonovaCollapses := []
        collisions := stx.collisions
        objectCount := ((stx.objects.filter fun o =>
          !(rec.debrisIds.contains o.id)) ++
          [createBlackHoleModel (freshIds 0) now "Kilonova Black Hole"
            rec.centerPos rec.centerVel (rec.combinedMass / M_sun) 0.7 true]).length } := by
  unfold processKilonovaCollapse
  dsimp only
  rw [hkc]
  simp only [List.enum_cons, List.enumFrom_nil, List.foldl_cons, List.foldl_nil]
  rw [if_pos hdue]
  have hrem : List.filter (fun kn => decide (¬ now - kn.timestamp ≥ 5000)) [rec] =
      [] := by
    simp [hdue]
  have hany : List.any [rec] (fun kn => decide (now - kn.timestamp ≥ 5000)) =
      true := by
    simp [hdue]
  rw [hrem, hany]
  rw [if_pos rfl]

/-- C10 counterexample: after clear() the object map is empty, so a later
step() — even one past the record's 5000 ms delay — early-returns before
the kilonova processor runs: no black hole is inserted and the record
stays pending. -/
theorem clear_kilonova_counterexample :
    (clear kcState).objects = [] ∧
    (clear kcState).kilonovaCollapses = [kcRecord] ∧
    (7000 : ℝ) - kcRecord.timestamp ≥ 5000 ∧
    step DEFAULT_PHYSICS_CONFIG (fun _ _ => zeroRand) (fun _ => zeroRand)
      (fun k => 2000 + k) 7000 none (clear kcState) = clear kcState := by
  refine ⟨rfl, rfl, by show (7000 : ℝ) - 1000 ≥ 5000; norm_num, ?_⟩
  have hdt : ¬ ((Option.getD none DEFAULT_PHYSICS_CONFIG.dt) < (1e-10 : ℝ)) := by
    show ¬ ((1 / 60 : ℝ) < 1e-10)
    norm_num
  have hempty : (((clear kcState).objects.filter
      (fun o => o.isPhysicsEnabled)).isEmpty = true) := rfl
  unfold step
  dsimp only
  rw [if_neg hdt, if_pos hempty]

/-- C10 amended: clear() empties the map, the counters and the event log
while keeping the pending kilonova records and the pending-removal set;
a post-delay step() inserts the recorded black hole only when at least
one physics-enabled object exists again — here one non-nebula helper
object added after the clear. -/
theorem clear_kilonova_amended (cfg : PhysicsConfig)
    (randFor : ℕ → ℕ → HandlerRand) (nrand : ℕ → HandlerRand)
    (freshIds : ℕ → ℕ) (now : ℝ) (st : EngineState) (rec : KilonovaRecord)
    (b : CosmicObject)
    (hen : cfg.enableCollisions = true)
    (hdt : ¬ cfg.dt < 1e-10)
    (hrm0 : st.objectsToRemove = [])
    (hrecs : st.kilonovaCollapses = [rec])
    (he : b.isPhysicsEnabled = true)
    (hnotneb : (b.type == NEBULA) = false)
    (hdue : now - rec.timestamp ≥ 5000) :
    (clear st).objects = [] ∧
    (clear st).objectCount = 0 ∧
    (clear st).collisions = 0 ∧
    (clear st).collisionEvents = [] ∧
    (clear st).kilonovaCollapses = st.kilonovaCollapses ∧
    ∃ objs : List CosmicObject,
      step cfg randFor nrand freshIds now none (addObject (clear st) b) =
        { objects := objs ++ [createBlackHoleModel (freshIds 0) now
            "Kilonova Black Hole" rec.centerPos rec.centerVel
            (rec.combinedMass / M_sun) 0.7 true]
          objectsToRemove := []
          collisionEvents := []
          kilonovaCollapses := []
          collisions := 0
          objectCount := (objs ++ [createBlackHoleModel (freshIds 0) now
            "Kilonova Black Hole" rec.centerPos rec.centerVel
            (rec.combinedMass / M_sun) 0.7 true]).length } := by
  refine ⟨rfl, rfl, rfl, rfl, rfl, ?_⟩
  have hdt' : ¬ ((Option.getD none cfg.dt) < (1e-10 : ℝ)) := hdt
  have hflt1 : ((addObject (clear st) b).objects.filter
      (fun o => o.isPhysicsEnabled)).isEmpty = false := by
    show (([b].filter (fun o => o.isPhysicsEnabled))).isEmpty = false
    simp [he]
  have hng : ¬ (((addObject (clear st) b).objects.filter
      (fun o => o.isPhysicsEnabled)).isEmpty = true) := by
    simp only [hflt1]
    exact Bool.false_ne_true
  have hstep : step cfg randFor nrand freshIds now none (addObject (clear st) b) =
      processKilonovaCollapse freshIds now (processNebulaEvolution nrand now
        (processCollisions cfg randFor now
          { objects := integrate cfg (Option.getD none cfg.dt) [b]
            objectsToRemove := st.objectsToRemove
            collisionEvents := []
            kilonovaCollapses := st.kilonovaCollapses
            collisions := 0
            objectCount := 1 })) := by
    unfold step
    dsimp only
    rw [if_neg hdt', if_neg hng]
    rfl
  rw [hstep]
  rw [integrate_single cfg (Option.getD none cfg.dt) b he]
  generalize hB : velStep cfg (accelMap cfg [b] b.id)
      (accelMap cfg [posStep (accelMap cfg [b] b.id) (Option.getD none cfg.dt) b]
        b.id)
      (Option.getD none cfg.dt)
      (posStep (accelMap cfg [b] b.id) (Option.getD none cfg.dt) b) = B
  have heB : B.isPhysicsEnabled = true := by
    rw [← hB]
    exact he
  have hnB : (B.type == NEBULA) = false := by
    rw [← hB]
    exact hnotneb
  have h1 : processCollisions cfg randFor now
      { objects := [B]
        objectsToRemove := st.objectsToRemove
        collisionEvents := []
        kilonovaCollapses := st.kilonovaCollapses
        collisions := 0
        objectCount := 1 } =
      { objects := [B]
        objectsToRemove := []
        collisionEvents := []
        kilonovaCollapses := st.kilonovaCollapses
        collisions := 0
        objectCount := 1 } :=
    processCollisions_single cfg randFor now _ B hen rfl hrm0 heB
  rw [h1]
  have h2 : processNebulaEvolution nrand now
      { objects := [B]
        objectsToRemove := []
        collisionEvents := []
        kilonovaCollapses := st.kilonovaCollapses
        collisions := 0
        objectCount := 1 } =
      { objects := [B]
        objectsToRemove := []
        collisionEvents := []
        kilonovaCollapses := st.kilonovaCollapses
        collisions := 0
        objectCount := 1 } :=
    processNebulaEvolution_skip nrand now _ B rfl hnB
  rw [h2]
  have h3 : processKilonovaCollapse freshIds now
      { objects := [B]
        objectsToRemove := []
        collisionEvents := []
        kilonovaCollapses := st.kilonovaCollapses
        collisions := 0
        objectCount := 1 } =
      { objects := ([B].filter fun o => !(rec.debrisIds.contains o.id)) ++
          [createBlackHoleModel (freshIds 0) now "Kilonova Black Hole"
            rec.centerPos rec.centerVel (rec.combinedMass / M_sun) 0.7 true]
        objectsToRemove := []
        collisionEvents := []
        kilonovaCollapses := []
        collisions := 0
        objectCount := (([B].filter fun o => !(rec.debrisIds.contains o.id)) ++
          [createBlackHoleModel (freshIds 0) now "Kilonova Black Hole"
            rec.centerPos rec.centerVel (rec.combinedMass / M_sun) 0.7 true]).length } :=
    processKilonovaCollapse_due freshIds now _ rec hrecs hdue
  rw [h3]
  exact ⟨[B].filter fun o => !(rec.debrisIds.contains o.id), rfl⟩

/-- Witness for the C10 amended claim: the concrete cleared state plus
one asteroid stepped at 7000 ms (record timestamp 1000 ms). -/
theorem clear_kilonova_amended_witness :
    (clear kcState).objects = [] ∧
    (clear kcState).objectCount = 0 ∧
    (clear kcState).collisions = 0 ∧
    (clear kcState).collisionEvents = [] ∧
    (clear kcState).kilonovaCollapses = kcState.kilonovaCollapses ∧
    ∃ objs : List CosmicObject,
      step DEFAULT_PHYSICS_CONFIG (fun _ _ => zeroRand) (fun _ => zeroRand)
        (fun k => 2000 + k) 7000 none (addObject (clear kcState) sampleObject) =
        { objects := objs ++ [createBlackHoleModel ((fun k => 2000 + k) 0) 7000
            "Kilonova Black Hole" kcRecord.centerPos kcRecord.centerVel
            (kcRecord.combinedMass / M_sun) 0.7 true]
          objectsToRemove := []
          collisionEvents := []
          kilonovaCollapses := []
          collisions := 0
          objectCount := (objs ++ [createBlackHoleModel ((fun k => 2000 + k) 0) 7000
            "Kilonova Black Hole" kcRecord.centerPos kcRecord.centerVel
            (kcRecord.combinedMass / M_sun) 0.7 true]).length } :=
  clear_kilonova_amended DEFAULT_PHYSICS_CONFIG (fun _ _ => zeroRand)
    (fun _ => zeroRand) (fun k => 2000 + k) 7000 kcState kcRecord sampleObject
    rfl (by show ¬ ((1 / 60 : ℝ) < 1e-10); norm_num) rfl rfl rfl rfl
    (by show (7000 : ℝ) - 1000 ≥ 5000; norm_num)

end NBody
